import Mathlib

/-!
# Resource manager: resource cache and procedural meshes

A shallow embedding of `ResourceManager` (src/resource_manager.cpp): the
name-addressed resource cache (`AddResource`, `GetResource`) and the mesh
generators (`CreateCube`, `CreateSphere`, `CreateTorus`,
`CreateCylindricalGeometry`), the loaders (`LoadResource`, `LoadMaterial`,
`LoadTexture`), and of the game code that moves the player and the obstacles
(`Game::KeyCallback`, `Game::AABBcheck`, `Player::Update`, `Obstacle::Update`).

Conventions of the embedding.

* `int` sample counts, loop counters and buffer offsets are natural numbers,
  without overflow: the embedding is that of the source as long as every
  `int` value stays below 2^31.  The one `int` that can be negative where it
  is converted to `GLuint`, `num_samples_phi - 1` in the face count of
  `CreateSphere`, is an `Int` reduced modulo 2^32.
* `GLfloat` values of the generators are elements of a field: the rationals
  for the literal tables of the cube, the reals for the parametric surfaces,
  whose definitions take the scalar field, `cos`, `sin` and `pi` as
  arguments; the claims on them are claims over the reals.
* A vertex index that the source keeps in a `glm::vec3` before the
  `(GLuint)` conversion is rounded to a 32-bit float on the way
  (`float32_index`): exact below 2^24 = 16777216, rounded to the nearest
  float, ties to even, from there on.
* The scalar operations of the game code take their rounding as an argument
  (`Rounding`): `Rounding.exact` is arithmetic without rounding,
  `Rounding.ieee` rounds every `float` result with `float32` and every
  `double` result with `float64`.
* The two `new` of a generator succeed in `CreateSphere`, `CreateTorus` and
  `CreateCylindricalGeometry`; `ResourceManager.CreateSphere` and its like add
  the `try` block, with the outcome of the allocations as an argument.
* A heap buffer obtained with `new T[n]` is a map from offsets to
  `Option T`; `none` marks an element that was never stored to.
* The OpenGL calls are not modelled; the buffer names that `glGenBuffers`
  returns are arguments of the generators.
-/

namespace game

/-! ## Resources -/

/-- Modelled from the spec: the enumeration `ResourceType` of the absent header
resource.h, the closed set of resource kinds Mesh, Material, Texture. -/
inductive ResourceType where
  | Material
  | Texture
  | Mesh
  deriving DecidableEq, Repr

/-- Modelled from the spec: the GPU handle(s) held by a `Resource` of the absent
header resource.h, a single handle (program or texture) for the four-argument
constructor, a pair (vertex buffer, index buffer) for the five-argument one. -/
inductive Handles where
  | single (resource : Nat)
  | pair (array_buffer : Nat) (element_array_buffer : Nat)
  deriving DecidableEq, Repr

/-- Modelled from the spec: the class `Resource` of the absent header resource.h,
the record of type, name, handle(s) and size stored by its constructors. -/
structure Resource where
  type : ResourceType
  name : String
  handles : Handles
  size : Nat
  deriving DecidableEq, Repr

/-- The accessor `Resource::GetName`. -/
def Resource.GetName (r : Resource) : String := r.name

/-- The state of a `ResourceManager`: the vector `resource_`, in insertion
order. -/
structure ResourceManager where
  resource_ : List Resource
  deriving DecidableEq, Repr

/-- The constructor `ResourceManager::ResourceManager`: an empty cache. -/
def ResourceManager.new : ResourceManager := ⟨[]⟩

/-- The overload `AddResource(type, name, resource, size)`: push_back of a new
one-handle resource. -/
def AddResource (rm : ResourceManager) (type : ResourceType) (name : String)
    (resource : Nat) (size : Nat) : ResourceManager :=
  ⟨rm.resource_ ++ [Resource.mk type name (Handles.single resource) size]⟩

/-- The overload `AddResource(type, name, array_buffer, element_array_buffer,
size)`: push_back of a new two-handle resource. -/
def AddResource2 (rm : ResourceManager) (type : ResourceType) (name : String)
    (array_buffer : Nat) (element_array_buffer : Nat) (size : Nat) : ResourceManager :=
  ⟨rm.resource_ ++ [Resource.mk type name (Handles.pair array_buffer element_array_buffer) size]⟩

/-- The loop of `GetResource`: scan upwards from the front, return the first
element whose name equals `name`, `none` (NULL) when the scan runs off the end. -/
def GetResource.scan : List Resource → String → Option Resource
  | [], _ => none
  | r :: rest, name => if r.GetName = name then some r else GetResource.scan rest name

/-- The const method `ResourceManager::GetResource(name)`; `none` is NULL. -/
def GetResource (rm : ResourceManager) (name : String) : Option Resource :=
  GetResource.scan rm.resource_ name

/-! ## Heap buffers and loops -/

/-- The vector type `glm::vec3`. -/
structure vec3 (α : Type) where
  x : α
  y : α
  z : α

/-- The component access `v[k]` of `glm::vec3`, for `k` in 0, 1, 2. -/
def vec3.get {α : Type} (v : vec3 α) (k : Nat) : α :=
  if k = 0 then v.x else if k = 1 then v.y else v.z

/-- Addition of two `glm::vec3`. -/
def vec3.add {α : Type} [Add α] (a b : vec3 α) : vec3 α :=
  ⟨a.x + b.x, a.y + b.y, a.z + b.z⟩

/-- Product `v * s` of a `glm::vec3` and a scalar. -/
def vec3.scale {α : Type} [Mul α] (v : vec3 α) (s : α) : vec3 α :=
  ⟨v.x * s, v.y * s, v.z * s⟩

/-- The vector type `glm::vec2`. -/
structure vec2 (α : Type) where
  x : α
  y : α

/-- The component access `v[k]` of `glm::vec2`, for `k` in 0, 1. -/
def vec2.get {α : Type} (v : vec2 α) (k : Nat) : α :=
  if k = 0 then v.x else v.y

/-- The scalar operations of the math library that the generators use, over
the scalar type `α`. -/
structure Trig (α : Type) where
  cos : α → α
  sin : α → α
  pi : α

/-- A buffer allocated with `new T[n]`, addressed by element offset; `none` is
an element that no statement has stored to. -/
abbrev Buffer (α : Type) := Nat → Option α

/-- A freshly allocated buffer: nothing stored yet. -/
def Buffer.new {α : Type} : Buffer α := fun _ => none

/-- The assignment `buffer[s] = v`. -/
def Buffer.set {α : Type} (b : Buffer α) (s : Nat) (v : α) : Buffer α :=
  fun t => if t = s then some v else b t

/-- Perform a sequence of assignments `buffer[s] = v`, in program order. -/
def Buffer.stores {α : Type} (b : Buffer α) (ws : List (Nat × α)) : Buffer α :=
  ws.foldl (fun b w => b.set w.1 w.2) b

/-- The loop `for (int i = 0; i < n; i++)`: the stores of the body for
i = 0, 1, ..., n-1, in that order. -/
def forLoop {β : Type} (n : Nat) (body : Nat → List β) : List β :=
  (List.range n).flatMap body

/-- The number of attributes per vertex. -/
def vertex_att : Nat := 11

/-- The number of indices per face. -/
def face_att : Nat := 3

/-- What a mesh generator hands over: the element counts, the two heap buffers
as they are when passed to `glBufferData`, the number of elements each upload
copies, and the resource manager after the call. -/
structure MeshResult (α : Type) where
  vertex_num : Nat
  face_num : Nat
  vertex : Buffer α
  face : Buffer Nat
  vertex_upload : Nat
  face_upload : Nat
  rm : ResourceManager

/-- The interleaved layout of one vertex: the attribute stored at in-vertex
offset `c` (position 0..2, normal 3..5, colour 6..8, texture coordinate 9..10). -/
def vertexAttr {α : Type} (position normal color : vec3 α) (coord : vec2 α) (c : Nat) : α :=
  if c < 3 then position.get c
  else if c < 6 then normal.get (c - 3)
  else if c < 9 then color.get (c - 6)
  else coord.get (c - 9)

/-- The layout of the two triangles of one grid quad in the index buffer: the
index stored at in-quad offset `c` (triangle `t1` at 0..2, `t2` at 3..5). -/
def quadAttr (t1 t2 : vec3 Nat) (c : Nat) : Nat :=
  if c < 3 then t1.get c else t2.get (c - 3)

/-- Difference of two `glm::vec3`. -/
def vec3.sub {α : Type} [Sub α] (a b : vec3 α) : vec3 α :=
  ⟨a.x - b.x, a.y - b.y, a.z - b.z⟩

/-- The cross product `glm::cross`. -/
def vec3.cross {α : Type} [Mul α] [Sub α] (a b : vec3 α) : vec3 α :=
  ⟨a.y * b.z - a.z * b.y, a.z * b.x - a.x * b.z, a.x * b.y - a.y * b.x⟩

/-- The dot product `glm::dot`. -/
def vec3.dot {α : Type} [Mul α] [Add α] (a b : vec3 α) : α :=
  a.x * b.x + a.y * b.y + a.z * b.z

/-! ## Floating-point rounding -/

/-- Rounding of a rational to the nearest integer, a tie to the even one. -/
def roundTiesEven (q : ℚ) : ℤ :=
  if q - ⌊q⌋ < 1 / 2 then ⌊q⌋
  else if 1 / 2 < q - ⌊q⌋ then ⌊q⌋ + 1
  else if ⌊q⌋ % 2 = 0 then ⌊q⌋ else ⌊q⌋ + 1

/-- Rounding to the nearest binary floating-point number with `p` significand
bits, ties to even; `emin` is the exponent of the last bit of the subnormal
numbers.  Overflow to infinity is not modelled. -/
def roundFloat (p : Nat) (emin : Int) (q : ℚ) : ℚ :=
  let e := max (Int.log 2 |q| + 1 - p) emin
  roundTiesEven (q / 2 ^ e) * 2 ^ e

/-- Rounding to a 32-bit `float` (IEEE 754 binary32). -/
def float32 (q : ℚ) : ℚ := roundFloat 24 (-149) q

/-- Rounding to a 64-bit `double` (IEEE 754 binary64). -/
def float64 (q : ℚ) : ℚ := roundFloat 53 (-1074) q

/-- An index on its way through a component of a `glm::vec3`: the `int` is
converted to `float` by the constructor and the float back to an integer by the
cast `(GLuint)`.  Below 2^24 the float holds the index itself (see
`float32_index_eq_floor`, which shows that the first branch is the rounding
too). -/
def float32_index (n : Nat) : Nat :=
  if n < 2 ^ 24 then n else ⌊float32 (n : ℚ)⌋.toNat

/-- How the results of the scalar operations are rounded: `f32` is applied to
every result of type `float`, `f64` to every result of type `double`. -/
structure Rounding (α : Type) where
  f32 : α → α
  f64 : α → α

/-- Arithmetic without rounding. -/
def Rounding.exact (α : Type) : Rounding α := ⟨id, id⟩

/-- IEEE 754 arithmetic: `float` results rounded by `float32`, `double` results by
`float64`. -/
def Rounding.ieee : Rounding ℚ := ⟨float32, float64⟩

/-- The conversion of an `int` to `GLuint`: the value modulo 2^32. -/
def GLuint_of_int (z : Int) : Nat := (z % 2 ^ 32).toNat

/-! ## Cube -/

/-- The literal table `vertex` of `CreateCube`: 11 attributes per vertex. -/
def CreateCube.vertex : List ℚ := [
  -- First cube face
  -0.5, -0.5,  0.5,    0.0,  0.0,  1.0,    1.0, 0.0, 0.0,    0.0, 0.0,
   0.5, -0.5,  0.5,    0.0,  0.0,  1.0,    0.0, 1.0, 0.0,    1.0, 0.0,
   0.5,  0.5,  0.5,    0.0,  0.0,  1.0,    0.0, 0.0, 1.0,    1.0, 1.0,
  -0.5,  0.5,  0.5,    0.0,  0.0,  1.0,    1.0, 0.0, 1.0,    0.0, 1.0,
  -- Second cube face
   0.5, -0.5, -0.5,    1.0,  0.0,  0.0,    1.0, 0.0, 0.0,    0.0, 0.0,
   0.5,  0.5, -0.5,    1.0,  0.0,  0.0,    0.0, 1.0, 0.0,    1.0, 0.0,
   0.5,  0.5,  0.5,    1.0,  0.0,  0.0,    0.0, 0.0, 1.0,    1.0, 1.0,
   0.5, -0.5,  0.5,    1.0,  0.0,  0.0,    1.0, 0.0, 1.0,    0.0, 1.0,
  -- Third cube face
   0.5, -0.5, -0.5,    0.0,  0.0, -1.0,    1.0, 0.0, 0.0,    0.0, 0.0,
  -0.5, -0.5, -0.5,    0.0,  0.0, -1.0,    0.0, 1.0, 0.0,    1.0, 0.0,
  -0.5,  0.5, -0.5,    0.0,  0.0, -1.0,    0.0, 0.0, 1.0,    1.0, 1.0,
   0.5,  0.5, -0.5,    0.0,  0.0, -1.0,    1.0, 0.0, 1.0,    0.0, 1.0,
  -- Fourth cube face
  -0.5,  0.5, -0.5,   -1.0,  0.0,  0.0,    1.0, 0.0, 0.0,    0.0, 0.0,
  -0.5, -0.5, -0.5,   -1.0,  0.0,  0.0,    0.0, 1.0, 0.0,    1.0, 0.0,
  -0.5, -0.5,  0.5,   -1.0,  0.0,  0.0,    0.0, 0.0, 1.0,    1.0, 1.0,
  -0.5,  0.5,  0.5,   -1.0,  0.0,  0.0,    1.0, 0.0, 1.0,    0.0, 1.0,
  -- Fifth cube face
  -0.5,  0.5, -0.5,    0.0,  1.0,  0.0,    1.0, 0.0, 0.0,    0.0, 0.0,
  -0.5,  0.5,  0.5,    0.0,  1.0,  0.0,    0.0, 1.0, 0.0,    0.0, 1.0,
   0.5,  0.5,  0.5,    0.0,  1.0,  0.0,    0.0, 0.0, 1.0,    1.0, 1.0,
   0.5,  0.5, -0.5,    0.0,  1.0,  0.0,    1.0, 0.0, 1.0,    1.0, 0.0,
  -- Sixth cube face
   0.5, -0.5, -0.5,    0.0, -1.0,  0.0,    1.0, 0.0, 0.0,    0.0, 0.0,
  -0.5, -0.5, -0.5,    0.0, -1.0,  0.0,    0.0, 1.0, 0.0,    1.0, 0.0,
  -0.5, -0.5,  0.5,    0.0, -1.0,  0.0,    0.0, 0.0, 1.0,    1.0, 1.0,
   0.5, -0.5,  0.5,    0.0, -1.0,  0.0,    1.0, 0.0, 1.0,    0.0, 1.0]

/-- The literal table `face` of `CreateCube`: three indices per triangle. -/
def CreateCube.face : List Nat := [
  -- First cube face, with two triangles
  0, 1, 2,
  0, 2, 3,
  -- Second face
  4, 5, 6,
  4, 6, 7,
  -- Third face
  8, 9, 10,
  8, 10, 11,
  -- Fourth face
  12, 13, 14,
  12, 14, 15,
  -- Fifth face
  16, 17, 18,
  16, 18, 19,
  -- Sixth face
  20, 21, 22,
  20, 22, 23]

/-- The size in bytes of a `GLfloat`. -/
def sizeof_GLfloat : Nat := 4

/-- The size in bytes of a `GLuint`. -/
def sizeof_GLuint : Nat := 4

/-- What `CreateCube` hands over: the two arrays passed whole to `glBufferData`
and the resource manager after the call. -/
structure CubeResult where
  vertex : List ℚ
  face : List Nat
  rm : ResourceManager

/-- The method `ResourceManager::CreateCube(object_name)`; `vbo` and `ebo` are
the names returned by `glGenBuffers`. The registered size is
`sizeof(face) / sizeof(GLfloat)`. -/
def CreateCube (rm : ResourceManager) (object_name : String) (vbo ebo : Nat) : CubeResult :=
  { vertex := CreateCube.vertex
    face := CreateCube.face
    rm := AddResource2 rm ResourceType.Mesh object_name vbo ebo
            (CreateCube.face.length * sizeof_GLuint / sizeof_GLfloat) }

/-- The position attribute (offsets 0..2) of vertex `v` of the cube table. -/
def CreateCube.position (v : Nat) : vec3 ℚ :=
  ⟨CreateCube.vertex.getD (v * vertex_att) 0, CreateCube.vertex.getD (v * vertex_att + 1) 0,
   CreateCube.vertex.getD (v * vertex_att + 2) 0⟩

/-- The normal attribute (offsets 3..5) of vertex `v` of the cube table. -/
def CreateCube.normal (v : Nat) : vec3 ℚ :=
  ⟨CreateCube.vertex.getD (v * vertex_att + 3) 0, CreateCube.vertex.getD (v * vertex_att + 4) 0,
   CreateCube.vertex.getD (v * vertex_att + 5) 0⟩

/-- The index stored at corner `k` of triangle `t` of the cube table. -/
def CreateCube.corner (t k : Nat) : Nat :=
  CreateCube.face.getD (t * face_att + k) 0

/-- The orientation test of triangle `t` = (a, b, c) of the cube against the
normal stored at its first vertex: `dot(cross(p_b - p_a, p_c - p_a), n_a)`,
positive exactly when the triangle is counter-clockwise seen from that normal. -/
def CreateCube.winding (t : Nat) : ℚ :=
  let p_a := CreateCube.position (CreateCube.corner t 0)
  let p_b := CreateCube.position (CreateCube.corner t 1)
  let p_c := CreateCube.position (CreateCube.corner t 2)
  ((p_b.sub p_a).cross (p_c.sub p_a)).dot (CreateCube.normal (CreateCube.corner t 0))

/-! ## Sphere -/

/-- The angle `theta` of `CreateSphere` for the loop counter `i`.  The quotient is
that of the source for `num_samples_theta >= 2`; with `num_samples_theta = 1` the
source divides `0.0f` by 0 and gets NaN, which no element of a field stands for. -/
def CreateSphere.theta {α : Type} [Field α] (m : Trig α) (num_samples_theta i : Nat) : α :=
  2 * m.pi * (i : α) / ((num_samples_theta - 1 : Nat) : α)

/-- The angle `phi` of `CreateSphere` for the loop counter `j`.  The quotient is
that of the source for `num_samples_phi >= 2`; with `num_samples_phi = 1` the
source divides `0.0f` by 0 and gets NaN, which no element of a field stands for. -/
def CreateSphere.phi {α : Type} [Field α] (m : Trig α) (num_samples_phi j : Nat) : α :=
  m.pi * (j : α) / ((num_samples_phi - 1 : Nat) : α)

/-- The value `vertex_normal` of `CreateSphere` at the grid point (i, j). -/
def CreateSphere.vertex_normal {α : Type} [Field α] (m : Trig α)
    (num_samples_theta num_samples_phi i j : Nat) : vec3 α :=
  let theta := CreateSphere.theta m num_samples_theta i
  let phi := CreateSphere.phi m num_samples_phi j
  ⟨m.cos theta * m.sin phi, m.sin theta * m.sin phi, -m.cos phi⟩

/-- The value `vertex_position` of `CreateSphere` at the grid point (i, j). -/
def CreateSphere.vertex_position {α : Type} [Field α] (m : Trig α) (radius : α)
    (num_samples_theta num_samples_phi i j : Nat) : vec3 α :=
  let vertex_normal := CreateSphere.vertex_normal m num_samples_theta num_samples_phi i j
  ⟨vertex_normal.x * radius, vertex_normal.y * radius, vertex_normal.z * radius⟩

/-- The value `vertex_color` of `CreateSphere` at the grid point (i, j). -/
def CreateSphere.vertex_color {α : Type} [Field α]
    (num_samples_theta num_samples_phi i j : Nat) : vec3 α :=
  ⟨(i : α) / (num_samples_theta : α), 1 - (j : α) / (num_samples_phi : α),
   (j : α) / (num_samples_phi : α)⟩

/-- The value `vertex_coord` of `CreateSphere` at the grid point (i, j). -/
def CreateSphere.vertex_coord {α : Type} [Field α]
    (num_samples_theta num_samples_phi i j : Nat) : vec2 α :=
  ⟨(i : α) / (num_samples_theta : α), 1 - (j : α) / (num_samples_phi : α)⟩

/-- The stores of the vertex loop of `CreateSphere`, in program order. -/
def CreateSphere.vertexStores {α : Type} [Field α] (m : Trig α) (radius : α)
    (num_samples_theta num_samples_phi : Nat) : List (Nat × α) :=
  forLoop num_samples_theta fun i =>
    forLoop num_samples_phi fun j =>
      let vertex_normal := CreateSphere.vertex_normal m num_samples_theta num_samples_phi i j
      let vertex_position :=
        CreateSphere.vertex_position m radius num_samples_theta num_samples_phi i j
      let vertex_color : vec3 α := CreateSphere.vertex_color num_samples_theta num_samples_phi i j
      let vertex_coord : vec2 α := CreateSphere.vertex_coord num_samples_theta num_samples_phi i j
      (forLoop 3 fun k =>
        [((i * num_samples_phi + j) * vertex_att + k, vertex_position.get k),
         ((i * num_samples_phi + j) * vertex_att + k + 3, vertex_normal.get k),
         ((i * num_samples_phi + j) * vertex_att + k + 6, vertex_color.get k)]) ++
      [((i * num_samples_phi + j) * vertex_att + 9, vertex_coord.get 0),
       ((i * num_samples_phi + j) * vertex_att + 10, vertex_coord.get 1)]

/-- The triangle `t1` of the face loop of `CreateSphere` for the quad (i, j), as
stored: each component is an index held in a `glm::vec3` and converted back with
`(GLuint)`. -/
def CreateSphere.t1 (num_samples_theta num_samples_phi i j : Nat) : vec3 Nat :=
  ⟨float32_index (((i + 1) % num_samples_theta) * num_samples_phi + j),
   float32_index (i * num_samples_phi + (j + 1)),
   float32_index (i * num_samples_phi + j)⟩

/-- The triangle `t2` of the face loop of `CreateSphere` for the quad (i, j), as
stored. -/
def CreateSphere.t2 (num_samples_theta num_samples_phi i j : Nat) : vec3 Nat :=
  ⟨float32_index (((i + 1) % num_samples_theta) * num_samples_phi + j),
   float32_index (((i + 1) % num_samples_theta) * num_samples_phi + (j + 1)),
   float32_index (i * num_samples_phi + (j + 1))⟩

/-- The stores of the face loop of `CreateSphere`, in program order. -/
def CreateSphere.faceStores (num_samples_theta num_samples_phi : Nat) : List (Nat × Nat) :=
  forLoop num_samples_theta fun i =>
    forLoop (num_samples_phi - 1) fun j =>
      let t1 := CreateSphere.t1 num_samples_theta num_samples_phi i j
      let t2 := CreateSphere.t2 num_samples_theta num_samples_phi i j
      forLoop 3 fun k =>
        [((i * (num_samples_phi - 1) + j) * face_att * 2 + k, t1.get k),
         ((i * (num_samples_phi - 1) + j) * face_att * 2 + k + face_att, t2.get k)]

/-- The method `ResourceManager::CreateSphere(object_name, radius,
num_samples_theta, num_samples_phi)` when its two allocations succeed; `vbo`
and `ebo` are the names returned by `glGenBuffers`.  The face count is the `int`
`num_samples_theta * (num_samples_phi - 1) * 2` converted to `GLuint`, and the
product `face_num * face_att` is a product of `GLuint`, modulo 2^32 (a size
from 2^31 on reads as a negative `GLsizei`). -/
def CreateSphere {α : Type} [Field α] (m : Trig α) (rm : ResourceManager)
    (object_name : String) (radius : α) (num_samples_theta num_samples_phi : Nat)
    (vbo ebo : Nat) : MeshResult α :=
  let vertex_num := num_samples_theta * num_samples_phi
  let face_num :=
    GLuint_of_int ((num_samples_theta : Int) * ((num_samples_phi : Int) - 1) * 2)
  { vertex_num := vertex_num
    face_num := face_num
    vertex := Buffer.new.stores
      (CreateSphere.vertexStores m radius num_samples_theta num_samples_phi)
    face := Buffer.new.stores (CreateSphere.faceStores num_samples_theta num_samples_phi)
    vertex_upload := vertex_num * vertex_att * sizeof_GLfloat / sizeof_GLfloat
    face_upload := face_num * face_att % 2 ^ 32 * sizeof_GLuint / sizeof_GLuint
    rm := AddResource2 rm ResourceType.Mesh object_name vbo ebo
      (face_num * face_att % 2 ^ 32) }

/-! ## Torus -/

/-- The angle `theta` of `CreateTorus` for the loop counter `i`. -/
def CreateTorus.theta {α : Type} [Field α] (m : Trig α) (num_loop_samples i : Nat) : α :=
  2 * m.pi * (i : α) / (num_loop_samples : α)

/-- The angle `phi` of `CreateTorus` for the loop counter `j`. -/
def CreateTorus.phi {α : Type} [Field α] (m : Trig α) (num_circle_samples j : Nat) : α :=
  2 * m.pi * (j : α) / (num_circle_samples : α)

/-- The value `loop_center` of `CreateTorus` for the loop counter `i`. -/
def CreateTorus.loop_center {α : Type} [Field α] (m : Trig α) (loop_radius : α)
    (num_loop_samples i : Nat) : vec3 α :=
  let theta := CreateTorus.theta m num_loop_samples i
  ⟨loop_radius * m.cos theta, loop_radius * m.sin theta, 0⟩

/-- The value `vertex_normal` of `CreateTorus` at the grid point (i, j). -/
def CreateTorus.vertex_normal {α : Type} [Field α] (m : Trig α)
    (num_loop_samples num_circle_samples i j : Nat) : vec3 α :=
  let theta := CreateTorus.theta m num_loop_samples i
  let phi := CreateTorus.phi m num_circle_samples j
  ⟨m.cos theta * m.cos phi, m.sin theta * m.cos phi, m.sin phi⟩

/-- The value `vertex_position` of `CreateTorus` at the grid point (i, j). -/
def CreateTorus.vertex_position {α : Type} [Field α] (m : Trig α)
    (loop_radius circle_radius : α) (num_loop_samples num_circle_samples i j : Nat) : vec3 α :=
  (CreateTorus.loop_center m loop_radius num_loop_samples i).add
    ((CreateTorus.vertex_normal m num_loop_samples num_circle_samples i j).scale circle_radius)

/-- The value `vertex_color` of `CreateTorus` at the grid point (i, j). -/
def CreateTorus.vertex_color {α : Type} [Field α]
    (num_loop_samples num_circle_samples i j : Nat) : vec3 α :=
  ⟨1 - (i : α) / (num_loop_samples : α), (i : α) / (num_loop_samples : α),
   (j : α) / (num_circle_samples : α)⟩

/-- The value `vertex_coord` of `CreateTorus` at the grid point (i, j):
`theta / 2.0 * pi` and `phi / 2.0 * pi`, read left to right. -/
def CreateTorus.vertex_coord {α : Type} [Field α] (m : Trig α)
    (num_loop_samples num_circle_samples i j : Nat) : vec2 α :=
  ⟨CreateTorus.theta m num_loop_samples i / 2 * m.pi,
   CreateTorus.phi m num_circle_samples j / 2 * m.pi⟩

/-- The stores of the vertex loop of `CreateTorus`, in program order. -/
def CreateTorus.vertexStores {α : Type} [Field α] (m : Trig α) (loop_radius circle_radius : α)
    (num_loop_samples num_circle_samples : Nat) : List (Nat × α) :=
  forLoop num_loop_samples fun i =>
    forLoop num_circle_samples fun j =>
      let vertex_normal := CreateTorus.vertex_normal m num_loop_samples num_circle_samples i j
      let vertex_position := CreateTorus.vertex_position m loop_radius circle_radius
        num_loop_samples num_circle_samples i j
      let vertex_color : vec3 α := CreateTorus.vertex_color num_loop_samples num_circle_samples i j
      let vertex_coord := CreateTorus.vertex_coord m num_loop_samples num_circle_samples i j
      (forLoop 3 fun k =>
        [((i * num_circle_samples + j) * vertex_att + k, vertex_position.get k),
         ((i * num_circle_samples + j) * vertex_att + k + 3, vertex_normal.get k),
         ((i * num_circle_samples + j) * vertex_att + k + 6, vertex_color.get k)]) ++
      [((i * num_circle_samples + j) * vertex_att + 9, vertex_coord.get 0),
       ((i * num_circle_samples + j) * vertex_att + 10, vertex_coord.get 1)]

/-- The triangle `t1` of the triangle loop of `CreateTorus` for the quad (i, j),
as stored: each component is an index held in a `glm::vec3` and converted back
with `(GLuint)`. -/
def CreateTorus.t1 (num_loop_samples num_circle_samples i j : Nat) : vec3 Nat :=
  ⟨float32_index (((i + 1) % num_loop_samples) * num_circle_samples + j),
   float32_index (i * num_circle_samples + ((j + 1) % num_circle_samples)),
   float32_index (i * num_circle_samples + j)⟩

/-- The triangle `t2` of the triangle loop of `CreateTorus` for the quad (i, j),
as stored. -/
def CreateTorus.t2 (num_loop_samples num_circle_samples i j : Nat) : vec3 Nat :=
  ⟨float32_index (((i + 1) % num_loop_samples) * num_circle_samples + j),
   float32_index
     (((i + 1) % num_loop_samples) * num_circle_samples + ((j + 1) % num_circle_samples)),
   float32_index (i * num_circle_samples + ((j + 1) % num_circle_samples))⟩

/-- The stores of the triangle loop of `CreateTorus`, in program order. -/
def CreateTorus.faceStores (num_loop_samples num_circle_samples : Nat) : List (Nat × Nat) :=
  forLoop num_loop_samples fun i =>
    forLoop num_circle_samples fun j =>
      let t1 := CreateTorus.t1 num_loop_samples num_circle_samples i j
      let t2 := CreateTorus.t2 num_loop_samples num_circle_samples i j
      forLoop 3 fun k =>
        [((i * num_circle_samples + j) * face_att * 2 + k, t1.get k),
         ((i * num_circle_samples + j) * face_att * 2 + k + face_att, t2.get k)]

/-- The method `ResourceManager::CreateTorus(object_name, loop_radius,
circle_radius, num_loop_samples, num_circle_samples)`; `vbo` and `ebo` are the
names returned by `glGenBuffers`. -/
def CreateTorus {α : Type} [Field α] (m : Trig α) (rm : ResourceManager)
    (object_name : String) (loop_radius circle_radius : α)
    (num_loop_samples num_circle_samples : Nat) (vbo ebo : Nat) : MeshResult α :=
  let vertex_num := num_loop_samples * num_circle_samples
  let face_num := num_loop_samples * num_circle_samples * 2
  { vertex_num := vertex_num
    face_num := face_num
    vertex := Buffer.new.stores
      (CreateTorus.vertexStores m loop_radius circle_radius num_loop_samples num_circle_samples)
    face := Buffer.new.stores (CreateTorus.faceStores num_loop_samples num_circle_samples)
    vertex_upload := vertex_num * vertex_att * sizeof_GLfloat / sizeof_GLfloat
    face_upload := face_num * face_att * sizeof_GLuint / sizeof_GLuint
    rm := AddResource2 rm ResourceType.Mesh object_name vbo ebo (face_num * face_att) }

/-! ## Cylinder -/

/-- The interpolated radius of `CreateCylindricalGeometry` at level `i`, the
expression repeated in `vertex_normal` and `vertex_position`. -/
def CreateCylindricalGeometry.radius {α : Type} [Field α] (top_radius bottom_radius : α)
    (linear_samples i : Nat) : α :=
  ((i : α) / ((linear_samples - 1 : Nat) : α)) * top_radius +
    (1 - (i : α) / ((linear_samples - 1 : Nat) : α)) * bottom_radius

/-- The value `circle_center` of `CreateCylindricalGeometry` at level `i`. -/
def CreateCylindricalGeometry.circle_center {α : Type} [Field α] (height : α)
    (linear_samples i : Nat) : vec3 α :=
  ⟨0, height * ((i : α) / ((linear_samples - 1 : Nat) : α) - 1 / 2), 0⟩

/-- The angle `theta` of `CreateCylindricalGeometry` for the loop counter `j`. -/
def CreateCylindricalGeometry.theta {α : Type} [Field α] (m : Trig α)
    (circle_samples j : Nat) : α :=
  2 * m.pi * (j : α) / (circle_samples : α)

/-- The value `vertex_normal` of `CreateCylindricalGeometry` at the side-wall
grid point (i, j). -/
def CreateCylindricalGeometry.vertex_normal {α : Type} [Field α] (m : Trig α)
    (top_radius bottom_radius : α) (linear_samples circle_samples i j : Nat) : vec3 α :=
  let theta := CreateCylindricalGeometry.theta m circle_samples j
  ⟨CreateCylindricalGeometry.radius top_radius bottom_radius linear_samples i * m.cos theta,
   0,
   CreateCylindricalGeometry.radius top_radius bottom_radius linear_samples i * m.sin theta⟩

/-- The value `vertex_position` of `CreateCylindricalGeometry` at the side-wall
grid point (i, j). -/
def CreateCylindricalGeometry.vertex_position {α : Type} [Field α] (m : Trig α)
    (top_radius bottom_radius height : α) (linear_samples circle_samples i j : Nat) : vec3 α :=
  (CreateCylindricalGeometry.circle_center height linear_samples i).add
    ((CreateCylindricalGeometry.vertex_normal m top_radius bottom_radius
        linear_samples circle_samples i j).scale
      (CreateCylindricalGeometry.radius top_radius bottom_radius linear_samples i))

/-- The value `vertex_color` of `CreateCylindricalGeometry` at the side-wall
grid point (i, j). -/
def CreateCylindricalGeometry.vertex_color {α : Type} [Field α]
    (linear_samples circle_samples i j : Nat) : vec3 α :=
  ⟨1 - (i : α) / (linear_samples : α), (i : α) / (linear_samples : α),
   (j : α) / (circle_samples : α)⟩

/-- The value `vertex_coord` of `CreateCylindricalGeometry` at the side-wall
grid point (i, j). -/
def CreateCylindricalGeometry.vertex_coord {α : Type} [Field α] (m : Trig α)
    (circle_samples i j : Nat) : vec2 α :=
  ⟨CreateCylindricalGeometry.theta m circle_samples j / 2 * m.pi, (i : α)⟩

/-- The stores of the side-wall vertex loop of `CreateCylindricalGeometry`. -/
def CreateCylindricalGeometry.sideVertexStores {α : Type} [Field α] (m : Trig α)
    (top_radius bottom_radius height : α) (linear_samples circle_samples : Nat) :
    List (Nat × α) :=
  forLoop linear_samples fun i =>
    forLoop circle_samples fun j =>
      let vertex_normal := CreateCylindricalGeometry.vertex_normal m top_radius bottom_radius
        linear_samples circle_samples i j
      let vertex_position := CreateCylindricalGeometry.vertex_position m top_radius bottom_radius
        height linear_samples circle_samples i j
      let vertex_color : vec3 α :=
        CreateCylindricalGeometry.vertex_color linear_samples circle_samples i j
      let vertex_coord := CreateCylindricalGeometry.vertex_coord m circle_samples i j
      (forLoop 3 fun k =>
        [((i * circle_samples + j) * vertex_att + k + 0, vertex_position.get k),
         ((i * circle_samples + j) * vertex_att + k + 3, vertex_normal.get k),
         ((i * circle_samples + j) * vertex_att + k + 6, vertex_color.get k)]) ++
      [((i * circle_samples + j) * vertex_att + 9, vertex_coord.get 0),
       ((i * circle_samples + j) * vertex_att + 10, vertex_coord.get 1)]

/-- The offset expression
`((linear_samples - 1) * circle_samples + (circle_samples - 1)) * vertex_att`
of the end-cap stores, in `int` arithmetic. -/
def CreateCylindricalGeometry.capBase (linear_samples circle_samples : Nat) : Int :=
  (((linear_samples : Int) - 1) * (circle_samples : Int) + ((circle_samples : Int) - 1)) *
    (vertex_att : Int)

/-- The stores of the bottom-centre vertex of `CreateCylindricalGeometry`. The
last store uses the offset written with `((int)-1) * circle_samples`. -/
def CreateCylindricalGeometry.bottomCenterStores {α : Type} [Field α] (height : α)
    (linear_samples circle_samples : Nat) : List (Nat × α) :=
  let vertex_normal : vec3 α := ⟨0, -1, 0⟩
  let vertex_position : vec3 α :=
    ⟨0, height * (((0 / (linear_samples - 1) : Nat) : α) - 1 / 2), 0⟩
  let vertex_color : vec3 α :=
    ⟨1 - 0 / (linear_samples : α), 0 / (linear_samples : α), 0 / (circle_samples : α)⟩
  let vertex_coord : vec2 α := ⟨0, 0⟩
  let base := CreateCylindricalGeometry.capBase linear_samples circle_samples
  (forLoop 3 fun k =>
    [((base + (vertex_att : Int) + (k : Int) + 0).toNat, vertex_position.get k),
     ((base + (vertex_att : Int) + (k : Int) + 3).toNat, vertex_normal.get k),
     ((base + (vertex_att : Int) + (k : Int) + 6).toNat, vertex_color.get k)]) ++
  [((base + (vertex_att : Int) + 9).toNat, vertex_coord.get 0),
   ((((-1 : Int) * (circle_samples : Int) + ((circle_samples : Int) - 1)) * (vertex_att : Int)
      + (vertex_att : Int) + 10).toNat, vertex_coord.get 1)]

/-- The stores of the top-centre vertex of `CreateCylindricalGeometry`. -/
def CreateCylindricalGeometry.topCenterStores {α : Type} [Field α] (height : α)
    (linear_samples circle_samples : Nat) : List (Nat × α) :=
  let vertex_normal : vec3 α := ⟨0, -1, 0⟩
  let vertex_position : vec3 α :=
    ⟨0, height * ((((linear_samples - 1) / (linear_samples - 1) : Nat) : α) - 1 / 2), 0⟩
  let vertex_color : vec3 α :=
    ⟨1 - ((linear_samples : α) - 1) / (linear_samples : α),
     ((linear_samples : α) - 1) / (linear_samples : α),
     ((circle_samples : α) - 1) / (circle_samples : α)⟩
  let vertex_coord : vec2 α := ⟨1, 1⟩
  let base := CreateCylindricalGeometry.capBase linear_samples circle_samples
  (forLoop 3 fun k =>
    [((base + (vertex_att : Int) * 2 + (k : Int) + 0).toNat, vertex_position.get k),
     ((base + (vertex_att : Int) * 2 + (k : Int) + 3).toNat, vertex_normal.get k),
     ((base + (vertex_att : Int) * 2 + (k : Int) + 6).toNat, vertex_color.get k)]) ++
  [((base + (vertex_att : Int) * 2 + 9).toNat, vertex_coord.get 0),
   ((base + (vertex_att : Int) * 2 + 10).toNat, vertex_coord.get 1)]

/-- The triangle `t1` of the triangle loop of `CreateCylindricalGeometry` for the
quad (i, j), as stored: each component is an index held in a `glm::vec3` and
converted back with `(GLuint)`. -/
def CreateCylindricalGeometry.t1 (linear_samples circle_samples i j : Nat) : vec3 Nat :=
  ⟨float32_index (((i + 1) % linear_samples) * circle_samples + j),
   float32_index (i * circle_samples + ((j + 1) % circle_samples)),
   float32_index (i * circle_samples + j)⟩

/-- The triangle `t2` of the triangle loop of `CreateCylindricalGeometry` for the
quad (i, j). -/
def CreateCylindricalGeometry.t2 (linear_samples circle_samples i j : Nat) : vec3 Nat :=
  ⟨float32_index (((i + 1) % linear_samples) * circle_samples + j),
   float32_index (((i + 1) % linear_samples) * circle_samples + ((j + 1) % circle_samples)),
   float32_index (i * circle_samples + ((j + 1) % circle_samples))⟩

/-- The bottom-cap triangle `t3` of `CreateCylindricalGeometry` for the rim
point `g`. -/
def CreateCylindricalGeometry.t3 (linear_samples circle_samples g : Nat) : vec3 Nat :=
  ⟨float32_index ((g + 1) % circle_samples),
   float32_index (linear_samples * circle_samples),
   float32_index g⟩

/-- The top-cap triangle `t4` of `CreateCylindricalGeometry` for the rim point
`g`. -/
def CreateCylindricalGeometry.t4 (linear_samples circle_samples g : Nat) : vec3 Nat :=
  ⟨float32_index (linear_samples * circle_samples + 1),
   float32_index (((linear_samples - 1) * circle_samples) + ((g + 1) % circle_samples)),
   float32_index (((linear_samples - 1) * circle_samples) + g)⟩

/-- The stores of the end-cap loop over `g`, nested in the triangle loop of
`CreateCylindricalGeometry`. -/
def CreateCylindricalGeometry.capFaceStores (linear_samples circle_samples : Nat) :
    List (Nat × Nat) :=
  forLoop circle_samples fun g =>
    let t3 := CreateCylindricalGeometry.t3 linear_samples circle_samples g
    let t4 := CreateCylindricalGeometry.t4 linear_samples circle_samples g
    forLoop 3 fun k =>
      [(((linear_samples - 1) * circle_samples + (circle_samples - 1) + g) * face_att * 2
          + k + (face_att * 2), t4.get k),
       (((linear_samples - 1) * circle_samples + (circle_samples - 1) + g) * face_att * 2
          + k + face_att, t3.get k)]

/-- The stores of the triangle loop of `CreateCylindricalGeometry`, in program
order: per quad the two side triangles, and in the last iteration the end-cap
loop. -/
def CreateCylindricalGeometry.faceStores (linear_samples circle_samples : Nat) :
    List (Nat × Nat) :=
  forLoop linear_samples fun i =>
    forLoop circle_samples fun j =>
      let t1 := CreateCylindricalGeometry.t1 linear_samples circle_samples i j
      let t2 := CreateCylindricalGeometry.t2 linear_samples circle_samples i j
      (forLoop 3 fun k =>
        [((i * circle_samples + j) * face_att * 2 + k + face_att, t2.get k),
         ((i * circle_samples + j) * face_att * 2 + k, t1.get k)]) ++
      (if i = linear_samples - 1 ∧ j = circle_samples - 1 then
        CreateCylindricalGeometry.capFaceStores linear_samples circle_samples
       else [])

/-- The method `ResourceManager::CreateCylindricalGeometry(object_name,
top_radius, bottom_radius, height, linear_samples, circle_samples)`; `vbo` and
`ebo` are the names returned by `glGenBuffers`. -/
def CreateCylindricalGeometry {α : Type} [Field α] (m : Trig α) (rm : ResourceManager)
    (object_name : String) (top_radius bottom_radius height : α)
    (linear_samples circle_samples : Nat) (vbo ebo : Nat) : MeshResult α :=
  let linear_samples := if linear_samples < 2 then 2 else linear_samples
  let vertex_num := linear_samples * circle_samples + 2
  let face_num := linear_samples * circle_samples * 2 + (circle_samples * 2)
  { vertex_num := vertex_num
    face_num := face_num
    vertex := Buffer.new.stores
      (CreateCylindricalGeometry.sideVertexStores m top_radius bottom_radius height
          linear_samples circle_samples ++
        CreateCylindricalGeometry.bottomCenterStores height linear_samples circle_samples ++
        CreateCylindricalGeometry.topCenterStores height linear_samples circle_samples)
    face := Buffer.new.stores
      (CreateCylindricalGeometry.faceStores linear_samples circle_samples)
    vertex_upload := vertex_num * vertex_att * sizeof_GLfloat / sizeof_GLfloat
    face_upload := face_num * face_att * sizeof_GLuint / sizeof_GLuint
    rm := AddResource2 rm ResourceType.Mesh object_name vbo ebo (face_num * face_att) }

/-! ## The allocations of the generators

Each of `CreateSphere`, `CreateTorus` and `CreateCylindricalGeometry` starts with
`try { vertex = new GLfloat[vertex_num * vertex_att]; face = new
GLuint[face_num * face_att]; } catch (std::exception &e) { throw e; }`.  Whether
`new` grants a request is not decided by the program: `alloc n` tells whether a
request for `n` elements of four bytes succeeds.  `none` is the exception that
leaves the method before anything is stored or registered.  `CreateCube` keeps
its tables in local arrays and allocates nothing. -/

/-- The method `ResourceManager::CreateSphere` with its `try` block. -/
def ResourceManager.CreateSphere {α : Type} [Field α] (alloc : Nat → Bool) (m : Trig α)
    (rm : ResourceManager) (object_name : String) (radius : α)
    (num_samples_theta num_samples_phi : Nat) (vbo ebo : Nat) : Option (MeshResult α) :=
  let vertex_num := num_samples_theta * num_samples_phi
  let face_num :=
    GLuint_of_int ((num_samples_theta : Int) * ((num_samples_phi : Int) - 1) * 2)
  if alloc (vertex_num * vertex_att % 2 ^ 32) = true ∧
      alloc (face_num * face_att % 2 ^ 32) = true then
    some (game.CreateSphere m rm object_name radius num_samples_theta num_samples_phi vbo ebo)
  else none

/-- The method `ResourceManager::CreateTorus` with its `try` block. -/
def ResourceManager.CreateTorus {α : Type} [Field α] (alloc : Nat → Bool) (m : Trig α)
    (rm : ResourceManager) (object_name : String) (loop_radius circle_radius : α)
    (num_loop_samples num_circle_samples : Nat) (vbo ebo : Nat) : Option (MeshResult α) :=
  let vertex_num := num_loop_samples * num_circle_samples
  let face_num := num_loop_samples * num_circle_samples * 2
  if alloc (vertex_num * vertex_att % 2 ^ 32) = true ∧
      alloc (face_num * face_att % 2 ^ 32) = true then
    some (game.CreateTorus m rm object_name loop_radius circle_radius
      num_loop_samples num_circle_samples vbo ebo)
  else none

/-- The method `ResourceManager::CreateCylindricalGeometry` with its `try` block,
which comes after the clamp of `linear_samples`. -/
def ResourceManager.CreateCylindricalGeometry {α : Type} [Field α] (alloc : Nat → Bool)
    (m : Trig α) (rm : ResourceManager) (object_name : String)
    (top_radius bottom_radius height : α) (linear_samples circle_samples : Nat)
    (vbo ebo : Nat) : Option (MeshResult α) :=
  let clamped := if linear_samples < 2 then 2 else linear_samples
  let vertex_num := clamped * circle_samples + 2
  let face_num := clamped * circle_samples * 2 + (circle_samples * 2)
  if alloc (vertex_num * vertex_att % 2 ^ 32) = true ∧
      alloc (face_num * face_att % 2 ^ 32) = true then
    some (game.CreateCylindricalGeometry m rm object_name top_radius bottom_radius height
      linear_samples circle_samples vbo ebo)
  else none

/-! ## Loading materials and textures -/

/-- The two kinds of exception the loader throws: `std::ios_base::failure` and
`std::invalid_argument`, each with its message. -/
inductive Failure where
  | ios_failure (what : String)
  | invalid_argument (what : String)
  deriving DecidableEq, Repr

/-- The message of an exception. -/
def Failure.what : Failure → String
  | Failure.ios_failure w => w
  | Failure.invalid_argument w => w

/-- The shader stages passed to `glCreateShader`. -/
inductive ShaderStage where
  | GL_VERTEX_SHADER
  | GL_FRAGMENT_SHADER
  deriving DecidableEq, Repr

/-- What the loader meets outside the program: the file system, the shader
compiler and linker of the GL driver and the image decoder, each as a given
outcome, and the two extension macros of the absent header
resource_manager.h.

* `file path` is `none` when `std::ifstream::open` fails, else the lines that
  `std::getline` delivers.
* `compile_status stage source` tells whether `GL_COMPILE_STATUS` is `GL_TRUE`,
  `info_log stage source` is the info log the driver keeps for the shader.
* `link_status vp fp` tells whether `GL_LINK_STATUS` is `GL_TRUE`,
  `program vp fp` is the name returned by `glCreateProgram`, and
  `link_buffer` is what the 512-byte buffer holds after the call
  `glGetShaderInfoLog(sp, ...)` made with the program name.
* `image path` is `none` when `SOIL_load_image` returns NULL, else the name
  that `glGenTextures` gives the uploaded texture; `SOIL_last_result path` is
  the decoder's message. -/
structure Env where
  VERTEX_PROGRAM_EXTENSION : String
  FRAGMENT_PROGRAM_EXTENSION : String
  file : String → Option (List String)
  compile_status : ShaderStage → String → Bool
  info_log : ShaderStage → String → String
  link_status : String → String → Bool
  program : String → String → Nat
  link_buffer : String
  image : String → Option Nat
  SOIL_last_result : String → String

/-- The call `glGetShaderInfoLog(shader, maxLength, NULL, buffer)` followed by
`std::string(buffer)`: at most `maxLength - 1` characters of the info log, the
last place of the buffer being taken by the terminator. -/
def glGetShaderInfoLog (log : String) (maxLength : Nat) : String :=
  ⟨log.data.take (maxLength - 1)⟩

/-- The text `part` occurs in `msg` as a contiguous piece. -/
def Mentions (msg part : String) : Prop :=
  part.data <:+: msg.data

instance (msg part : String) : Decidable (Mentions msg part) :=
  inferInstanceAs (Decidable (part.data <:+: msg.data))

/-- The method `ResourceManager::LoadTextFile(filename)`: the failure thrown
when the file does not open, else the lines read, each followed by a newline. -/
def LoadTextFile (env : Env) (filename : String) : Except Failure String :=
  match env.file filename with
  | none => Except.error (Failure.ios_failure ("Error opening file " ++ filename))
  | some lines => Except.ok (lines.foldl (fun content line => content ++ (line ++ "\n")) "")

/-- What a load call leaves behind: the exception thrown, if any, the resource
manager after the call, the paths the call tried to open and the stages it
passed to `glCompileShader`, both in order. -/
structure LoadResult where
  outcome : Except Failure Unit
  rm : ResourceManager
  opened : List String
  compiled : List ShaderStage

/-- The method `ResourceManager::LoadMaterial(name, prefix)`. -/
def LoadMaterial (env : Env) (rm : ResourceManager) (name : String) (pre : String) :
    LoadResult :=
  -- Load vertex program source code
  let filename := pre ++ env.VERTEX_PROGRAM_EXTENSION
  match LoadTextFile env filename with
  | Except.error e => ⟨Except.error e, rm, [filename], []⟩
  | Except.ok vp =>
    -- Load fragment program source code
    let filename2 := pre ++ env.FRAGMENT_PROGRAM_EXTENSION
    match LoadTextFile env filename2 with
    | Except.error e => ⟨Except.error e, rm, [filename, filename2], []⟩
    | Except.ok fp =>
      -- Create a shader from the vertex program source code
      if env.compile_status ShaderStage.GL_VERTEX_SHADER vp ≠ true then
        let buffer := glGetShaderInfoLog (env.info_log ShaderStage.GL_VERTEX_SHADER vp) 512
        ⟨Except.error (Failure.ios_failure ("Error compiling vertex shader: " ++ buffer)), rm,
          [filename, filename2], [ShaderStage.GL_VERTEX_SHADER]⟩
      -- Create a shader from the fragment program source code
      else if env.compile_status ShaderStage.GL_FRAGMENT_SHADER fp ≠ true then
        let buffer := glGetShaderInfoLog (env.info_log ShaderStage.GL_FRAGMENT_SHADER fp) 512
        ⟨Except.error (Failure.ios_failure ("Error compiling fragment shader: " ++ buffer)), rm,
          [filename, filename2], [ShaderStage.GL_VERTEX_SHADER, ShaderStage.GL_FRAGMENT_SHADER]⟩
      -- Create a shader program linking both vertex and fragment shaders together
      else if env.link_status vp fp ≠ true then
        ⟨Except.error (Failure.ios_failure ("Error linking shaders: " ++ env.link_buffer)), rm,
          [filename, filename2], [ShaderStage.GL_VERTEX_SHADER, ShaderStage.GL_FRAGMENT_SHADER]⟩
      else
        -- Add a resource for the shader program
        ⟨Except.ok (), AddResource rm ResourceType.Material name (env.program vp fp) 0,
          [filename, filename2], [ShaderStage.GL_VERTEX_SHADER, ShaderStage.GL_FRAGMENT_SHADER]⟩

/-- The method `ResourceManager::LoadTexture(name, filename)`. -/
def LoadTexture (env : Env) (rm : ResourceManager) (name : String) (filename : String) :
    LoadResult :=
  match env.image filename with
  | none =>
    ⟨Except.error (Failure.ios_failure ("Error loading texture file: " ++ filename ++ " - " ++
        env.SOIL_last_result filename)), rm, [filename], []⟩
  | some texture =>
    ⟨Except.ok (), AddResource rm ResourceType.Texture name texture 0, [filename], []⟩

/-- The method `ResourceManager::LoadResource(type, name, filename)`. -/
def LoadResource (env : Env) (rm : ResourceManager) (type : ResourceType) (name : String)
    (filename : String) : LoadResult :=
  -- Call appropriate method depending on type of resource
  if type = ResourceType.Material then
    LoadMaterial env rm name filename
  else if type = ResourceType.Texture then
    LoadTexture env rm name filename
  else
    ⟨Except.error (Failure.invalid_argument "Invalid type of resource"), rm, [], []⟩


/-! ## Reading a mesh back from its buffers -/

/-- The position attribute (offsets 0..2) of vertex `v` as held by a vertex
buffer; `none` when one of the three elements was never assigned. -/
def Buffer.position {α : Type} (vertex : Buffer α) (v : Nat) : Option (vec3 α) :=
  match vertex (v * vertex_att), vertex (v * vertex_att + 1), vertex (v * vertex_att + 2) with
  | some x, some y, some z => some ⟨x, y, z⟩
  | _, _, _ => none

/-- The area vector of the triangle with corners `p_a`, `p_b`, `p_c`:
`cross(p_b - p_a, p_c - p_a)`, zero exactly when the triangle is degenerate. -/
def triangleCross {α : Type} [Mul α] [Sub α] (p_a p_b p_c : vec3 α) : vec3 α :=
  (p_b.sub p_a).cross (p_c.sub p_a)

/-- The directed edge `u -> w` is an edge of the triangle held in slot `q` of an
index buffer (elements `3q`, `3q+1`, `3q+2`, in cyclic order). -/
def Buffer.hasEdge (face : Buffer Nat) (q u w : Nat) : Prop :=
  ∃ k, k < 3 ∧ face (q * face_att + k) = some u ∧ face (q * face_att + (k + 1) % 3) = some w


/-- The grid point (loop index, circle index) that corner `k` of the triangle
`t1` (`h = 0`) or `t2` (`h = 1`) of the torus quad (i, j) refers to: the index
stored for that corner is `first * num_circle_samples + second`. -/
def CreateTorus.corner (num_loop_samples num_circle_samples i j h k : Nat) : Nat × Nat :=
  if h = 0 then
    if k = 0 then ((i + 1) % num_loop_samples, j)
    else if k = 1 then (i, (j + 1) % num_circle_samples)
    else (i, j)
  else
    if k = 0 then ((i + 1) % num_loop_samples, j)
    else if k = 1 then ((i + 1) % num_loop_samples, (j + 1) % num_circle_samples)
    else (i, (j + 1) % num_circle_samples)


/-! ## The game: player, obstacles, keys and collisions

`src/build/player.cpp`, `src/build/obstacle.cpp` and `src/game.cpp`.  Scalars
(`float`, `double`) are elements of an ordered field, and the functions that
compute with them take the rounding of the results as the argument `fl`;
`currentLane_` is an `Int`.  `glfwGetTime()` is a parameter of the functions
that read the clock. -/

/-- The key and action codes of the GLFW header that `Game::KeyCallback`
compares with; the header is not part of the sources, so the codes are a
parameter of the callback. -/
structure Keys where
  GLFW_KEY_Q : Int
  GLFW_KEY_SPACE : Int
  GLFW_KEY_LEFT : Int
  GLFW_KEY_A : Int
  GLFW_KEY_RIGHT : Int
  GLFW_KEY_D : Int
  GLFW_KEY_UP : Int
  GLFW_KEY_W : Int
  GLFW_PRESS : Int

/-- The codes as GLFW 3 defines them. -/
def glfw3 : Keys :=
  { GLFW_KEY_Q := 81, GLFW_KEY_SPACE := 32, GLFW_KEY_LEFT := 263, GLFW_KEY_A := 65,
    GLFW_KEY_RIGHT := 262, GLFW_KEY_D := 68, GLFW_KEY_UP := 265, GLFW_KEY_W := 87,
    GLFW_PRESS := 1 }

/-- The fields of `Player` that `Update`, `KeyCallback` and `AABBcheck` read or
write; `position` is the position of the scene node (`GetPosition`,
`SetPosition`), and `GetxMax()` .. `GetyMin()` read `xMax_` .. `yMin_`. -/
structure Player (α : Type) where
  position : vec3 α
  xMax_ : α
  xMin_ : α
  yMax_ : α
  yMin_ : α
  currentLane_ : Int
  targetX_ : α
  isJumping_ : Bool
  jumpStartTime_ : α
  jumpHeight_ : α
  jumpDuration_ : α

/-- The fields of `Obstacle` that `Update` and `AABBcheck` read or write. -/
structure Obstacle (α : Type) where
  position : vec3 α
  startPoint_ : vec3 α
  endPoint_ : vec3 α
  currentPosition_ : vec3 α
  lifeTime_ : α
  xMax : α
  xMin : α
  yMax : α
  yMin : α

/-- What `KeyCallback` reads and writes of the window and of `Game`:
the close flag of the window, `animating_` and the player `player_root_`
(`none` for a null pointer). -/
structure Game (α : Type) where
  shouldClose : Bool
  animating_ : Bool
  player_root_ : Option (Player α)

/-- The body of `Game::KeyCallback`: four consecutive `if` statements on the
key and the action, the last three on the player when there is one.  The clock
value, a `double`, is rounded to the `float` `jumpStartTime_`. -/
def KeyCallback {α : Type} (fl : Rounding α) (k : Keys) (glfwGetTime : α) (g : Game α)
    (key _scancode action _mods : Int) : Game α :=
  let g1 : Game α :=
    if key = k.GLFW_KEY_Q ∧ action = k.GLFW_PRESS then { g with shouldClose := true } else g
  let g2 : Game α :=
    if key = k.GLFW_KEY_SPACE ∧ action = k.GLFW_PRESS then
      { g1 with animating_ := if g1.animating_ = true then false else true }
    else g1
  match Game.player_root_ g2 with
  | none => g2
  | some p =>
    let p1 : Player α :=
      if (key = k.GLFW_KEY_LEFT ∨ key = k.GLFW_KEY_A) ∧ action = k.GLFW_PRESS then
        if p.currentLane_ > 0 then { p with currentLane_ := p.currentLane_ - 1 } else p
      else p
    let p2 : Player α :=
      if (key = k.GLFW_KEY_RIGHT ∨ key = k.GLFW_KEY_D) ∧ action = k.GLFW_PRESS then
        if p1.currentLane_ < 2 then { p1 with currentLane_ := p1.currentLane_ + 1 } else p1
      else p1
    let p3 : Player α :=
      if (key = k.GLFW_KEY_UP ∨ key = k.GLFW_KEY_W) ∧ action = k.GLFW_PRESS then
        if ¬ (p2.isJumping_ = true) then
          { p2 with isJumping_ := true, jumpStartTime_ := fl.f32 glfwGetTime }
        else p2
      else p2
    { g2 with player_root_ := some p3 }

/-- The table `lanePositions` of `Player::Update`, the `float` literals `-0.9f`,
`0.0f`, `0.9f`. -/
def lanePositions {α : Type} [Field α] (fl : Rounding α) : List α :=
  [fl.f32 (-(9 / 10)), 0, fl.f32 (9 / 10)]

/-- The element `lanePositions[currentLane_]`: `none` when the index is outside
the three-element array (the read is then undefined in C++). -/
def lanePositions_at {α : Type} [Field α] (fl : Rounding α) (currentLane_ : Int) : Option α :=
  if currentLane_ < 0 then none else (lanePositions fl).get? currentLane_.toNat

/-- The body of `Player::Update(deltaTime)`; `glfwGetTime` is the clock value read
in the jump branch.  `none` when the lane index is outside the table.  The
positions are `float`, `deltaTime` and the clock are `double`: a difference or
product of two floats is a float, an operation with a double operand is a double,
and the value assigned to a `float` variable is rounded to float.  The sine is
the argument `m.sin`, its result taken as a double. -/
def Player.Update {α : Type} [LinearOrderedField α] (fl : Rounding α) (m : Trig α)
    (glfwGetTime : α) (p : Player α) (deltaTime : α) : Option (Player α) :=
  match lanePositions_at fl p.currentLane_ with
  | none => none
  | some targetX =>
    let currentPos := p.position
    let newX := fl.f32
      (fl.f64 (currentPos.x + fl.f64 (fl.f32 (fl.f32 (targetX - currentPos.x) * 8) * deltaTime)))
    let forwardSpeed : α := 15
    let newZ := fl.f32 (fl.f64 (currentPos.z - fl.f64 (forwardSpeed * deltaTime)))
    let timeSinceJump := fl.f32 (fl.f64 (glfwGetTime - p.jumpStartTime_))
    let newY : α :=
      if p.isJumping_ = true then
        if timeSinceJump < p.jumpDuration_ then
          fl.f32 (fl.f64 (1 / 2 + fl.f64 (p.jumpHeight_ *
            m.sin (fl.f32 (fl.f32 (timeSinceJump / p.jumpDuration_) * m.pi)))))
        else 1 / 2
      else 1 / 2
    let jumping : Bool :=
      if p.isJumping_ = true then
        if timeSinceJump < p.jumpDuration_ then p.isJumping_ else false
      else p.isJumping_
    some { p with targetX_ := targetX, isJumping_ := jumping, position := ⟨newX, newY, newZ⟩ }

/-- The function `glm::clamp(x, minVal, maxVal)` = `min(max(x, minVal), maxVal)`. -/
def glm_clamp {α : Type} [LinearOrder α] (x minVal maxVal : α) : α :=
  min (max x minVal) maxVal

/-- The function `glm::mix(x, y, a)` on vectors = `x * (1 - a) + y * a`, each
operation on floats. -/
def glm_mix {α : Type} [Field α] (fl : Rounding α) (x y : vec3 α) (a : α) : vec3 α :=
  ⟨fl.f32 (fl.f32 (x.x * fl.f32 (1 - a)) + fl.f32 (y.x * a)),
   fl.f32 (fl.f32 (x.y * fl.f32 (1 - a)) + fl.f32 (y.y * a)),
   fl.f32 (fl.f32 (x.z * fl.f32 (1 - a)) + fl.f32 (y.z * a))⟩

/-- The body of `Obstacle::Update(deltaTime)`.  The value of the call
`glm::clamp(t, 0.0f, 1.0f)` is computed and dropped, as in the source.  The sum
and the quotient are floats; the comparison with the double `10.0` is exact. -/
def Obstacle.Update {α : Type} [LinearOrderedField α] (fl : Rounding α) (o : Obstacle α)
    (deltaTime : α) : Obstacle α :=
  let lifeTime1 := fl.f32 (o.lifeTime_ + deltaTime)
  let lifeTime2 := if lifeTime1 > 10 then 0 else lifeTime1
  let t := fl.f32 (lifeTime2 / 10)
  let _dropped := glm_clamp t 0 1
  let currentPosition := glm_mix fl o.startPoint_ o.endPoint_ t
  { o with lifeTime_ := lifeTime2, currentPosition_ := currentPosition,
           position := currentPosition }

/-- The body of `Game::AABBcheck(player, obstacle)`: four strict comparisons on
the x and y extents of the two boxes, each extent a sum of two floats. -/
def AABBcheck {α : Type} [LinearOrderedField α] (fl : Rounding α) (player : Player α)
    (obstacle : Obstacle α) : Bool :=
  decide (fl.f32 (player.position.x + player.xMax_) >
    fl.f32 (obstacle.position.x + obstacle.xMin)) &&
  decide (fl.f32 (player.position.x + player.xMin_) <
    fl.f32 (obstacle.position.x + obstacle.xMax)) &&
  decide (fl.f32 (player.position.y + player.yMax_) >
    fl.f32 (obstacle.position.y + obstacle.yMin)) &&
  decide (fl.f32 (player.position.y + player.yMin_) <
    fl.f32 (obstacle.position.y + obstacle.yMax))

/-! ## Lemmas on floating-point rounding -/

/-- A rational within one half of an integer rounds to it. -/
theorem roundTiesEven_eq (q : ℚ) (z : ℤ) (h1 : (z : ℚ) - 1 / 2 < q) (h2 : q < z + 1 / 2) :
    roundTiesEven q = z := by
  unfold roundTiesEven
  by_cases hz : (z : ℚ) ≤ q
  · have hf : ⌊q⌋ = z := by
      rw [Int.floor_eq_iff]
      constructor
      · exact hz
      · linarith
    rw [hf, if_pos (by linarith)]
  · push_neg at hz
    have hf : ⌊q⌋ = z - 1 := by
      rw [Int.floor_eq_iff]
      push_cast
      constructor
      · linarith
      · linarith
    rw [hf]
    push_cast
    rw [if_neg (by linarith), if_pos (by linarith)]
    ring

/-- An integer rounds to itself. -/
theorem roundTiesEven_intCast (z : ℤ) : roundTiesEven (z : ℚ) = z :=
  roundTiesEven_eq _ z (by linarith) (by linarith)

/-- A rational half way between two integers rounds to the even one. -/
theorem roundTiesEven_tie (q : ℚ) (z : ℤ) (h : q = z + 1 / 2) :
    roundTiesEven q = if z % 2 = 0 then z else z + 1 := by
  unfold roundTiesEven
  have hf : ⌊q⌋ = z := by
    rw [Int.floor_eq_iff]
    constructor <;> linarith
  rw [hf, if_neg (by linarith), if_neg (by linarith)]

/-- The binary exponent of a positive rational from its two bounds. -/
theorem Int_log_two_eq (q : ℚ) (k : ℤ) (h1 : (2 : ℚ) ^ k ≤ q) (h2 : q < (2 : ℚ) ^ (k + 1)) :
    Int.log 2 q = k := by
  have hq : 0 < q := lt_of_lt_of_le (zpow_pos (by norm_num) k) h1
  apply le_antisymm
  · have := (Int.lt_zpow_iff_log_lt (b := 2) (by norm_num) hq (x := k + 1)).1 (by exact_mod_cast h2)
    omega
  · exact (Int.zpow_le_iff_le_log (b := 2) (by norm_num) hq).1 (by exact_mod_cast h1)

/-- Evaluation of `roundFloat` from the binary exponent `k` of the argument and
the rounded significand `z`. -/
theorem roundFloat_eq (p : Nat) (emin : Int) (q : ℚ) (k z : ℤ)
    (h1 : (2 : ℚ) ^ k ≤ |q|) (h2 : |q| < (2 : ℚ) ^ (k + 1))
    (hz : roundTiesEven (q / 2 ^ (max (k + 1 - p) emin)) = z) :
    roundFloat p emin q = z * 2 ^ (max (k + 1 - p) emin) := by
  unfold roundFloat
  simp only [Int_log_two_eq |q| k h1 h2, hz]

/-- A natural number below 2^24 is a 32-bit float. -/
theorem float32_natCast (n : Nat) (h : n < 2 ^ 24) : float32 (n : ℚ) = n := by
  rcases Nat.eq_zero_or_pos n with h0 | h0
  · subst h0
    simp [float32, roundFloat, roundTiesEven]
  · have hk1 : 2 ^ Nat.log 2 n ≤ n := Nat.pow_log_le_self 2 (by omega)
    have hk2 : n < 2 ^ (Nat.log 2 n + 1) := Nat.lt_pow_succ_log_self (by norm_num) n
    have hk : Nat.log 2 n < 24 := Nat.log_lt_of_lt_pow (by omega) h
    obtain ⟨j, hj⟩ : ∃ j : Nat, Nat.log 2 n + j = 23 := ⟨23 - Nat.log 2 n, by omega⟩
    have he : max (((Nat.log 2 n : ℕ) : ℤ) + 1 - ((24 : ℕ) : ℤ)) (-149) = -(j : ℤ) := by
      rw [max_eq_left (by omega)]
      omega
    have habs : |(n : ℚ)| = n := abs_of_nonneg (by positivity)
    have hz : roundTiesEven ((n : ℚ) / 2 ^ (max (((Nat.log 2 n : ℕ) : ℤ) + 1 - ((24 : ℕ) : ℤ))
        (-149))) = ((n * 2 ^ j : ℕ) : ℤ) := by
      rw [he, zpow_neg, div_inv_eq_mul, zpow_natCast]
      have : (n : ℚ) * 2 ^ j = (((n * 2 ^ j : ℕ) : ℤ) : ℚ) := by push_cast; ring
      rw [this, roundTiesEven_intCast]
    unfold float32
    rw [roundFloat_eq 24 (-149) (n : ℚ) (Nat.log 2 n) _ (by rw [habs]; exact_mod_cast hk1)
      (by rw [habs]; exact_mod_cast hk2) hz, he, zpow_neg, zpow_natCast]
    push_cast
    field_simp

/-- Below 2^24 an index comes back from the float as it went in. -/
theorem float32_index_of_lt (n : Nat) (h : n < 2 ^ 24) : float32_index n = n := by
  unfold float32_index
  rw [if_pos h]

/-- The index conversion is the rounding to `float` followed by the cast, for
every index. -/
theorem float32_index_eq_floor (n : Nat) : float32_index n = ⌊float32 (n : ℚ)⌋.toNat := by
  unfold float32_index
  split_ifs with h
  · rw [float32_natCast n h]
    simp
  · rfl

theorem float32_16777216 : float32 16777216 = 16777216 := by
  unfold float32
  rw [roundFloat_eq 24 (-149) 16777216 24 8388608 (by norm_num) (by norm_num)
    (roundTiesEven_eq _ _ (by norm_num) (by norm_num))]
  norm_num

theorem float32_16777217 : float32 16777217 = 16777216 := by
  unfold float32
  rw [roundFloat_eq 24 (-149) 16777217 24 8388608 (by norm_num) (by norm_num)
    ((roundTiesEven_tie _ 8388608 (by norm_num)).trans (by decide))]
  norm_num

theorem float32_16777219 : float32 16777219 = 16777220 := by
  unfold float32
  rw [roundFloat_eq 24 (-149) 16777219 24 8388610 (by norm_num) (by norm_num)
    ((roundTiesEven_tie _ 8388609 (by norm_num)).trans (by decide))]
  norm_num

theorem float32_index_16777217 : float32_index 16777217 = 16777216 := by
  rw [float32_index_eq_floor]
  have h : float32 ((16777217 : ℕ) : ℚ) = ((16777216 : ℤ) : ℚ) := by
    rw [show ((16777217 : ℕ) : ℚ) = 16777217 by norm_num, float32_16777217]
    norm_num
  rw [h, Int.floor_intCast]
  rfl

theorem float32_index_16777219 : float32_index 16777219 = 16777220 := by
  rw [float32_index_eq_floor]
  have h : float32 ((16777219 : ℕ) : ℚ) = ((16777220 : ℤ) : ℚ) := by
    rw [show ((16777219 : ℕ) : ℚ) = 16777219 by norm_num, float32_16777219]
    norm_num
  rw [h, Int.floor_intCast]
  rfl

theorem float32_index_16777216 : float32_index 16777216 = 16777216 := by
  rw [float32_index_eq_floor]
  have h : float32 ((16777216 : ℕ) : ℚ) = ((16777216 : ℤ) : ℚ) := by
    rw [show ((16777216 : ℕ) : ℚ) = 16777216 by norm_num, float32_16777216]
    norm_num
  rw [h, Int.floor_intCast]
  rfl



/-- Evaluation of `roundFloat` at a positive argument. -/
theorem roundFloat_eq_of_pos (p : Nat) (emin : Int) (q : ℚ) (k z : ℤ)
    (h1 : (2 : ℚ) ^ k ≤ q) (h2 : q < (2 : ℚ) ^ (k + 1))
    (hz : roundTiesEven (q / 2 ^ (max (k + 1 - p) emin)) = z) :
    roundFloat p emin q = z * 2 ^ (max (k + 1 - p) emin) := by
  have hq : 0 < q := lt_of_lt_of_le (zpow_pos (by norm_num) k) h1
  exact roundFloat_eq p emin q k z (by rw [abs_of_pos hq]; exact h1)
    (by rw [abs_of_pos hq]; exact h2) hz

/-! ## Lemmas on buffers and loops -/

theorem Buffer_stores_nil {α : Type} (b : Buffer α) : b.stores [] = b := rfl

theorem Buffer_stores_cons {α : Type} (b : Buffer α) (w : Nat × α) (ws : List (Nat × α)) :
    b.stores (w :: ws) = (b.set w.1 w.2).stores ws := rfl

/-- An element is still unassigned after a run of stores exactly when it was
unassigned before and no store of the run addresses it. -/
theorem Buffer_stores_eq_none_iff {α : Type} (ws : List (Nat × α)) (b : Buffer α) (s : Nat) :
    b.stores ws s = none ↔ b s = none ∧ ∀ w ∈ ws, w.1 ≠ s := by
  induction ws generalizing b with
  | nil => simp [Buffer_stores_nil]
  | cons w ws ih =>
    rw [Buffer_stores_cons, ih]
    by_cases h : s = w.1
    · subst h
      simp [Buffer.set]
    · have h2 : w.1 ≠ s := fun e => h e.symm
      simp [Buffer.set, h, h2]

/-- A value found after a run of stores was there before or was stored by the
run. -/
theorem Buffer_stores_eq_some {α : Type} (ws : List (Nat × α)) (b : Buffer α) (s : Nat) (v : α)
    (h : b.stores ws s = some v) : b s = some v ∨ (s, v) ∈ ws := by
  induction ws generalizing b with
  | nil => exact Or.inl h
  | cons w ws ih =>
    rw [Buffer_stores_cons] at h
    rcases ih _ h with h1 | h1
    · by_cases hs : s = w.1
      · right
        simp only [Buffer.set, hs, if_true, Option.some.injEq] at h1
        rw [hs, ← h1]
        exact List.mem_cons_self _ _
      · left
        simpa [Buffer.set, hs] using h1
    · exact Or.inr (List.mem_cons_of_mem _ h1)

/-- Stores that address other elements leave an element as it was. -/
theorem Buffer_stores_other {α : Type} (ws : List (Nat × α)) (b : Buffer α) (s : Nat)
    (h : ∀ w ∈ ws, w.1 ≠ s) : b.stores ws s = b s := by
  induction ws generalizing b with
  | nil => rfl
  | cons w ws ih =>
    rw [Buffer_stores_cons, ih _ (fun w2 hw2 => h w2 (List.mem_cons_of_mem _ hw2))]
    have hw : s ≠ w.1 := fun e => h w (List.mem_cons_self _ _) e.symm
    simp [Buffer.set, hw]

/-- If the run stores to an element and every store to it writes `v`, the
element holds `v` afterwards. -/
theorem Buffer_stores_unique {α : Type} (ws : List (Nat × α)) (b : Buffer α) (s : Nat) (v : α)
    (hex : ∃ w ∈ ws, w.1 = s) (hall : ∀ w ∈ ws, w.1 = s → w.2 = v) :
    b.stores ws s = some v := by
  induction ws generalizing b with
  | nil =>
    obtain ⟨w, hw, _⟩ := hex
    cases hw
  | cons w ws ih =>
    rw [Buffer_stores_cons]
    by_cases hlater : ∃ w2 ∈ ws, w2.1 = s
    · exact ih _ hlater (fun w2 hw2 => hall w2 (List.mem_cons_of_mem _ hw2))
    · have hnot : ∀ w2 ∈ ws, w2.1 ≠ s := fun w2 hw2 e => hlater ⟨w2, hw2, e⟩
      rw [Buffer_stores_other ws _ s hnot]
      obtain ⟨w0, hw0, hs0⟩ := hex
      rcases List.mem_cons.1 hw0 with e | e
      · subst e
        have hv := hall w0 (List.mem_cons_self _ _) hs0
        simp [Buffer.set, hs0, hv]
      · exact absurd hs0 (hnot w0 e)

theorem mem_forLoop {β : Type} (n : Nat) (body : Nat → List β) (x : β) :
    x ∈ forLoop n body ↔ ∃ i, i < n ∧ x ∈ body i := by
  simp [forLoop, List.mem_flatMap, List.mem_range]

/-- A grid index below the row bound, plus an in-row offset, stays below the
grid size. -/
theorem grid_lt {a n m j : Nat} (ha : a < n) (hj : j < m) : a * m + j < n * m := by
  calc a * m + j < a * m + m := by omega
    _ = (a + 1) * m := by ring
    _ ≤ n * m := Nat.mul_le_mul_right m ha

/-- Every offset below `n * m * w` is `(i * m + j) * w + c` for a grid point
(i, j) and an in-cell offset `c`. -/
theorem grid_decomp {n m w s : Nat} (h : s < n * m * w) :
    ∃ i j c, i < n ∧ j < m ∧ c < w ∧ s = (i * m + j) * w + c := by
  have hw : 0 < w := by
    rcases Nat.eq_zero_or_pos w with h0 | h0
    · subst h0; simp at h
    · exact h0
  have hm : 0 < m := by
    rcases Nat.eq_zero_or_pos m with h0 | h0
    · subst h0; simp at h
    · exact h0
  have hq : s / w < n * m := (Nat.div_lt_iff_lt_mul hw).2 h
  refine ⟨s / w / m, s / w % m, s % w, (Nat.div_lt_iff_lt_mul hm).2 hq, Nat.mod_lt _ hm,
    Nat.mod_lt _ hw, ?_⟩
  have h1 : s / w / m * m + s / w % m = s / w := by
    rw [Nat.mul_comm]; exact Nat.div_add_mod _ _
  rw [h1, Nat.mul_comm]
  exact (Nat.div_add_mod _ _).symm

theorem Buffer_new_stores_isSome_iff {α : Type} (ws : List (Nat × α)) (s : Nat) :
    ((Buffer.new : Buffer α).stores ws s).isSome ↔ ∃ w ∈ ws, w.1 = s := by
  rw [← Option.ne_none_iff_isSome, Ne, Buffer_stores_eq_none_iff]
  simp [Buffer.new]

/-- Two offsets `a * w + c` with in-cell parts below `w` agree only when both
parts agree. -/
theorem cell_inj {a b c d w : Nat} (hc : c < w) (hd : d < w) (h : a * w + c = b * w + d) :
    a = b ∧ c = d := by
  rcases Nat.lt_trichotomy a b with hab | hab | hab
  · have := grid_lt hab hc
    omega
  · subst hab
    exact ⟨rfl, by omega⟩
  · have := grid_lt hab hd
    omega

/-- The stores of one vertex, `for k < 3` followed by the two texture
coordinate stores, are the eleven stores of the interleaved layout. -/
theorem mem_vertex_cell {α : Type} (base : Nat) (position normal color : vec3 α)
    (coord : vec2 α) (x : Nat × α) :
    x ∈ (forLoop 3 fun k =>
          [(base + k, position.get k), (base + k + 3, normal.get k),
           (base + k + 6, color.get k)]) ++
        [(base + 9, coord.get 0), (base + 10, coord.get 1)] ↔
      ∃ c, c < 11 ∧ x = (base + c, vertexAttr position normal color coord c) := by
  simp only [List.mem_append, mem_forLoop, List.mem_cons, List.mem_singleton, List.mem_nil_iff,
    or_false]
  constructor
  · rintro (⟨k, hk, h | h | h⟩ | h | h)
    · exact ⟨k, by omega, by rw [h]; simp [vertexAttr, hk]⟩
    · refine ⟨k + 3, by omega, ?_⟩
      rw [h]
      have h1 : ¬ (k + 3 < 3) := by omega
      have h2 : k + 3 < 6 := by omega
      simp [vertexAttr, h1, h2, Nat.add_assoc]
    · refine ⟨k + 6, by omega, ?_⟩
      rw [h]
      have h1 : ¬ (k + 6 < 3) := by omega
      have h2 : ¬ (k + 6 < 6) := by omega
      have h3 : k + 6 < 9 := by omega
      simp [vertexAttr, h1, h2, h3, Nat.add_assoc]
    · exact ⟨9, by omega, by rw [h]; simp [vertexAttr]⟩
    · exact ⟨10, by omega, by rw [h]; simp [vertexAttr]⟩
  · rintro ⟨c, hc, h⟩
    by_cases h1 : c < 3
    · exact Or.inl ⟨c, h1, Or.inl (by rw [h]; simp [vertexAttr, h1])⟩
    · by_cases h2 : c < 6
      · refine Or.inl ⟨c - 3, by omega, Or.inr (Or.inl ?_)⟩
        rw [h]
        have e : base + (c - 3) + 3 = base + c := by omega
        simp [vertexAttr, h1, h2, e]
      · by_cases h3 : c < 9
        · refine Or.inl ⟨c - 6, by omega, Or.inr (Or.inr ?_)⟩
          rw [h]
          have e : base + (c - 6) + 6 = base + c := by omega
          simp [vertexAttr, h1, h2, h3, e]
        · have h4 : c = 9 ∨ c = 10 := by omega
          rcases h4 with h4 | h4
          · subst h4
            exact Or.inr (Or.inl (by rw [h]; simp [vertexAttr]))
          · subst h4
            exact Or.inr (Or.inr (by rw [h]; simp [vertexAttr]))

/-- A buffer filled by stores that range over a grid of cells of width `w`,
one store per element: every element of the grid holds the value stored for
it and nothing beyond the grid is assigned. -/
theorem grid_stores_spec {α : Type} (ws : List (Nat × α)) (n m w : Nat)
    (f : Nat → Nat → Nat → α)
    (hmem : ∀ x, x ∈ ws ↔
      ∃ i, i < n ∧ ∃ j, j < m ∧ ∃ c, c < w ∧ x = ((i * m + j) * w + c, f i j c)) :
    (∀ i j c, i < n → j < m → c < w →
      (Buffer.new : Buffer α).stores ws ((i * m + j) * w + c) = some (f i j c)) ∧
    (∀ s, n * m * w ≤ s → (Buffer.new : Buffer α).stores ws s = none) := by
  constructor
  · intro i j c hi hj hc
    apply Buffer_stores_unique
    · exact ⟨_, (hmem _).2 ⟨i, hi, j, hj, c, hc, rfl⟩, rfl⟩
    · intro x hx hs
      obtain ⟨i2, hi2, j2, hj2, c2, hc2, hx2⟩ := (hmem x).1 hx
      subst hx2
      obtain ⟨h1, h2⟩ := cell_inj hc2 hc hs
      obtain ⟨h3, h4⟩ := cell_inj hj2 hj h1
      subst h2 h3 h4
      rfl
  · intro s hs
    rw [Buffer_stores_eq_none_iff]
    refine ⟨rfl, ?_⟩
    intro x hx e
    obtain ⟨i, hi, j, hj, c, hc, hx2⟩ := (hmem x).1 hx
    subst hx2
    have h1 : i * m + j < n * m := grid_lt hi hj
    have h2 : (i * m + j) * w + c < n * m * w := grid_lt h1 hc
    simp only at e
    omega

theorem vec3_get_lt {a b c n k : Nat} (ha : a < n) (hb : b < n) (hc : c < n) :
    (vec3.mk a b c).get k < n := by
  unfold vec3.get
  split
  · exact ha
  · split
    · exact hb
    · exact hc

theorem quadAttr_lt {t1 t2 : vec3 Nat} {n : Nat} (c : Nat)
    (h1 : ∀ k, t1.get k < n) (h2 : ∀ k, t2.get k < n) : quadAttr t1 t2 c < n := by
  unfold quadAttr
  split
  · exact h1 _
  · exact h2 _

/-- The two stores per `k` of a quad are the six stores of the quad layout. -/
theorem quad_cell_iff (base : Nat) (t1 t2 : vec3 Nat) (x : Nat × Nat) :
    (∃ k, k < 3 ∧ (x = (base + k, t1.get k) ∨ x = (base + k + 3, t2.get k))) ↔
      ∃ c, c < 6 ∧ x = (base + c, quadAttr t1 t2 c) := by
  constructor
  · rintro ⟨k, hk, h | h⟩
    · exact ⟨k, by omega, by rw [h]; simp [quadAttr, hk]⟩
    · refine ⟨k + 3, by omega, ?_⟩
      rw [h]
      have h1 : ¬ (k + 3 < 3) := by omega
      simp [quadAttr, h1, Nat.add_assoc]
  · rintro ⟨c, hc, h⟩
    by_cases h1 : c < 3
    · exact ⟨c, h1, Or.inl (by rw [h]; simp [quadAttr, h1])⟩
    · refine ⟨c - 3, by omega, Or.inr ?_⟩
      rw [h]
      have e : base + (c - 3) + 3 = base + c := by omega
      simp [quadAttr, h1, e]

/-- A buffer in which every element below `n * m * w` of a grid holds a value
below `b`: in terms of raw offsets. -/
theorem grid_all_lt {buf : Buffer Nat} {n m w b : Nat} {f : Nat → Nat → Nat → Nat}
    (hval : ∀ i j c, i < n → j < m → c < w → buf ((i * m + j) * w + c) = some (f i j c))
    (hlt : ∀ i j c, i < n → j < m → c < w → f i j c < b) (s : Nat) (hs : s < n * m * w) :
    ∃ v, buf s = some v ∧ v < b := by
  obtain ⟨i, j, c, hi, hj, hc, e⟩ := grid_decomp hs
  exact ⟨f i j c, by rw [e]; exact hval i j c hi hj hc, hlt i j c hi hj hc⟩

theorem CreateSphere_mem_faceStores (T P : Nat) (x : Nat × Nat) :
    x ∈ CreateSphere.faceStores T P ↔
      ∃ i, i < T ∧ ∃ j, j < P - 1 ∧ ∃ c, c < 6 ∧
        x = ((i * (P - 1) + j) * 6 + c,
             quadAttr (CreateSphere.t1 T P i j) (CreateSphere.t2 T P i j) c) := by
  simp only [CreateSphere.faceStores, mem_forLoop, face_att, List.mem_cons, List.mem_singleton,
    List.mem_nil_iff, or_false, Nat.mul_assoc, Nat.reduceMul, quad_cell_iff]

/-- The face buffer of `CreateSphere`: the element at offset `c` of quad
`i * (P - 1) + j` is the index computed for it, and nothing beyond
`T * (P - 1)` quads is assigned. -/
theorem CreateSphere_face_spec (T P : Nat) :
    (∀ i j c, i < T → j < P - 1 → c < 6 →
      (Buffer.new : Buffer Nat).stores (CreateSphere.faceStores T P)
          ((i * (P - 1) + j) * 6 + c) =
        some (quadAttr (CreateSphere.t1 T P i j) (CreateSphere.t2 T P i j) c)) ∧
    (∀ s, T * (P - 1) * 6 ≤ s →
      (Buffer.new : Buffer Nat).stores (CreateSphere.faceStores T P) s = none) :=
  grid_stores_spec _ T (P - 1) 6 _ (CreateSphere_mem_faceStores T P)

/-- With at most 2^24 vertices the triangles of the sphere are stored with the
indices the source computes. -/
theorem CreateSphere_triangles_exact (T P i j : Nat) (hN : T * P ≤ 2 ^ 24) (hi : i < T)
    (hj : j < P - 1) :
    CreateSphere.t1 T P i j = ⟨((i + 1) % T) * P + j, i * P + (j + 1), i * P + j⟩ ∧
    CreateSphere.t2 T P i j =
      ⟨((i + 1) % T) * P + j, ((i + 1) % T) * P + (j + 1), i * P + (j + 1)⟩ := by
  have hT : 0 < T := by omega
  have hm : (i + 1) % T < T := Nat.mod_lt _ hT
  have h1 : ((i + 1) % T) * P + j < T * P := grid_lt hm (by omega)
  have h2 : i * P + (j + 1) < T * P := grid_lt hi (by omega)
  have h3 : i * P + j < T * P := grid_lt hi (by omega)
  have h4 : ((i + 1) % T) * P + (j + 1) < T * P := grid_lt hm (by omega)
  unfold CreateSphere.t1 CreateSphere.t2
  rw [float32_index_of_lt _ (by omega), float32_index_of_lt _ (by omega),
    float32_index_of_lt _ (by omega), float32_index_of_lt _ (by omega)]
  exact ⟨rfl, rfl⟩

theorem CreateSphere_index_lt (T P i j c : Nat) (hN : T * P ≤ 2 ^ 24) (hi : i < T)
    (hj : j < P - 1) :
    quadAttr (CreateSphere.t1 T P i j) (CreateSphere.t2 T P i j) c < T * P := by
  have hT : 0 < T := by omega
  have hm : (i + 1) % T < T := Nat.mod_lt _ hT
  have h1 : ((i + 1) % T) * P + j < T * P := grid_lt hm (by omega)
  have h2 : i * P + (j + 1) < T * P := grid_lt hi (by omega)
  have h3 : i * P + j < T * P := grid_lt hi (by omega)
  have h4 : ((i + 1) % T) * P + (j + 1) < T * P := grid_lt hm (by omega)
  obtain ⟨e1, e2⟩ := CreateSphere_triangles_exact T P i j hN hi hj
  rw [e1, e2]
  exact quadAttr_lt c (fun _ => vec3_get_lt h1 h2 h3) (fun _ => vec3_get_lt h1 h4 h2)

theorem CreateSphere_mem_vertexStores {α : Type} [Field α] (m : Trig α) (radius : α)
    (T P : Nat) (x : Nat × α) :
    x ∈ CreateSphere.vertexStores m radius T P ↔
      ∃ i, i < T ∧ ∃ j, j < P ∧ ∃ c, c < 11 ∧
        x = ((i * P + j) * 11 + c,
             vertexAttr (CreateSphere.vertex_position m radius T P i j)
               (CreateSphere.vertex_normal m T P i j) (CreateSphere.vertex_color T P i j)
               (CreateSphere.vertex_coord T P i j) c) := by
  simp only [CreateSphere.vertexStores, mem_forLoop, mem_vertex_cell, vertex_att]

/-- The vertex buffer of `CreateSphere`: the element at offset `c` of vertex
`i * P + j` is the attribute computed for the grid point (i, j), and nothing
beyond `T * P` vertices is assigned. -/
theorem CreateSphere_vertex_spec {α : Type} [Field α] (m : Trig α) (radius : α) (T P : Nat) :
    (∀ i j c, i < T → j < P → c < 11 →
      (Buffer.new : Buffer α).stores (CreateSphere.vertexStores m radius T P)
          ((i * P + j) * 11 + c) =
        some (vertexAttr (CreateSphere.vertex_position m radius T P i j)
               (CreateSphere.vertex_normal m T P i j) (CreateSphere.vertex_color T P i j)
               (CreateSphere.vertex_coord T P i j) c)) ∧
    (∀ s, T * P * 11 ≤ s →
      (Buffer.new : Buffer α).stores (CreateSphere.vertexStores m radius T P) s = none) :=
  grid_stores_spec _ T P 11 _ (CreateSphere_mem_vertexStores m radius T P)

theorem CreateTorus_mem_faceStores (L C : Nat) (x : Nat × Nat) :
    x ∈ CreateTorus.faceStores L C ↔
      ∃ i, i < L ∧ ∃ j, j < C ∧ ∃ c, c < 6 ∧
        x = ((i * C + j) * 6 + c,
             quadAttr (CreateTorus.t1 L C i j) (CreateTorus.t2 L C i j) c) := by
  simp only [CreateTorus.faceStores, mem_forLoop, face_att, List.mem_cons, List.mem_singleton,
    List.mem_nil_iff, or_false, Nat.mul_assoc, Nat.reduceMul, quad_cell_iff]

/-- The face buffer of `CreateTorus`: the element at offset `c` of quad
`i * C + j` is the index computed for it, and nothing beyond `L * C` quads is
assigned. -/
theorem CreateTorus_face_spec (L C : Nat) :
    (∀ i j c, i < L → j < C → c < 6 →
      (Buffer.new : Buffer Nat).stores (CreateTorus.faceStores L C) ((i * C + j) * 6 + c) =
        some (quadAttr (CreateTorus.t1 L C i j) (CreateTorus.t2 L C i j) c)) ∧
    (∀ s, L * C * 6 ≤ s →
      (Buffer.new : Buffer Nat).stores (CreateTorus.faceStores L C) s = none) :=
  grid_stores_spec _ L C 6 _ (CreateTorus_mem_faceStores L C)

/-- With at most 2^24 vertices the triangles of the torus are stored with the
indices the source computes. -/
theorem CreateTorus_triangles_exact (L C i j : Nat) (hN : L * C ≤ 2 ^ 24) (hi : i < L)
    (hj : j < C) :
    CreateTorus.t1 L C i j = ⟨((i + 1) % L) * C + j, i * C + ((j + 1) % C), i * C + j⟩ ∧
    CreateTorus.t2 L C i j =
      ⟨((i + 1) % L) * C + j, ((i + 1) % L) * C + ((j + 1) % C), i * C + ((j + 1) % C)⟩ := by
  have hL : 0 < L := by omega
  have hC : 0 < C := by omega
  have hm : (i + 1) % L < L := Nat.mod_lt _ hL
  have hn : (j + 1) % C < C := Nat.mod_lt _ hC
  have h1 : ((i + 1) % L) * C + j < L * C := grid_lt hm hj
  have h2 : i * C + ((j + 1) % C) < L * C := grid_lt hi hn
  have h3 : i * C + j < L * C := grid_lt hi hj
  have h4 : ((i + 1) % L) * C + ((j + 1) % C) < L * C := grid_lt hm hn
  unfold CreateTorus.t1 CreateTorus.t2
  rw [float32_index_of_lt _ (by omega), float32_index_of_lt _ (by omega),
    float32_index_of_lt _ (by omega), float32_index_of_lt _ (by omega)]
  exact ⟨rfl, rfl⟩

theorem CreateTorus_index_lt (L C i j c : Nat) (hN : L * C ≤ 2 ^ 24) (hi : i < L)
    (hj : j < C) :
    quadAttr (CreateTorus.t1 L C i j) (CreateTorus.t2 L C i j) c < L * C := by
  have hL : 0 < L := by omega
  have hC : 0 < C := by omega
  have hm : (i + 1) % L < L := Nat.mod_lt _ hL
  have hn : (j + 1) % C < C := Nat.mod_lt _ hC
  have h1 : ((i + 1) % L) * C + j < L * C := grid_lt hm hj
  have h2 : i * C + ((j + 1) % C) < L * C := grid_lt hi hn
  have h3 : i * C + j < L * C := grid_lt hi hj
  have h4 : ((i + 1) % L) * C + ((j + 1) % C) < L * C := grid_lt hm hn
  obtain ⟨e1, e2⟩ := CreateTorus_triangles_exact L C i j hN hi hj
  rw [e1, e2]
  exact quadAttr_lt c (fun _ => vec3_get_lt h1 h2 h3) (fun _ => vec3_get_lt h1 h4 h2)

theorem CreateTorus_mem_vertexStores {α : Type} [Field α] (m : Trig α)
    (loop_radius circle_radius : α) (L C : Nat) (x : Nat × α) :
    x ∈ CreateTorus.vertexStores m loop_radius circle_radius L C ↔
      ∃ i, i < L ∧ ∃ j, j < C ∧ ∃ c, c < 11 ∧
        x = ((i * C + j) * 11 + c,
             vertexAttr (CreateTorus.vertex_position m loop_radius circle_radius L C i j)
               (CreateTorus.vertex_normal m L C i j) (CreateTorus.vertex_color L C i j)
               (CreateTorus.vertex_coord m L C i j) c) := by
  simp only [CreateTorus.vertexStores, mem_forLoop, mem_vertex_cell, vertex_att]

/-- The vertex buffer of `CreateTorus`: the element at offset `c` of vertex
`i * C + j` is the attribute computed for the grid point (i, j), and nothing
beyond `L * C` vertices is assigned. -/
theorem CreateTorus_vertex_spec {α : Type} [Field α] (m : Trig α)
    (loop_radius circle_radius : α) (L C : Nat) :
    (∀ i j c, i < L → j < C → c < 11 →
      (Buffer.new : Buffer α).stores
          (CreateTorus.vertexStores m loop_radius circle_radius L C) ((i * C + j) * 11 + c) =
        some (vertexAttr (CreateTorus.vertex_position m loop_radius circle_radius L C i j)
               (CreateTorus.vertex_normal m L C i j) (CreateTorus.vertex_color L C i j)
               (CreateTorus.vertex_coord m L C i j) c)) ∧
    (∀ s, L * C * 11 ≤ s →
      (Buffer.new : Buffer α).stores
        (CreateTorus.vertexStores m loop_radius circle_radius L C) s = none) :=
  grid_stores_spec _ L C 11 _ (CreateTorus_mem_vertexStores m loop_radius circle_radius L C)

/-- In a buffer that holds a value at every element of a grid and nothing
beyond it, the assigned elements are exactly those below the grid size. -/
theorem grid_isSome_iff {α : Type} {buf : Buffer α} {n m w : Nat} {f : Nat → Nat → Nat → α}
    (hval : ∀ i j c, i < n → j < m → c < w → buf ((i * m + j) * w + c) = some (f i j c))
    (hnone : ∀ s, n * m * w ≤ s → buf s = none) (s : Nat) :
    (buf s).isSome ↔ s < n * m * w := by
  constructor
  · intro h
    by_contra hge
    rw [hnone s (by omega)] at h
    simp at h
  · intro hs
    obtain ⟨i, j, c, hi, hj, hc, e⟩ := grid_decomp hs
    rw [e, hval i j c hi hj hc]
    rfl

/-! ## The resource cache -/

theorem GetResource_scan_append_of_none (rs : List Resource) (r : Resource) (name : String)
    (h : GetResource.scan rs name = none) :
    GetResource.scan (rs ++ [r]) name = if r.GetName = name then some r else none := by
  induction rs with
  | nil => rfl
  | cons a rs ih =>
    simp only [GetResource.scan, List.cons_append] at h ⊢
    by_cases ha : a.GetName = name
    · simp [ha] at h
    · simp only [ha, if_false] at h ⊢
      exact ih h

theorem GetResource_scan_append_of_some (rs : List Resource) (r r0 : Resource) (name : String)
    (h : GetResource.scan rs name = some r0) :
    GetResource.scan (rs ++ [r]) name = some r0 := by
  induction rs with
  | nil => simp [GetResource.scan] at h
  | cons a rs ih =>
    simp only [GetResource.scan, List.cons_append] at h ⊢
    by_cases ha : a.GetName = name
    · simpa [ha] using h
    · simp only [ha, if_false] at h ⊢
      exact ih h

theorem GetResource_scan_eq_none_iff (rs : List Resource) (name : String) :
    GetResource.scan rs name = none ↔ ∀ r ∈ rs, r.name ≠ name := by
  induction rs with
  | nil => simp [GetResource.scan]
  | cons a rs ih =>
    simp only [GetResource.scan, Resource.GetName]
    by_cases ha : a.name = name
    · simp [ha]
    · simp [ha, ih]

/-- A lookup after a push_back: what the lookup found before, or else the new
resource when it carries the name. -/
theorem GetResource_push (rm : ResourceManager) (r : Resource) (name : String) :
    GetResource ⟨rm.resource_ ++ [r]⟩ name =
      match GetResource rm name with
      | some r0 => some r0
      | none => if r.GetName = name then some r else none := by
  unfold GetResource
  cases h : GetResource.scan rm.resource_ name with
  | none => simpa using GetResource_scan_append_of_none _ r name h
  | some r0 => simpa using GetResource_scan_append_of_some _ r r0 name h

/-! ## Claims -/

set_option maxRecDepth 100000 in
theorem CreateCube_vertex_length : CreateCube.vertex.length = 264 := rfl

theorem CreateCube_face_lt : ∀ x ∈ CreateCube.face, x < 24 := by decide

/-- C1: `CreateCube(name)` builds a vertex table of 24 vertices (264 floats at
stride 11) and an index table of 36 indices (12 triangles), every index below
24, and appends a Mesh resource of size 36 under `name`; a lookup of `name`
afterwards returns what an earlier entry of that name gave, and otherwise
(in particular on a fresh manager) that Mesh with index count 36. -/
theorem CreateCube_registers_mesh_36 (rm : ResourceManager) (name : String) (vbo ebo : Nat) :
    (CreateCube rm name vbo ebo).vertex.length = 264 ∧
    264 = 24 * vertex_att ∧
    (CreateCube rm name vbo ebo).face.length = 36 ∧
    36 = 12 * face_att ∧
    (∀ x ∈ (CreateCube rm name vbo ebo).face, x < 24) ∧
    (CreateCube rm name vbo ebo).rm.resource_ =
      rm.resource_ ++ [⟨ResourceType.Mesh, name, Handles.pair vbo ebo, 36⟩] ∧
    GetResource (CreateCube rm name vbo ebo).rm name =
      (match GetResource rm name with
       | some r0 => some r0
       | none => some ⟨ResourceType.Mesh, name, Handles.pair vbo ebo, 36⟩) ∧
    GetResource (CreateCube ResourceManager.new name vbo ebo).rm name =
      some ⟨ResourceType.Mesh, name, Handles.pair vbo ebo, 36⟩ := by
  have hpush : ∀ rm0 : ResourceManager, GetResource (CreateCube rm0 name vbo ebo).rm name =
      (match GetResource rm0 name with
       | some r0 => some r0
       | none => some ⟨ResourceType.Mesh, name, Handles.pair vbo ebo, 36⟩) := by
    intro rm0
    have h := GetResource_push rm0 ⟨ResourceType.Mesh, name, Handles.pair vbo ebo, 36⟩ name
    simp only [Resource.GetName, if_true] at h
    exact h
  refine ⟨CreateCube_vertex_length, rfl, rfl, rfl, CreateCube_face_lt, rfl, hpush rm, ?_⟩
  rw [hpush]
  rfl

/-- C1, the end-to-end scenario of `SetupResources`: on a fresh manager,
`CreateCube("CubeMesh")` then `GetResource("CubeMesh")` gives a Mesh of size 36. -/
theorem CreateCube_registers_mesh_36_witness :
    GetResource (CreateCube ResourceManager.new "CubeMesh" 1 2).rm "CubeMesh" =
      some ⟨ResourceType.Mesh, "CubeMesh", Handles.pair 1 2, 36⟩ :=
  (CreateCube_registers_mesh_36 ResourceManager.new "CubeMesh" 1 2).2.2.2.2.2.2.2

/-- The element at offset `c` of quad (i, j) in the index buffer of the sphere. -/
theorem CreateSphere_face_at {α : Type} [Field α] (m : Trig α) (rm : ResourceManager)
    (name : String) (radius : α) (T P vbo ebo i j c : Nat) (hi : i < T) (hj : j < P - 1)
    (hc : c < 6) :
    (CreateSphere m rm name radius T P vbo ebo).face ((i * (P - 1) + j) * 6 + c) =
      some (quadAttr (CreateSphere.t1 T P i j) (CreateSphere.t2 T P i j) c) :=
  (CreateSphere_face_spec T P).1 i j c hi hj hc

/-- The element at offset `c` of quad (i, j) in the index buffer of the torus. -/
theorem CreateTorus_face_at {α : Type} [Field α] (m : Trig α) (rm : ResourceManager)
    (name : String) (loop_radius circle_radius : α) (L C vbo ebo i j c : Nat) (hi : i < L)
    (hj : j < C) (hc : c < 6) :
    (CreateTorus m rm name loop_radius circle_radius L C vbo ebo).face
        ((i * C + j) * 6 + c) =
      some (quadAttr (CreateTorus.t1 L C i j) (CreateTorus.t2 L C i j) c) :=
  (CreateTorus_face_spec L C).1 i j c hi hj hc

/-- The face count of the sphere and the size it registers, when no product
leaves the range of `GLuint`. -/
theorem CreateSphere_face_num_eq (T P : Nat) (hP : 1 ≤ P) (hN : T * P ≤ 2 ^ 24) :
    GLuint_of_int ((T : Int) * ((P : Int) - 1) * 2) = T * (P - 1) * 2 ∧
    T * (P - 1) * 2 * face_att % 2 ^ 32 = T * (P - 1) * 6 := by
  have hle : T * (P - 1) ≤ T * P := Nat.mul_le_mul_left T (Nat.sub_le P 1)
  have h1 : (T : Int) * ((P : Int) - 1) * 2 = ((T * (P - 1) * 2 : Nat) : Int) := by
    push_cast [Nat.cast_sub hP]
    ring
  constructor
  · unfold GLuint_of_int
    rw [h1, Int.emod_eq_of_lt (by positivity) (by
      have : T * (P - 1) * 2 < 2 ^ 32 := by omega
      exact_mod_cast this)]
    exact Int.toNat_natCast _
  · simp only [face_att]
    rw [Nat.mod_eq_of_lt (by omega)]
    omega

/-- C2, as amended: for `T >= 1` and `P >= 1` with at most 2^24 = 16777216 vertices
(`T * P <= 2^24`), `CreateSphere` produces `T * P` vertices (the assigned elements
of the vertex buffer are exactly the first `T * P * 11`) and `T * (P - 1) * 2`
triangles, registers a Mesh of size `T * (P - 1) * 6`, assigns every one of the
`T * (P - 1) * 6` elements of the index buffer and nothing beyond them, and
every assigned index is below `T * P`. -/
theorem CreateSphere_counts_and_indices {α : Type} [Field α] (m : Trig α)
    (rm : ResourceManager) (name : String) (radius : α) (T P vbo ebo : Nat)
    (hT : 1 ≤ T) (hP : 1 ≤ P) (hN : T * P ≤ 2 ^ 24) :
    (CreateSphere m rm name radius T P vbo ebo).vertex_num = T * P ∧
    (∀ s, ((CreateSphere m rm name radius T P vbo ebo).vertex s).isSome ↔
      s < T * P * vertex_att) ∧
    (CreateSphere m rm name radius T P vbo ebo).vertex_upload = T * P * vertex_att ∧
    (CreateSphere m rm name radius T P vbo ebo).face_num = T * (P - 1) * 2 ∧
    (CreateSphere m rm name radius T P vbo ebo).face_upload = T * (P - 1) * 6 ∧
    (CreateSphere m rm name radius T P vbo ebo).rm.resource_ =
      rm.resource_ ++ [⟨ResourceType.Mesh, name, Handles.pair vbo ebo, T * (P - 1) * 6⟩] ∧
    (∀ s, s < T * (P - 1) * 6 →
      ∃ v, (CreateSphere m rm name radius T P vbo ebo).face s = some v ∧ v < T * P) ∧
    (∀ s, T * (P - 1) * 6 ≤ s → (CreateSphere m rm name radius T P vbo ebo).face s = none) := by
  have _h1 := hT
  obtain ⟨hv, hvn⟩ := CreateSphere_vertex_spec m radius T P
  obtain ⟨hf, hfn⟩ := CreateSphere_face_spec T P
  obtain ⟨hn, hs⟩ := CreateSphere_face_num_eq T P hP hN
  have hfu : (CreateSphere m rm name radius T P vbo ebo).face_upload =
      GLuint_of_int ((T : Int) * ((P : Int) - 1) * 2) * face_att % 2 ^ 32 * sizeof_GLuint /
        sizeof_GLuint := rfl
  have hrm : (CreateSphere m rm name radius T P vbo ebo).rm =
      AddResource2 rm ResourceType.Mesh name vbo ebo
        (GLuint_of_int ((T : Int) * ((P : Int) - 1) * 2) * face_att % 2 ^ 32) := rfl
  refine ⟨rfl, fun s => grid_isSome_iff hv hvn s, ?_, hn, ?_, ?_, ?_, hfn⟩
  · simp [CreateSphere, sizeof_GLfloat]
  · rw [hfu, hn, hs, Nat.mul_div_cancel _ (by decide : 0 < sizeof_GLuint)]
  · rw [hrm, hn, hs]
    rfl
  · exact fun s hs => grid_all_lt hf
      (fun i j c hi hj _ => CreateSphere_index_lt T P i j c hN hi hj) s hs

/-- C2 at `T = P = 8` on a fresh manager: 64 vertices, 112 faces, and the lookup
of the name returns a Mesh of 336 indices, each assigned and below 64. -/
theorem CreateSphere_counts_and_indices_witness :
    (1 ≤ 8 ∧ 1 ≤ 8 ∧ 8 * 8 ≤ 2 ^ 24) ∧
    (CreateSphere (Trig.mk Real.cos Real.sin Real.pi) ResourceManager.new "S" 1 8 8 1 2).vertex_num
      = 64 ∧
    (CreateSphere (Trig.mk Real.cos Real.sin Real.pi) ResourceManager.new "S" 1 8 8 1 2).face_num
      = 112 ∧
    GetResource
        (CreateSphere (Trig.mk Real.cos Real.sin Real.pi) ResourceManager.new "S" 1 8 8 1 2).rm "S"
      = some ⟨ResourceType.Mesh, "S", Handles.pair 1 2, 336⟩ ∧
    (∀ s, s < 336 → ∃ v,
      (CreateSphere (Trig.mk Real.cos Real.sin Real.pi) ResourceManager.new "S" 1 8 8 1 2).face s
        = some v ∧ v < 64) := by
  have h := CreateSphere_counts_and_indices (Trig.mk Real.cos Real.sin Real.pi)
    ResourceManager.new "S" (1 : ℝ) 8 8 1 2 (by decide) (by decide) (by decide)
  refine ⟨⟨by decide, by decide, by decide⟩, h.1, h.2.2.2.1, ?_, h.2.2.2.2.2.2.1⟩
  unfold GetResource
  rw [h.2.2.2.2.2.1]
  rfl

/-- C2 as stated fails beyond 2^24 vertices: in `CreateSphere(name, r, 4, 4194305)`
the triangle `t1` of the quad (3, 4194303) has the corner 3 * 4194305 + 4194304 =
16777219, which its float holds as 16777220; element 100663291 of the
100663296 index elements holds 16777220 = 4 * 4194305, the vertex count. -/
theorem CreateSphere_index_reaches_count :
    100663291 < 4 * (4194305 - 1) * 6 ∧
    (CreateSphere (Trig.mk Real.cos Real.sin Real.pi) ResourceManager.new "S" 1
      4 4194305 1 2).face 100663291 = some 16777220 ∧
    ¬ (16777220 < 4 * 4194305) := by
  refine ⟨by decide, ?_, by decide⟩
  have h := CreateSphere_face_at (Trig.mk Real.cos Real.sin Real.pi) ResourceManager.new "S" 1
    4 4194305 1 2 3 4194303 1 (by decide) (by decide) (by decide)
  have hs : (3 * (4194305 - 1) + 4194303) * 6 + 1 = 100663291 := by norm_num
  have e : quadAttr (CreateSphere.t1 4 4194305 3 4194303) (CreateSphere.t2 4 4194305 3 4194303)
      1 = float32_index 16777219 := by
    simp [quadAttr, CreateSphere.t1, vec3.get]
  rw [hs, e, float32_index_16777219] at h
  exact h

/-- C3, as amended: for `L >= 1` and `C >= 1` with at most 2^24 = 16777216
vertices (`L * C <= 2^24`), `CreateTorus` produces `L * C` vertices (the
assigned elements of the vertex buffer are exactly the first `L * C * 11`) and
`L * C * 2` triangles, registers a Mesh of size `L * C * 6`, assigns every one
of the `L * C * 6` elements of the index buffer and nothing beyond them, and
every assigned index is below `L * C`. -/
theorem CreateTorus_counts_and_indices {α : Type} [Field α] (m : Trig α)
    (rm : ResourceManager) (name : String) (loop_radius circle_radius : α)
    (L C vbo ebo : Nat) (hL : 1 ≤ L) (hC : 1 ≤ C) (hN : L * C ≤ 2 ^ 24) :
    (CreateTorus m rm name loop_radius circle_radius L C vbo ebo).vertex_num = L * C ∧
    (∀ s, ((CreateTorus m rm name loop_radius circle_radius L C vbo ebo).vertex s).isSome ↔
      s < L * C * vertex_att) ∧
    (CreateTorus m rm name loop_radius circle_radius L C vbo ebo).vertex_upload =
      L * C * vertex_att ∧
    (CreateTorus m rm name loop_radius circle_radius L C vbo ebo).face_num = L * C * 2 ∧
    (CreateTorus m rm name loop_radius circle_radius L C vbo ebo).face_upload = L * C * 6 ∧
    (CreateTorus m rm name loop_radius circle_radius L C vbo ebo).rm.resource_ =
      rm.resource_ ++ [⟨ResourceType.Mesh, name, Handles.pair vbo ebo, L * C * 6⟩] ∧
    (∀ s, s < L * C * 6 →
      ∃ v, (CreateTorus m rm name loop_radius circle_radius L C vbo ebo).face s = some v ∧
        v < L * C) ∧
    (∀ s, L * C * 6 ≤ s →
      (CreateTorus m rm name loop_radius circle_radius L C vbo ebo).face s = none) := by
  have _h1 := hL
  have _h2 := hC
  obtain ⟨hv, hvn⟩ := CreateTorus_vertex_spec m loop_radius circle_radius L C
  obtain ⟨hf, hfn⟩ := CreateTorus_face_spec L C
  refine ⟨rfl, fun s => grid_isSome_iff hv hvn s, ?_, rfl, ?_, ?_, ?_, hfn⟩
  · simp [CreateTorus, sizeof_GLfloat]
  · show L * C * 2 * face_att * sizeof_GLuint / sizeof_GLuint = L * C * 6
    rw [Nat.mul_div_cancel _ (by decide : 0 < sizeof_GLuint)]
    simp [face_att, Nat.mul_assoc]
  · simp [CreateTorus, AddResource2, face_att, Nat.mul_assoc]
  · exact fun s hs => grid_all_lt hf
      (fun i j c hi hj _ => CreateTorus_index_lt L C i j c hN hi hj) s hs

/-- C3 at `L = 3`, `C = 4` on a fresh manager: 12 vertices, 24 faces, and the
lookup of the name returns a Mesh of 72 indices, each assigned and below 12. -/
theorem CreateTorus_counts_and_indices_witness :
    (1 ≤ 3 ∧ 1 ≤ 4 ∧ 3 * 4 ≤ 2 ^ 24) ∧
    (CreateTorus (Trig.mk Real.cos Real.sin Real.pi) ResourceManager.new "T" 2 1 3 4 1 2).vertex_num
      = 12 ∧
    (CreateTorus (Trig.mk Real.cos Real.sin Real.pi) ResourceManager.new "T" 2 1 3 4 1 2).face_num
      = 24 ∧
    GetResource
        (CreateTorus (Trig.mk Real.cos Real.sin Real.pi) ResourceManager.new "T" 2 1 3 4 1 2).rm "T"
      = some ⟨ResourceType.Mesh, "T", Handles.pair 1 2, 72⟩ ∧
    (∀ s, s < 72 → ∃ v,
      (CreateTorus (Trig.mk Real.cos Real.sin Real.pi) ResourceManager.new "T" 2 1 3 4 1 2).face s
        = some v ∧ v < 12) := by
  have h := CreateTorus_counts_and_indices (Trig.mk Real.cos Real.sin Real.pi)
    ResourceManager.new "T" (2 : ℝ) 1 3 4 1 2 (by decide) (by decide) (by decide)
  refine ⟨⟨by decide, by decide, by decide⟩, h.1, h.2.2.2.1, ?_, h.2.2.2.2.2.2.1⟩
  unfold GetResource
  rw [h.2.2.2.2.2.1]
  rfl

/-- C3 as stated fails beyond 2^24 vertices: in `CreateTorus(name, R, r, 4,
4194305)` the triangle `t1` of the quad (3, 4194304) has the corner
3 * 4194305 + 4194304 = 16777219, which its float holds as 16777220; element
100663316 of the 100663320 index elements holds 16777220 = 4 * 4194305, the
vertex count. -/
theorem CreateTorus_index_reaches_count :
    100663316 < 4 * 4194305 * 6 ∧
    (CreateTorus (Trig.mk Real.cos Real.sin Real.pi) ResourceManager.new "T" 2 1
      4 4194305 1 2).face 100663316 = some 16777220 ∧
    ¬ (16777220 < 4 * 4194305) := by
  refine ⟨by decide, ?_, by decide⟩
  have h := CreateTorus_face_at (Trig.mk Real.cos Real.sin Real.pi) ResourceManager.new "T" 2 1
    4 4194305 1 2 3 4194304 2 (by decide) (by decide) (by decide)
  have hs : (3 * 4194305 + 4194304) * 6 + 2 = 100663316 := by norm_num
  have e : quadAttr (CreateTorus.t1 4 4194305 3 4194304) (CreateTorus.t2 4 4194305 3 4194304)
      2 = float32_index 16777219 := by
    simp [quadAttr, CreateTorus.t1, vec3.get]
  rw [hs, e, float32_index_16777219] at h
  exact h

theorem CreateCylindricalGeometry_mem_capFaceStores (L C : Nat) (x : Nat × Nat) :
    x ∈ CreateCylindricalGeometry.capFaceStores L C ↔
      ∃ g, g < C ∧ ∃ k, k < 3 ∧
        (x = (((L - 1) * C + (C - 1) + g) * 6 + k + 6,
              (CreateCylindricalGeometry.t4 L C g).get k) ∨
         x = (((L - 1) * C + (C - 1) + g) * 6 + k + 3,
              (CreateCylindricalGeometry.t3 L C g).get k)) := by
  simp only [CreateCylindricalGeometry.capFaceStores, mem_forLoop, face_att, List.mem_cons,
    List.mem_singleton, List.mem_nil_iff, or_false, Nat.mul_assoc, Nat.reduceMul]

theorem CreateCylindricalGeometry_mem_faceStores (L C : Nat) (x : Nat × Nat) :
    x ∈ CreateCylindricalGeometry.faceStores L C ↔
      ∃ i, i < L ∧ ∃ j, j < C ∧
        ((∃ k, k < 3 ∧
          (x = ((i * C + j) * 6 + k + 3, (CreateCylindricalGeometry.t2 L C i j).get k) ∨
           x = ((i * C + j) * 6 + k, (CreateCylindricalGeometry.t1 L C i j).get k))) ∨
         ((i = L - 1 ∧ j = C - 1) ∧ x ∈ CreateCylindricalGeometry.capFaceStores L C)) := by
  simp only [CreateCylindricalGeometry.faceStores, mem_forLoop, face_att, List.mem_append,
    List.mem_cons, List.mem_singleton, List.mem_nil_iff, or_false, Nat.mul_assoc, Nat.reduceMul]
  constructor
  · rintro ⟨i, hi, j, hj, h | h⟩
    · exact ⟨i, hi, j, hj, Or.inl h⟩
    · by_cases hc : i = L - 1 ∧ j = C - 1
      · rw [if_pos hc] at h
        exact ⟨i, hi, j, hj, Or.inr ⟨hc, h⟩⟩
      · rw [if_neg hc] at h
        cases h
  · rintro ⟨i, hi, j, hj, h | ⟨hc, h⟩⟩
    · exact ⟨i, hi, j, hj, Or.inl h⟩
    · exact ⟨i, hi, j, hj, Or.inr (by rw [if_pos hc]; exact h)⟩

/-- Every store of the triangle loop of `CreateCylindricalGeometry` addresses an
element at least four places before the end of the index buffer. -/
theorem CreateCylindricalGeometry_faceStores_slot_lt (L C : Nat) (x : Nat × Nat)
    (hx : x ∈ CreateCylindricalGeometry.faceStores L C) :
    x.1 + 3 < (L * C * 2 + C * 2) * 3 := by
  rw [CreateCylindricalGeometry_mem_faceStores] at hx
  obtain ⟨i, hi, j, hj, h⟩ := hx
  have hcell : i * C + j < L * C := grid_lt hi hj
  have hLC : L * C = (L - 1) * C + C := by
    have : L = (L - 1) + 1 := by omega
    calc L * C = ((L - 1) + 1) * C := by rw [← this]
      _ = (L - 1) * C + C := by ring
  rcases h with ⟨k, hk, h | h⟩ | ⟨_, h⟩
  · rw [h]; simp only; omega
  · rw [h]; simp only; omega
  · rw [CreateCylindricalGeometry_mem_capFaceStores] at h
    obtain ⟨g, hg, k, hk, h | h⟩ := h
    · rw [h]; simp only; omega
    · rw [h]; simp only; omega

/-- The last three elements of the index buffer that `CreateCylindricalGeometry`
uploads are never stored to, whatever the sample counts. -/
theorem CreateCylindricalGeometry_face_tail_unassigned {α : Type} [Field α] (m : Trig α)
    (rm : ResourceManager) (name : String) (top_radius bottom_radius height : α)
    (L C vbo ebo : Nat) (hL : 2 ≤ L) (s : Nat) (hs : (L * C * 2 + C * 2) * 3 ≤ s + 3) :
    (CreateCylindricalGeometry m rm name top_radius bottom_radius height L C vbo ebo).face s
      = none := by
  have hclamp : (if L < 2 then 2 else L) = L := by
    rw [if_neg (by omega)]
  show (Buffer.new : Buffer Nat).stores
    (CreateCylindricalGeometry.faceStores (if L < 2 then 2 else L) C) s = none
  rw [hclamp, Buffer_stores_eq_none_iff]
  refine ⟨rfl, ?_⟩
  intro x hx e
  have := CreateCylindricalGeometry_faceStores_slot_lt L C x hx
  omega

/-- C4, at the input `CreateCylindricalGeometry("CylinderMesh", 1, 1, 1, 2, 3)`: the
call registers a Mesh of size 54 = (2*3*2 + 3*2)*3 over 8 = 2*3 + 2 vertices
and uploads 54 index elements, but the last three of them, 51, 52 and 53, are
never assigned, so they are not vertex indices below 8. -/
theorem CreateCylindricalGeometry_index_tail_unassigned :
    (CreateCylindricalGeometry (Trig.mk Real.cos Real.sin Real.pi) ResourceManager.new
      "CylinderMesh" 1 1 1 2 3 1 2).vertex_num = 8 ∧
    (CreateCylindricalGeometry (Trig.mk Real.cos Real.sin Real.pi) ResourceManager.new
      "CylinderMesh" 1 1 1 2 3 1 2).face_upload = 54 ∧
    (CreateCylindricalGeometry (Trig.mk Real.cos Real.sin Real.pi) ResourceManager.new
      "CylinderMesh" 1 1 1 2 3 1 2).rm.resource_ =
        [⟨ResourceType.Mesh, "CylinderMesh", Handles.pair 1 2, 54⟩] ∧
    (CreateCylindricalGeometry (Trig.mk Real.cos Real.sin Real.pi) ResourceManager.new
      "CylinderMesh" 1 1 1 2 3 1 2).face 51 = none ∧
    (CreateCylindricalGeometry (Trig.mk Real.cos Real.sin Real.pi) ResourceManager.new
      "CylinderMesh" 1 1 1 2 3 1 2).face 52 = none ∧
    (CreateCylindricalGeometry (Trig.mk Real.cos Real.sin Real.pi) ResourceManager.new
      "CylinderMesh" 1 1 1 2 3 1 2).face 53 = none ∧
    ¬ (∀ s, s < 54 → ∃ v,
      (CreateCylindricalGeometry (Trig.mk Real.cos Real.sin Real.pi) ResourceManager.new
        "CylinderMesh" 1 1 1 2 3 1 2).face s = some v ∧ v < 8) := by
  refine ⟨rfl, rfl, rfl, by decide, by decide, by decide, ?_⟩
  intro h
  obtain ⟨v, hv, _⟩ := h 53 (by decide)
  have h53 : (CreateCylindricalGeometry (Trig.mk Real.cos Real.sin Real.pi) ResourceManager.new
      "CylinderMesh" 1 1 1 2 3 1 2).face 53 = none := by decide
  rw [h53] at hv
  cases hv

set_option maxRecDepth 100000 in
/-- The position column of the cube table, vertex by vertex. -/
theorem CreateCube_position_at (v : Nat) (hv : v < 24) :
    CreateCube.position v =
      [(⟨-0.5, -0.5, 0.5⟩ : vec3 ℚ), ⟨0.5, -0.5, 0.5⟩, ⟨0.5, 0.5, 0.5⟩, ⟨-0.5, 0.5, 0.5⟩,
       ⟨0.5, -0.5, -0.5⟩, ⟨0.5, 0.5, -0.5⟩, ⟨0.5, 0.5, 0.5⟩, ⟨0.5, -0.5, 0.5⟩,
       ⟨0.5, -0.5, -0.5⟩, ⟨-0.5, -0.5, -0.5⟩, ⟨-0.5, 0.5, -0.5⟩, ⟨0.5, 0.5, -0.5⟩,
       ⟨-0.5, 0.5, -0.5⟩, ⟨-0.5, -0.5, -0.5⟩, ⟨-0.5, -0.5, 0.5⟩, ⟨-0.5, 0.5, 0.5⟩,
       ⟨-0.5, 0.5, -0.5⟩, ⟨-0.5, 0.5, 0.5⟩, ⟨0.5, 0.5, 0.5⟩, ⟨0.5, 0.5, -0.5⟩,
       ⟨0.5, -0.5, -0.5⟩, ⟨-0.5, -0.5, -0.5⟩, ⟨-0.5, -0.5, 0.5⟩, ⟨0.5, -0.5, 0.5⟩].getD v
        ⟨0, 0, 0⟩ := by
  interval_cases v <;> rfl

set_option maxRecDepth 100000 in
/-- The normal column of the cube table: one normal per block of four vertices. -/
theorem CreateCube_normal_at (v : Nat) (hv : v < 24) :
    CreateCube.normal v =
      [(⟨0.0, 0.0, 1.0⟩ : vec3 ℚ), ⟨1.0, 0.0, 0.0⟩, ⟨0.0, 0.0, -1.0⟩, ⟨-1.0, 0.0, 0.0⟩,
       ⟨0.0, 1.0, 0.0⟩, ⟨0.0, -1.0, 0.0⟩].getD (v / 4) ⟨0, 0, 0⟩ := by
  interval_cases v <;> rfl

/-- The orientation test of every triangle of the cube table: 1 for the
triangles of the first five faces, -1 for the two triangles of the sixth. -/
theorem CreateCube_winding_values (t : Nat) (ht : t < 12) :
    CreateCube.winding t = if t < 10 then 1 else -1 := by
  interval_cases t <;>
  · simp only [CreateCube.winding]
    simp only [CreateCube.corner, CreateCube.face, face_att, Nat.reduceMul, Nat.reduceAdd,
      List.getD_cons_succ, List.getD_cons_zero]
    rw [CreateCube_position_at _ (by decide), CreateCube_position_at _ (by decide),
      CreateCube_position_at _ (by decide), CreateCube_normal_at _ (by decide)]
    simp only [Nat.reduceDiv, List.getD_cons_succ, List.getD_cons_zero, vec3.sub, vec3.cross,
      vec3.dot]
    norm_num

theorem CreateCube_corner_range :
    ∀ f, f < 6 → ∀ k, k < 3 →
      (4 * f ≤ CreateCube.corner (2 * f) k ∧ CreateCube.corner (2 * f) k < 4 * f + 4) ∧
      (4 * f ≤ CreateCube.corner (2 * f + 1) k ∧ CreateCube.corner (2 * f + 1) k < 4 * f + 4) := by
  decide

theorem CreateCube_position_coords (v k : Nat) (hv : v < 24) (hk : k < 3) :
    ((CreateCube.position v).get k = 1 / 2 ∨ (CreateCube.position v).get k = -1 / 2) ∧
    (CreateCube.position v).dot (CreateCube.normal v) = 1 / 2 := by
  rw [CreateCube_position_at v hv, CreateCube_normal_at v hv]
  interval_cases v <;> interval_cases k <;>
  · simp only [Nat.reduceDiv, List.getD_cons_succ, List.getD_cons_zero, vec3.get, vec3.dot]
    norm_num

/-- C5, evaluated on the literal tables of `CreateCube`: the orientation test
`dot(cross(p_b - p_a, p_c - p_a), n_a)` is 1 for the ten triangles of the first
five faces, but -1 for both triangles of the sixth face, (20, 21, 22) and
(20, 22, 23), which are therefore clockwise seen from their normal (0, -1, 0). -/
theorem CreateCube_sixth_face_winding :
    (CreateCube.corner 10 0, CreateCube.corner 10 1, CreateCube.corner 10 2) = (20, 21, 22) ∧
    (CreateCube.corner 11 0, CreateCube.corner 11 1, CreateCube.corner 11 2) = (20, 22, 23) ∧
    CreateCube.normal 20 = ⟨0, -1, 0⟩ ∧
    CreateCube.winding 10 = -1 ∧
    CreateCube.winding 11 = -1 ∧
    (∀ t, t < 10 → CreateCube.winding t = 1) ∧
    ¬ (∀ t, t < 12 → 0 < CreateCube.winding t) := by
  refine ⟨rfl, rfl, ?_, ?_, ?_, ?_, ?_⟩
  · rw [CreateCube_normal_at 20 (by decide)]
    simp only [Nat.reduceDiv, List.getD_cons_succ, List.getD_cons_zero, vec3.mk.injEq]
    norm_num
  · rw [CreateCube_winding_values 10 (by decide)]
    simp
  · rw [CreateCube_winding_values 11 (by decide)]
    simp
  · intro t ht
    rw [CreateCube_winding_values t (by omega), if_pos ht]
  · intro h
    have h10 := h 10 (by decide)
    rw [CreateCube_winding_values 10 (by decide)] at h10
    norm_num at h10

/-- C6: in the cube table the four vertices `4f .. 4f+3` of face `f` carry one
common normal; the six face normals are +z, +x, -z, -x, +y, -y, each of unit
length; every position coordinate is +0.5 or -0.5; every vertex lies on the
plane `dot(position, n_f) = 0.5` of its own face; and both triangles of face
`f` index only vertices `4f .. 4f+3`. -/
theorem CreateCube_face_table (f q k : Nat) (hf : f < 6) (hq : q < 4) (hk : k < 3) :
    CreateCube.normal (4 * f + q) = CreateCube.normal (4 * f) ∧
    [CreateCube.normal 0, CreateCube.normal 4, CreateCube.normal 8, CreateCube.normal 12,
      CreateCube.normal 16, CreateCube.normal 20] =
      [⟨0, 0, 1⟩, ⟨1, 0, 0⟩, ⟨0, 0, -1⟩, ⟨-1, 0, 0⟩, ⟨0, 1, 0⟩, ⟨0, -1, 0⟩] ∧
    (CreateCube.normal (4 * f)).dot (CreateCube.normal (4 * f)) = 1 ∧
    ((CreateCube.position (4 * f + q)).get k = 1 / 2 ∨
      (CreateCube.position (4 * f + q)).get k = -1 / 2) ∧
    (CreateCube.position (4 * f + q)).dot (CreateCube.normal (4 * f)) = 1 / 2 ∧
    (4 * f ≤ CreateCube.corner (2 * f) k ∧ CreateCube.corner (2 * f) k < 4 * f + 4) ∧
    (4 * f ≤ CreateCube.corner (2 * f + 1) k ∧ CreateCube.corner (2 * f + 1) k < 4 * f + 4) := by
  have hsame : CreateCube.normal (4 * f + q) = CreateCube.normal (4 * f) := by
    rw [CreateCube_normal_at _ (by omega), CreateCube_normal_at _ (by omega)]
    have e : (4 * f + q) / 4 = 4 * f / 4 := by omega
    rw [e]
  have hpos := CreateCube_position_coords (4 * f + q) k (by omega) hk
  rw [hsame] at hpos
  refine ⟨hsame, ?_, ?_, hpos.1, hpos.2, (CreateCube_corner_range f hf k hk).1,
    (CreateCube_corner_range f hf k hk).2⟩
  · rw [CreateCube_normal_at 0 (by decide), CreateCube_normal_at 4 (by decide),
      CreateCube_normal_at 8 (by decide), CreateCube_normal_at 12 (by decide),
      CreateCube_normal_at 16 (by decide), CreateCube_normal_at 20 (by decide)]
    simp only [Nat.reduceDiv, List.getD_cons_succ, List.getD_cons_zero, List.cons.injEq,
      vec3.mk.injEq]
    norm_num
  · rw [CreateCube_normal_at _ (by omega)]
    interval_cases f <;>
    · simp only [Nat.reduceMul, Nat.reduceDiv, List.getD_cons_succ, List.getD_cons_zero, vec3.dot]
      norm_num

/-- C6 at the last vertex of the last face (f = 5, q = 3, k = 2). -/
theorem CreateCube_face_table_witness :
    (5 < 6 ∧ 3 < 4 ∧ 2 < 3) ∧
    CreateCube.normal 23 = CreateCube.normal 20 ∧
    (CreateCube.position 23).dot (CreateCube.normal 20) = 1 / 2 ∧
    (20 ≤ CreateCube.corner 11 2 ∧ CreateCube.corner 11 2 < 24) := by
  have h := CreateCube_face_table 5 3 2 (by decide) (by decide) (by decide)
  exact ⟨⟨by decide, by decide, by decide⟩, h.1, h.2.2.2.2.1, h.2.2.2.2.2.2⟩

/-- The scan returns `r` exactly when `r` sits at some position `i`, carries the
name, and no earlier position carries it. -/
theorem GetResource_scan_eq_some_iff (rs : List Resource) (name : String) (r : Resource) :
    GetResource.scan rs name = some r ↔
      ∃ i, rs.get? i = some r ∧ r.GetName = name ∧
        ∀ k, k < i → ∀ r2, rs.get? k = some r2 → r2.GetName ≠ name := by
  induction rs with
  | nil => simp [GetResource.scan]
  | cons a rs ih =>
    by_cases ha : a.GetName = name
    · simp only [GetResource.scan, ha, if_true, Option.some.injEq]
      constructor
      · intro e
        subst e
        exact ⟨0, rfl, ha, fun k hk => absurd hk (Nat.not_lt_zero k)⟩
      · rintro ⟨i, hi, _, hfirst⟩
        cases i with
        | zero => simpa using hi
        | succ i => exact absurd ha (hfirst 0 (Nat.succ_pos i) a rfl)
    · simp only [GetResource.scan, ha, if_false]
      rw [ih]
      constructor
      · rintro ⟨i, hi, hn, hfirst⟩
        refine ⟨i + 1, hi, hn, ?_⟩
        intro k hk r2 hr2
        cases k with
        | zero =>
          simp only [List.get?_cons_zero, Option.some.injEq] at hr2
          rw [← hr2]
          exact ha
        | succ k => exact hfirst k (by omega) r2 hr2
      · rintro ⟨i, hi, hn, hfirst⟩
        cases i with
        | zero =>
          simp only [List.get?_cons_zero, Option.some.injEq] at hi
          rw [hi] at ha
          exact absurd hn ha
        | succ i =>
          exact ⟨i, hi, hn, fun k hk r2 hr2 => hfirst (k + 1) (by omega) r2 hr2⟩

/-- C9: `GetResource(name)` returns the first resource, in insertion order,
whose name equals `name` exactly (a name differing only in letter case does
not match), returns NULL if and only if no resource of the cache has that
name, and, being a function of the unchanged cache, gives the same result on a
repeated lookup. -/
theorem GetResource_first_match (rm : ResourceManager) (name : String) :
    (∀ r, GetResource rm name = some r ↔
      ∃ i, rm.resource_.get? i = some r ∧ r.GetName = name ∧
        ∀ k, k < i → ∀ r2, rm.resource_.get? k = some r2 → r2.GetName ≠ name) ∧
    (GetResource rm name = none ↔ ∀ r ∈ rm.resource_, r.GetName ≠ name) ∧
    (∀ r1 r2, GetResource rm name = r1 → GetResource rm name = r2 → r1 = r2) ∧
    GetResource ⟨[⟨ResourceType.Material, "cubemesh", Handles.single 7, 0⟩,
                  ⟨ResourceType.Mesh, "CubeMesh", Handles.pair 1 2, 36⟩,
                  ⟨ResourceType.Mesh, "CubeMesh", Handles.pair 3 4, 6⟩]⟩ "CubeMesh" =
      some ⟨ResourceType.Mesh, "CubeMesh", Handles.pair 1 2, 36⟩ ∧
    GetResource ⟨[⟨ResourceType.Mesh, "CubeMesh", Handles.pair 1 2, 36⟩]⟩ "cubeMesh" = none := by
  refine ⟨fun r => GetResource_scan_eq_some_iff rm.resource_ name r,
    GetResource_scan_eq_none_iff rm.resource_ name, ?_, by decide, by decide⟩
  intro r1 r2 h1 h2
  rw [← h1, ← h2]

/-- C10: on a cache that holds no resource named `n`, a lookup of `n` after
`AddResource(type, n, handle(s), size)` returns a resource with exactly that
type, name, handle(s) and size, for the one-handle and the two-handle overload. -/
theorem AddResource_then_GetResource (rm : ResourceManager) (type : ResourceType) (n : String)
    (resource array_buffer element_array_buffer size : Nat)
    (h : ∀ r ∈ rm.resource_, r.GetName ≠ n) :
    GetResource (AddResource rm type n resource size) n =
      some ⟨type, n, Handles.single resource, size⟩ ∧
    GetResource (AddResource2 rm type n array_buffer element_array_buffer size) n =
      some ⟨type, n, Handles.pair array_buffer element_array_buffer, size⟩ := by
  have hnone : GetResource rm n = none := (GetResource_scan_eq_none_iff rm.resource_ n).2 h
  constructor
  · have hp := GetResource_push rm ⟨type, n, Handles.single resource, size⟩ n
    rw [hnone] at hp
    simpa [AddResource, Resource.GetName] using hp
  · have hp := GetResource_push rm
      ⟨type, n, Handles.pair array_buffer element_array_buffer, size⟩ n
    rw [hnone] at hp
    simpa [AddResource2, Resource.GetName] using hp

/-- C10 on a cache that already holds "CubeMesh": adding and looking up
"ObjectMaterial" with either overload. -/
theorem AddResource_then_GetResource_witness :
    (∀ r ∈ (⟨[⟨ResourceType.Mesh, "CubeMesh", Handles.pair 1 2, 36⟩]⟩ : ResourceManager).resource_,
      r.GetName ≠ "ObjectMaterial") ∧
    GetResource (AddResource ⟨[⟨ResourceType.Mesh, "CubeMesh", Handles.pair 1 2, 36⟩]⟩
        ResourceType.Material "ObjectMaterial" 5 0) "ObjectMaterial" =
      some ⟨ResourceType.Material, "ObjectMaterial", Handles.single 5, 0⟩ ∧
    GetResource (AddResource2 ⟨[⟨ResourceType.Mesh, "CubeMesh", Handles.pair 1 2, 36⟩]⟩
        ResourceType.Material "ObjectMaterial" 3 4 0) "ObjectMaterial" =
      some ⟨ResourceType.Material, "ObjectMaterial", Handles.pair 3 4, 0⟩ := by
  have hfresh : ∀ r ∈ (⟨[⟨ResourceType.Mesh, "CubeMesh", Handles.pair 1 2, 36⟩]⟩ :
      ResourceManager).resource_, r.GetName ≠ "ObjectMaterial" := by decide
  exact ⟨hfresh,
    AddResource_then_GetResource _ ResourceType.Material "ObjectMaterial" 5 3 4 0 hfresh⟩

/-! ## Claims on the frame of the generators and on the loader -/

/-- A text mentions whatever a front part of it mentions. -/
theorem Mentions_append_left (a b part : String) (h : Mentions a part) :
    Mentions (a ++ b) part := by
  unfold Mentions at h ⊢
  rw [String.data_append]
  exact h.trans (List.prefix_append _ _).isInfix

/-- A text mentions its own tail part. -/
theorem Mentions_append_right (a b : String) : Mentions (a ++ b) b := by
  unfold Mentions
  rw [String.data_append]
  exact (List.suffix_append _ _).isInfix

/-- C12: with the file reads, both compilations and the link as given outcomes,
`LoadMaterial(name, prefix)` appends exactly one resource (Material, the name,
the linked program handle, size 0) when both files are read, both stages
compile and the link succeeds; in every other case it throws and the cache is
exactly what it was before the call. -/
theorem LoadMaterial_all_or_nothing (env : Env) (rm : ResourceManager) (name pre : String) :
    (∀ vp fp,
      LoadTextFile env (pre ++ env.VERTEX_PROGRAM_EXTENSION) = Except.ok vp →
      LoadTextFile env (pre ++ env.FRAGMENT_PROGRAM_EXTENSION) = Except.ok fp →
      env.compile_status ShaderStage.GL_VERTEX_SHADER vp = true →
      env.compile_status ShaderStage.GL_FRAGMENT_SHADER fp = true →
      env.link_status vp fp = true →
        (LoadMaterial env rm name pre).outcome = Except.ok () ∧
        (LoadMaterial env rm name pre).rm.resource_ =
          rm.resource_ ++
            [⟨ResourceType.Material, name, Handles.single (env.program vp fp), 0⟩]) ∧
    ((¬ ∃ vp fp,
        LoadTextFile env (pre ++ env.VERTEX_PROGRAM_EXTENSION) = Except.ok vp ∧
        LoadTextFile env (pre ++ env.FRAGMENT_PROGRAM_EXTENSION) = Except.ok fp ∧
        env.compile_status ShaderStage.GL_VERTEX_SHADER vp = true ∧
        env.compile_status ShaderStage.GL_FRAGMENT_SHADER fp = true ∧
        env.link_status vp fp = true) →
      (∃ e, (LoadMaterial env rm name pre).outcome = Except.error e) ∧
      (LoadMaterial env rm name pre).rm = rm) := by
  constructor
  · intro vp fp hv hf hcv hcf hl
    simp [LoadMaterial, hv, hf, hcv, hcf, hl, AddResource]
  · intro hno
    cases hv : LoadTextFile env (pre ++ env.VERTEX_PROGRAM_EXTENSION) with
    | error e => simp [LoadMaterial, hv]
    | ok vp =>
      cases hf : LoadTextFile env (pre ++ env.FRAGMENT_PROGRAM_EXTENSION) with
      | error e => simp [LoadMaterial, hv, hf]
      | ok fp =>
        by_cases hcv : env.compile_status ShaderStage.GL_VERTEX_SHADER vp = true
        · by_cases hcf : env.compile_status ShaderStage.GL_FRAGMENT_SHADER fp = true
          · by_cases hl : env.link_status vp fp = true
            · exact absurd ⟨vp, fp, hv, hf, hcv, hcf, hl⟩ hno
            · simp [LoadMaterial, hv, hf, hcv, hcf, hl]
          · simp [LoadMaterial, hv, hf, hcv, hcf]
        · simp [LoadMaterial, hv, hf, hcv]

/-- C13: when the vertex source file, `prefix + VERTEX_PROGRAM_EXTENSION`, cannot
be opened, `LoadResource(Material, name, prefix)` throws a failure whose message
contains that full path, without attempting the fragment file, and leaves the
cache, hence the result of `GetResource(name)`, as it was. -/
theorem LoadResource_missing_vertex_file (env : Env) (rm : ResourceManager) (name pre : String)
    (h : env.file (pre ++ env.VERTEX_PROGRAM_EXTENSION) = none) :
    (LoadResource env rm ResourceType.Material name pre).outcome =
      Except.error (Failure.ios_failure
        ("Error opening file " ++ (pre ++ env.VERTEX_PROGRAM_EXTENSION))) ∧
    Mentions ("Error opening file " ++ (pre ++ env.VERTEX_PROGRAM_EXTENSION))
      (pre ++ env.VERTEX_PROGRAM_EXTENSION) ∧
    (LoadResource env rm ResourceType.Material name pre).opened =
      [pre ++ env.VERTEX_PROGRAM_EXTENSION] ∧
    (LoadResource env rm ResourceType.Material name pre).rm = rm ∧
    GetResource (LoadResource env rm ResourceType.Material name pre).rm name =
      GetResource rm name ∧
    (GetResource rm name = none →
      GetResource (LoadResource env rm ResourceType.Material name pre).rm name = none) := by
  have hres : LoadResource env rm ResourceType.Material name pre =
      ⟨Except.error (Failure.ios_failure
        ("Error opening file " ++ (pre ++ env.VERTEX_PROGRAM_EXTENSION))), rm,
        [pre ++ env.VERTEX_PROGRAM_EXTENSION], []⟩ := by
    simp [LoadResource, LoadMaterial, LoadTextFile, h]
  rw [hres]
  exact ⟨rfl, Mentions_append_right _ _, rfl, rfl, rfl, fun h0 => h0⟩

/-- C13 in the scenario of the spec: no file exists at all, extension ".vert",
`LoadResource(Material, "Red", "shaders/red")` on a fresh manager. -/
theorem LoadResource_missing_vertex_file_witness :
    (LoadResource ⟨".vert", ".frag", fun _ => none, fun _ _ => true, fun _ _ => "",
        fun _ _ => true, fun _ _ => 1, "", fun _ => none, fun _ => ""⟩
      ResourceManager.new ResourceType.Material "Red" "shaders/red").outcome =
      Except.error (Failure.ios_failure "Error opening file shaders/red.vert") ∧
    Mentions "Error opening file shaders/red.vert" "shaders/red.vert" ∧
    GetResource (LoadResource ⟨".vert", ".frag", fun _ => none, fun _ _ => true, fun _ _ => "",
        fun _ _ => true, fun _ _ => 1, "", fun _ => none, fun _ => ""⟩
      ResourceManager.new ResourceType.Material "Red" "shaders/red").rm "Red" = none := by
  have h := LoadResource_missing_vertex_file
    ⟨".vert", ".frag", fun _ => none, fun _ _ => true, fun _ _ => "",
      fun _ _ => true, fun _ _ => 1, "", fun _ => none, fun _ => ""⟩
    ResourceManager.new "Red" "shaders/red" rfl
  exact ⟨h.1, h.2.1, h.2.2.2.2.2 rfl⟩

/-- C15: `LoadResource(type, name, filename)` runs `LoadMaterial` for Material and
`LoadTexture` for Texture; for any other type (Mesh) it throws
`std::invalid_argument` without opening a file or compiling a shader and
leaves the cache unchanged. -/
theorem LoadResource_dispatch (env : Env) (rm : ResourceManager) (name filename : String) :
    LoadResource env rm ResourceType.Material name filename =
      LoadMaterial env rm name filename ∧
    LoadResource env rm ResourceType.Texture name filename =
      LoadTexture env rm name filename ∧
    (∀ type, type ≠ ResourceType.Material → type ≠ ResourceType.Texture →
      (LoadResource env rm type name filename).outcome =
        Except.error (Failure.invalid_argument "Invalid type of resource") ∧
      (LoadResource env rm type name filename).opened = [] ∧
      (LoadResource env rm type name filename).compiled = [] ∧
      (LoadResource env rm type name filename).rm = rm) ∧
    (LoadResource env rm ResourceType.Mesh name filename).outcome =
      Except.error (Failure.invalid_argument "Invalid type of resource") ∧
    (LoadResource env rm ResourceType.Mesh name filename).opened = [] ∧
    (LoadResource env rm ResourceType.Mesh name filename).rm = rm := by
  refine ⟨by simp [LoadResource], by simp [LoadResource], ?_, rfl, rfl, rfl⟩
  intro type h1 h2
  simp [LoadResource, h1, h2]

/-- C12 on a fresh manager with both files present and both stages compiling:
one Material "ObjectMaterial" with the program handle 7 when the link
succeeds, an error and an empty cache when it fails. -/
theorem LoadMaterial_all_or_nothing_witness :
    (LoadMaterial ⟨"_vp.glsl", "_fp.glsl", fun _ => some ["void main();"], fun _ _ => true,
        fun _ _ => "", fun _ _ => true, fun _ _ => 7, "", fun _ => none, fun _ => ""⟩
      ResourceManager.new "ObjectMaterial" "material/shiny_blue").rm.resource_ =
      [⟨ResourceType.Material, "ObjectMaterial", Handles.single 7, 0⟩] ∧
    (LoadMaterial ⟨"_vp.glsl", "_fp.glsl", fun _ => some ["void main();"], fun _ _ => true,
        fun _ _ => "", fun _ _ => false, fun _ _ => 7, "", fun _ => none, fun _ => ""⟩
      ResourceManager.new "ObjectMaterial" "material/shiny_blue").rm = ResourceManager.new := by
  constructor
  · exact ((LoadMaterial_all_or_nothing
      ⟨"_vp.glsl", "_fp.glsl", fun _ => some ["void main();"], fun _ _ => true,
        fun _ _ => "", fun _ _ => true, fun _ _ => 7, "", fun _ => none, fun _ => ""⟩
      ResourceManager.new "ObjectMaterial" "material/shiny_blue").1 _ _ rfl rfl rfl rfl rfl).2
  · refine ((LoadMaterial_all_or_nothing
      ⟨"_vp.glsl", "_fp.glsl", fun _ => some ["void main();"], fun _ _ => true,
        fun _ _ => "", fun _ _ => false, fun _ _ => 7, "", fun _ => none, fun _ => ""⟩
      ResourceManager.new "ObjectMaterial" "material/shiny_blue").2 ?_).2
    rintro ⟨vp, fp, _, _, _, _, hl⟩
    cases hl

/-- The message of a vertex compile failure mentions the word "vertex". -/
theorem vertex_message_mentions_vertex (buffer : String) :
    Mentions ("Error compiling vertex shader: " ++ buffer) "vertex" :=
  Mentions_append_left _ _ _ (by decide)

set_option maxRecDepth 100000 in
/-- C14 as stated fails: with both files read and a vertex info log `d` of 600
characters, the message of the failure carries only the first 511 of them (the
buffer passed to `glGetShaderInfoLog` has 512 places) and does not contain `d`. -/
theorem LoadMaterial_long_log_not_contained :
    (LoadMaterial ⟨"_vp.glsl", "_fp.glsl", fun _ => some ["void main()"], fun _ _ => false,
        fun _ _ => ⟨List.replicate 600 'e'⟩, fun _ _ => true, fun _ _ => 7, "",
        fun _ => none, fun _ => ""⟩
      ResourceManager.new "Red" "material/red").outcome =
      Except.error (Failure.ios_failure
        ("Error compiling vertex shader: " ++ ⟨List.replicate 511 'e'⟩)) ∧
    ¬ Mentions ("Error compiling vertex shader: " ++ ⟨List.replicate 511 'e'⟩)
        ⟨List.replicate 600 'e'⟩ := by
  constructor
  · have htake : List.take 511 (List.replicate 600 'e') = List.replicate 511 'e' := by
      rw [List.take_replicate]
      rfl
    simp only [LoadMaterial, LoadTextFile, glGetShaderInfoLog, Nat.add_one_sub_one, htake]
    rfl
  · intro h
    have hlen := h.length_le
    have h31 : ("Error compiling vertex shader: " : String).data.length = 31 := by decide
    rw [String.data_append, List.length_append, h31, List.length_replicate,
      List.length_replicate] at hlen
    omega

/-- C14, amended: when both shader files are read but the vertex stage fails to
compile with info log `d`, `LoadMaterial` throws a failure whose message
contains the word "vertex" and the first 511 characters of `d` (all of `d` when
it has at most 511 characters), compiles no fragment stage and leaves the cache
unchanged, so no Material is registered. -/
theorem LoadMaterial_vertex_compile_error (env : Env) (rm : ResourceManager) (name pre : String)
    (vp fp : String)
    (hv : LoadTextFile env (pre ++ env.VERTEX_PROGRAM_EXTENSION) = Except.ok vp)
    (hf : LoadTextFile env (pre ++ env.FRAGMENT_PROGRAM_EXTENSION) = Except.ok fp)
    (hc : env.compile_status ShaderStage.GL_VERTEX_SHADER vp = false) :
    (LoadMaterial env rm name pre).outcome =
      Except.error (Failure.ios_failure ("Error compiling vertex shader: " ++
        ⟨(env.info_log ShaderStage.GL_VERTEX_SHADER vp).data.take 511⟩)) ∧
    Mentions ("Error compiling vertex shader: " ++
        ⟨(env.info_log ShaderStage.GL_VERTEX_SHADER vp).data.take 511⟩) "vertex" ∧
    Mentions ("Error compiling vertex shader: " ++
        ⟨(env.info_log ShaderStage.GL_VERTEX_SHADER vp).data.take 511⟩)
      ⟨(env.info_log ShaderStage.GL_VERTEX_SHADER vp).data.take 511⟩ ∧
    ((env.info_log ShaderStage.GL_VERTEX_SHADER vp).length ≤ 511 →
      Mentions ("Error compiling vertex shader: " ++
          ⟨(env.info_log ShaderStage.GL_VERTEX_SHADER vp).data.take 511⟩)
        (env.info_log ShaderStage.GL_VERTEX_SHADER vp)) ∧
    (LoadMaterial env rm name pre).compiled = [ShaderStage.GL_VERTEX_SHADER] ∧
    (LoadMaterial env rm name pre).rm = rm := by
  refine ⟨?_, vertex_message_mentions_vertex _, Mentions_append_right _ _, ?_, ?_, ?_⟩
  · simp [LoadMaterial, hv, hf, hc, glGetShaderInfoLog]
  · intro hlen
    have e : (⟨(env.info_log ShaderStage.GL_VERTEX_SHADER vp).data.take 511⟩ : String) =
        env.info_log ShaderStage.GL_VERTEX_SHADER vp := by
      have hl : (env.info_log ShaderStage.GL_VERTEX_SHADER vp).data.length ≤ 511 := hlen
      rw [List.take_of_length_le hl]
    rw [e]
    exact Mentions_append_right _ _
  · simp [LoadMaterial, hv, hf, hc]
  · simp [LoadMaterial, hv, hf, hc]

/-- C14, amended, on a malformed vertex source whose info log is
"0(1) : error C0000: syntax error". -/
theorem LoadMaterial_vertex_compile_error_witness :
    (LoadMaterial ⟨"_vp.glsl", "_fp.glsl", fun _ => some ["void main()"],
        fun _ _ => false, fun _ _ => "0(1) : error C0000: syntax error", fun _ _ => true,
        fun _ _ => 7, "", fun _ => none, fun _ => ""⟩
      ResourceManager.new "Red" "material/red").outcome =
      Except.error (Failure.ios_failure
        "Error compiling vertex shader: 0(1) : error C0000: syntax error") ∧
    (LoadMaterial ⟨"_vp.glsl", "_fp.glsl", fun _ => some ["void main()"],
        fun _ _ => false, fun _ _ => "0(1) : error C0000: syntax error", fun _ _ => true,
        fun _ _ => 7, "", fun _ => none, fun _ => ""⟩
      ResourceManager.new "Red" "material/red").compiled = [ShaderStage.GL_VERTEX_SHADER] ∧
    (LoadMaterial ⟨"_vp.glsl", "_fp.glsl", fun _ => some ["void main()"],
        fun _ _ => false, fun _ _ => "0(1) : error C0000: syntax error", fun _ _ => true,
        fun _ _ => 7, "", fun _ => none, fun _ => ""⟩
      ResourceManager.new "Red" "material/red").rm = ResourceManager.new := by
  have h := LoadMaterial_vertex_compile_error
    ⟨"_vp.glsl", "_fp.glsl", fun _ => some ["void main()"],
      fun _ _ => false, fun _ _ => "0(1) : error C0000: syntax error", fun _ _ => true,
      fun _ _ => 7, "", fun _ => none, fun _ => ""⟩
    ResourceManager.new "Red" "material/red" _ _ rfl rfl rfl
  exact ⟨h.1, h.2.2.2.2.1, h.2.2.2.2.2⟩

/-! ## Claims on the vertices of the sphere and the cylinder -/

theorem Buffer_stores_append {α : Type} (b : Buffer α) (ws1 ws2 : List (Nat × α)) :
    b.stores (ws1 ++ ws2) = (b.stores ws1).stores ws2 := by
  simp [Buffer.stores, List.foldl_append]

theorem CreateCylindricalGeometry_mem_sideVertexStores {α : Type} [Field α] (m : Trig α)
    (top_radius bottom_radius height : α) (L C : Nat) (x : Nat × α) :
    x ∈ CreateCylindricalGeometry.sideVertexStores m top_radius bottom_radius height L C ↔
      ∃ i, i < L ∧ ∃ j, j < C ∧ ∃ c, c < 11 ∧
        x = ((i * C + j) * 11 + c,
             vertexAttr
               (CreateCylindricalGeometry.vertex_position m top_radius bottom_radius height L C i j)
               (CreateCylindricalGeometry.vertex_normal m top_radius bottom_radius L C i j)
               (CreateCylindricalGeometry.vertex_color L C i j)
               (CreateCylindricalGeometry.vertex_coord m C i j) c) := by
  simp only [CreateCylindricalGeometry.sideVertexStores, mem_forLoop, Nat.add_zero,
    mem_vertex_cell, vertex_att]

/-- The buffer after the side-wall vertex loop of `CreateCylindricalGeometry`
alone. -/
theorem CreateCylindricalGeometry_side_only_spec {α : Type} [Field α] (m : Trig α)
    (top_radius bottom_radius height : α) (L C : Nat) :
    (∀ i j c, i < L → j < C → c < 11 →
      (Buffer.new : Buffer α).stores
          (CreateCylindricalGeometry.sideVertexStores m top_radius bottom_radius height L C)
          ((i * C + j) * 11 + c) =
        some (vertexAttr
          (CreateCylindricalGeometry.vertex_position m top_radius bottom_radius height L C i j)
          (CreateCylindricalGeometry.vertex_normal m top_radius bottom_radius L C i j)
          (CreateCylindricalGeometry.vertex_color L C i j)
          (CreateCylindricalGeometry.vertex_coord m C i j) c)) ∧
    (∀ s, L * C * 11 ≤ s →
      (Buffer.new : Buffer α).stores
        (CreateCylindricalGeometry.sideVertexStores m top_radius bottom_radius height L C) s
        = none) :=
  grid_stores_spec _ L C 11 _
    (CreateCylindricalGeometry_mem_sideVertexStores m top_radius bottom_radius height L C)

/-- The offset expression of the end-cap stores, plus one vertex, is the end of
the side-wall vertices. -/
theorem CreateCylindricalGeometry_capBase_eq (L C : Nat) :
    CreateCylindricalGeometry.capBase L C + 11 = ((L * C * 11 : Nat) : Int) := by
  unfold CreateCylindricalGeometry.capBase vertex_att
  push_cast
  ring

/-- Every store of the two cap-centre vertices addresses offset 10 or an
element behind the side-wall vertices. -/
theorem CreateCylindricalGeometry_cap_slots {α : Type} [Field α] (height : α) (L C : Nat)
    (x : Nat × α)
    (hx : x ∈ CreateCylindricalGeometry.bottomCenterStores height L C ++
      CreateCylindricalGeometry.topCenterStores height L C) :
    x.1 = 10 ∨ L * C * 11 ≤ x.1 := by
  have hb := CreateCylindricalGeometry_capBase_eq L C
  simp only [CreateCylindricalGeometry.bottomCenterStores,
    CreateCylindricalGeometry.topCenterStores, List.mem_append, mem_forLoop, List.mem_cons,
    List.mem_singleton, List.mem_nil_iff, or_false, vertex_att] at hx
  rcases hx with ((⟨k, hk, h | h | h⟩ | h | h) | (⟨k, hk, h | h | h⟩ | h | h)) <;>
  · rw [h]
    simp only
    push_cast at hb ⊢
    omega

/-- The vertex buffer of `CreateCylindricalGeometry` on the side wall: apart from
offset 10, the element at offset `c` of vertex `i * C + j` is the attribute
computed for the grid point (i, j). -/
theorem CreateCylindricalGeometry_side_vertex_spec {α : Type} [Field α] (m : Trig α)
    (rm : ResourceManager) (name : String) (top_radius bottom_radius height : α)
    (L C vbo ebo i j c : Nat) (hL : 2 ≤ L) (hi : i < L) (hj : j < C) (hc : c < 11)
    (hne : (i * C + j) * 11 + c ≠ 10) :
    (CreateCylindricalGeometry m rm name top_radius bottom_radius height L C vbo ebo).vertex
        ((i * C + j) * 11 + c) =
      some (vertexAttr
        (CreateCylindricalGeometry.vertex_position m top_radius bottom_radius height L C i j)
        (CreateCylindricalGeometry.vertex_normal m top_radius bottom_radius L C i j)
        (CreateCylindricalGeometry.vertex_color L C i j)
        (CreateCylindricalGeometry.vertex_coord m C i j) c) := by
  have hclamp : (if L < 2 then 2 else L) = L := by
    rw [if_neg (by omega)]
  show (Buffer.new : Buffer α).stores
    (CreateCylindricalGeometry.sideVertexStores m top_radius bottom_radius height
        (if L < 2 then 2 else L) C ++
      CreateCylindricalGeometry.bottomCenterStores height (if L < 2 then 2 else L) C ++
      CreateCylindricalGeometry.topCenterStores height (if L < 2 then 2 else L) C) _ = _
  rw [hclamp, List.append_assoc, Buffer_stores_append, Buffer_stores_other]
  · exact (CreateCylindricalGeometry_side_only_spec m top_radius bottom_radius height L C).1
      i j c hi hj hc
  · intro x hx e
    have hcell : i * C + j < L * C := grid_lt hi hj
    rcases CreateCylindricalGeometry_cap_slots height L C x hx with h | h
    · omega
    · omega

theorem vertexAttr_position {α : Type} (position normal color : vec3 α) (coord : vec2 α) :
    vertexAttr position normal color coord 0 = position.x ∧
    vertexAttr position normal color coord 1 = position.y ∧
    vertexAttr position normal color coord 2 = position.z := by
  simp [vertexAttr, vec3.get]

/-- The position and the normal that `CreateCylindricalGeometry` stores for the
side-wall grid point (i, j), with `r` the interpolated radius of level `i`. -/
theorem CreateCylindricalGeometry_side_position_normal {α : Type} [Field α] (m : Trig α)
    (rm : ResourceManager) (name : String) (top_radius bottom_radius height : α)
    (L C vbo ebo i j : Nat) (hL : 2 ≤ L) (hi : i < L) (hj : j < C) :
    (CreateCylindricalGeometry m rm name top_radius bottom_radius height L C vbo ebo).vertex
        ((i * C + j) * 11 + 0) =
      some (0 + CreateCylindricalGeometry.radius top_radius bottom_radius L i *
          m.cos (CreateCylindricalGeometry.theta m C j) *
          CreateCylindricalGeometry.radius top_radius bottom_radius L i) ∧
    (CreateCylindricalGeometry m rm name top_radius bottom_radius height L C vbo ebo).vertex
        ((i * C + j) * 11 + 1) =
      some (height * ((i : α) / ((L - 1 : Nat) : α) - 1 / 2) +
          0 * CreateCylindricalGeometry.radius top_radius bottom_radius L i) ∧
    (CreateCylindricalGeometry m rm name top_radius bottom_radius height L C vbo ebo).vertex
        ((i * C + j) * 11 + 2) =
      some (0 + CreateCylindricalGeometry.radius top_radius bottom_radius L i *
          m.sin (CreateCylindricalGeometry.theta m C j) *
          CreateCylindricalGeometry.radius top_radius bottom_radius L i) ∧
    (CreateCylindricalGeometry m rm name top_radius bottom_radius height L C vbo ebo).vertex
        ((i * C + j) * 11 + 3) =
      some (CreateCylindricalGeometry.radius top_radius bottom_radius L i *
          m.cos (CreateCylindricalGeometry.theta m C j)) ∧
    (CreateCylindricalGeometry m rm name top_radius bottom_radius height L C vbo ebo).vertex
        ((i * C + j) * 11 + 4) = some 0 ∧
    (CreateCylindricalGeometry m rm name top_radius bottom_radius height L C vbo ebo).vertex
        ((i * C + j) * 11 + 5) =
      some (CreateCylindricalGeometry.radius top_radius bottom_radius L i *
          m.sin (CreateCylindricalGeometry.theta m C j)) := by
  have hv : ∀ c, c < 6 → _ := fun c hc =>
    CreateCylindricalGeometry_side_vertex_spec m rm name top_radius bottom_radius height
      L C vbo ebo i j c hL hi hj (by omega) (by omega)
  refine ⟨?_, ?_, ?_, ?_, ?_, ?_⟩
  · rw [hv 0 (by decide)]; rfl
  · rw [hv 1 (by decide)]; rfl
  · rw [hv 2 (by decide)]; rfl
  · rw [hv 3 (by decide)]; rfl
  · rw [hv 4 (by decide)]; rfl
  · rw [hv 5 (by decide)]; rfl

/-- C17, at the input `CreateCylindricalGeometry("CylinderMesh", 2, 2, 1, 2, 4)`: the
side-wall vertex (0, 0) is stored at height `1 * (0 / (2 - 1) - 1 / 2)` as the
claim says, but at (4, -1/2, 0), that is at distance 4 from the y axis, while
the interpolated radius of its level is 2. -/
theorem CreateCylindricalGeometry_side_distance_squared :
    (CreateCylindricalGeometry (Trig.mk Real.cos Real.sin Real.pi) ResourceManager.new
      "CylinderMesh" 2 2 1 2 4 1 2).vertex 0 = some 4 ∧
    (CreateCylindricalGeometry (Trig.mk Real.cos Real.sin Real.pi) ResourceManager.new
      "CylinderMesh" 2 2 1 2 4 1 2).vertex 1 = some (1 * ((0 : ℝ) / (2 - 1) - 1 / 2)) ∧
    (CreateCylindricalGeometry (Trig.mk Real.cos Real.sin Real.pi) ResourceManager.new
      "CylinderMesh" 2 2 1 2 4 1 2).vertex 2 = some 0 ∧
    Real.sqrt ((4 : ℝ) ^ 2 + 0 ^ 2) = 4 ∧
    (1 - (0 : ℝ) / (2 - 1)) * 2 + (0 : ℝ) / (2 - 1) * 2 = 2 ∧
    Real.sqrt ((4 : ℝ) ^ 2 + 0 ^ 2) ≠ (1 - (0 : ℝ) / (2 - 1)) * 2 + (0 : ℝ) / (2 - 1) * 2 := by
  obtain ⟨h0, h1, h2, _, _, _⟩ := CreateCylindricalGeometry_side_position_normal
    (Trig.mk Real.cos Real.sin Real.pi) ResourceManager.new "CylinderMesh" (2 : ℝ) 2 1
    2 4 1 2 0 0 (by decide) (by decide) (by decide)
  have hsqrt : Real.sqrt ((4 : ℝ) ^ 2 + 0 ^ 2) = 4 := by
    rw [show ((4 : ℝ) ^ 2 + 0 ^ 2) = 4 ^ 2 by norm_num]
    exact Real.sqrt_sq (by norm_num)
  refine ⟨?_, ?_, ?_, hsqrt, by norm_num, ?_⟩
  · refine h0.trans ?_
    norm_num [CreateCylindricalGeometry.radius, CreateCylindricalGeometry.theta]
  · refine h1.trans ?_
    norm_num [CreateCylindricalGeometry.radius]
  · refine h2.trans ?_
    norm_num [CreateCylindricalGeometry.radius, CreateCylindricalGeometry.theta]
  · rw [hsqrt]
    norm_num

/-- C19, at the input `CreateCylindricalGeometry("CylinderMesh", 2, 2, 1, 2, 4)`: the
normal stored at the side-wall vertex (0, 0) is (2, 0, 0), of squared length 4
and length 2, not 1. -/
theorem CreateCylindricalGeometry_side_normal_not_unit :
    (CreateCylindricalGeometry (Trig.mk Real.cos Real.sin Real.pi) ResourceManager.new
      "CylinderMesh" 2 2 1 2 4 1 2).vertex 3 = some 2 ∧
    (CreateCylindricalGeometry (Trig.mk Real.cos Real.sin Real.pi) ResourceManager.new
      "CylinderMesh" 2 2 1 2 4 1 2).vertex 4 = some 0 ∧
    (CreateCylindricalGeometry (Trig.mk Real.cos Real.sin Real.pi) ResourceManager.new
      "CylinderMesh" 2 2 1 2 4 1 2).vertex 5 = some 0 ∧
    (2 : ℝ) ^ 2 + 0 ^ 2 + 0 ^ 2 = 4 ∧
    Real.sqrt ((2 : ℝ) ^ 2 + 0 ^ 2 + 0 ^ 2) = 2 ∧
    Real.sqrt ((2 : ℝ) ^ 2 + 0 ^ 2 + 0 ^ 2) ≠ 1 := by
  obtain ⟨_, _, _, h3, h4, h5⟩ := CreateCylindricalGeometry_side_position_normal
    (Trig.mk Real.cos Real.sin Real.pi) ResourceManager.new "CylinderMesh" (2 : ℝ) 2 1
    2 4 1 2 0 0 (by decide) (by decide) (by decide)
  have hsqrt : Real.sqrt ((2 : ℝ) ^ 2 + 0 ^ 2 + 0 ^ 2) = 2 := by
    rw [show ((2 : ℝ) ^ 2 + 0 ^ 2 + 0 ^ 2) = 2 ^ 2 by norm_num]
    exact Real.sqrt_sq (by norm_num)
  refine ⟨?_, ?_, ?_, by norm_num, hsqrt, ?_⟩
  · refine h3.trans ?_
    norm_num [CreateCylindricalGeometry.radius, CreateCylindricalGeometry.theta]
  · exact h4
  · refine h5.trans ?_
    norm_num [CreateCylindricalGeometry.radius, CreateCylindricalGeometry.theta]
  · rw [hsqrt]
    norm_num

/-- C20, at the input `CreateCylindricalGeometry("CylinderMesh", 1, 1, 1, 2, 3)`: of
the 18 triangle slots of the index buffer, slot 11 (elements 33..35), to which
the side triangle `t2` = (2, 0, 3) of the last quad (1, 2) is stored, ends up
holding the bottom-cap triangle `t3` = (1, 6, 0) of `g = 0`, which is stored
there afterwards; and the last slot, 17 (elements 51..53), is left unassigned. -/
theorem CreateCylindricalGeometry_cap_overwrites_side :
    CreateCylindricalGeometry.t2 2 3 1 2 = ⟨2, 0, 3⟩ ∧
    CreateCylindricalGeometry.t3 2 3 0 = ⟨1, 6, 0⟩ ∧
    ((1 * 3 + 2) * face_att * 2 + 0 + face_att, (CreateCylindricalGeometry.t2 2 3 1 2).get 0) ∈
      CreateCylindricalGeometry.faceStores 2 3 ∧
    (CreateCylindricalGeometry (Trig.mk Real.cos Real.sin Real.pi) ResourceManager.new
      "CylinderMesh" 1 1 1 2 3 1 2).face 33 = some 1 ∧
    (CreateCylindricalGeometry (Trig.mk Real.cos Real.sin Real.pi) ResourceManager.new
      "CylinderMesh" 1 1 1 2 3 1 2).face 34 = some 6 ∧
    (CreateCylindricalGeometry (Trig.mk Real.cos Real.sin Real.pi) ResourceManager.new
      "CylinderMesh" 1 1 1 2 3 1 2).face 35 = some 0 ∧
    (CreateCylindricalGeometry (Trig.mk Real.cos Real.sin Real.pi) ResourceManager.new
      "CylinderMesh" 1 1 1 2 3 1 2).face_num = 18 ∧
    (CreateCylindricalGeometry (Trig.mk Real.cos Real.sin Real.pi) ResourceManager.new
      "CylinderMesh" 1 1 1 2 3 1 2).face 51 = none ∧
    (CreateCylindricalGeometry (Trig.mk Real.cos Real.sin Real.pi) ResourceManager.new
      "CylinderMesh" 1 1 1 2 3 1 2).face 52 = none ∧
    (CreateCylindricalGeometry (Trig.mk Real.cos Real.sin Real.pi) ResourceManager.new
      "CylinderMesh" 1 1 1 2 3 1 2).face 53 = none := by
  refine ⟨rfl, rfl, by decide, by decide, by decide, by decide, rfl, by decide, by decide,
    by decide⟩

/-! ## Claims on the cap centres of the cylinder -/

/-- The stores of one vertex whose last store addresses the offset `stray`
instead of offset 10 of the vertex: ten stores of the interleaved layout and
the stray one. -/
theorem mem_vertex_cell_stray {α : Type} (base stray : Nat) (position normal color : vec3 α)
    (coord : vec2 α) (x : Nat × α) :
    x ∈ (forLoop 3 fun k =>
          [(base + k, position.get k), (base + k + 3, normal.get k),
           (base + k + 6, color.get k)]) ++
        [(base + 9, coord.get 0), (stray, coord.get 1)] ↔
      (∃ c, c < 10 ∧ x = (base + c, vertexAttr position normal color coord c)) ∨
        x = (stray, coord.get 1) := by
  simp only [List.mem_append, mem_forLoop, List.mem_cons, List.mem_singleton, List.mem_nil_iff,
    or_false]
  constructor
  · rintro (⟨k, hk, h | h | h⟩ | h | h)
    · exact Or.inl ⟨k, by omega, by rw [h]; simp [vertexAttr, hk]⟩
    · refine Or.inl ⟨k + 3, by omega, ?_⟩
      rw [h]
      have h1 : ¬ (k + 3 < 3) := by omega
      have h2 : k + 3 < 6 := by omega
      simp [vertexAttr, h1, h2, Nat.add_assoc]
    · refine Or.inl ⟨k + 6, by omega, ?_⟩
      rw [h]
      have h1 : ¬ (k + 6 < 3) := by omega
      have h2 : ¬ (k + 6 < 6) := by omega
      have h3 : k + 6 < 9 := by omega
      simp [vertexAttr, h1, h2, h3, Nat.add_assoc]
    · exact Or.inl ⟨9, by omega, by rw [h]; simp [vertexAttr]⟩
    · exact Or.inr h
  · rintro (⟨c, hc, h⟩ | h)
    · by_cases h1 : c < 3
      · exact Or.inl ⟨c, h1, Or.inl (by rw [h]; simp [vertexAttr, h1])⟩
      · by_cases h2 : c < 6
        · refine Or.inl ⟨c - 3, by omega, Or.inr (Or.inl ?_)⟩
          rw [h]
          have e : base + (c - 3) + 3 = base + c := by omega
          simp [vertexAttr, h1, h2, e]
        · by_cases h3 : c < 9
          · refine Or.inl ⟨c - 6, by omega, Or.inr (Or.inr ?_)⟩
            rw [h]
            have e : base + (c - 6) + 6 = base + c := by omega
            simp [vertexAttr, h1, h2, h3, e]
          · have h4 : c = 9 := by omega
            subst h4
            exact Or.inr (Or.inl (by rw [h]; simp [vertexAttr]))
    · exact Or.inr (Or.inr h)

/-- The stores of the bottom-centre vertex: offsets 0..9 of vertex `L * C`, and
the texture coordinate y at offset 10 of the whole buffer. -/
theorem CreateCylindricalGeometry_mem_bottomCenterStores {α : Type} [Field α] (height : α)
    (L C : Nat) (x : Nat × α) :
    x ∈ CreateCylindricalGeometry.bottomCenterStores height L C ↔
      (∃ c, c < 10 ∧ x = (L * C * 11 + c,
        vertexAttr ⟨0, height * (((0 / (L - 1) : Nat) : α) - 1 / 2), 0⟩ ⟨0, -1, 0⟩
          ⟨1 - 0 / (L : α), 0 / (L : α), 0 / (C : α)⟩ ⟨0, 0⟩ c)) ∨
        x = (10, 0) := by
  have hb := CreateCylindricalGeometry_capBase_eq L C
  have e0 : ∀ k : Nat, (CreateCylindricalGeometry.capBase L C + ((11 : Nat) : Int) + (k : Int)
      + 0).toNat = L * C * 11 + k := by intro k; push_cast at hb ⊢; omega
  have e3 : ∀ k : Nat, (CreateCylindricalGeometry.capBase L C + ((11 : Nat) : Int) + (k : Int)
      + 3).toNat = L * C * 11 + k + 3 := by intro k; push_cast at hb ⊢; omega
  have e6 : ∀ k : Nat, (CreateCylindricalGeometry.capBase L C + ((11 : Nat) : Int) + (k : Int)
      + 6).toNat = L * C * 11 + k + 6 := by intro k; push_cast at hb ⊢; omega
  have e9 : (CreateCylindricalGeometry.capBase L C + ((11 : Nat) : Int) + 9).toNat =
      L * C * 11 + 9 := by push_cast at hb ⊢; omega
  have e10 : (((-1 : Int) * (C : Int) + ((C : Int) - 1)) * ((11 : Nat) : Int)
      + ((11 : Nat) : Int) + 10).toNat = 10 := by push_cast; omega
  unfold CreateCylindricalGeometry.bottomCenterStores
  simp only [vertex_att, e0, e3, e6, e9, e10]
  rw [mem_vertex_cell_stray]
  rfl

/-- The stores of the top-centre vertex: offsets 0..10 of vertex `L * C + 1`. -/
theorem CreateCylindricalGeometry_mem_topCenterStores {α : Type} [Field α] (height : α)
    (L C : Nat) (x : Nat × α) :
    x ∈ CreateCylindricalGeometry.topCenterStores height L C ↔
      ∃ c, c < 11 ∧ x = ((L * C + 1) * 11 + c,
        vertexAttr ⟨0, height * ((((L - 1) / (L - 1) : Nat) : α) - 1 / 2), 0⟩ ⟨0, -1, 0⟩
          ⟨1 - ((L : α) - 1) / (L : α), ((L : α) - 1) / (L : α), ((C : α) - 1) / (C : α)⟩
          ⟨1, 1⟩ c) := by
  have hb := CreateCylindricalGeometry_capBase_eq L C
  have e0 : ∀ k : Nat, (CreateCylindricalGeometry.capBase L C + ((11 : Nat) : Int) * 2
      + (k : Int) + 0).toNat = (L * C + 1) * 11 + k := by intro k; push_cast at hb ⊢; omega
  have e3 : ∀ k : Nat, (CreateCylindricalGeometry.capBase L C + ((11 : Nat) : Int) * 2
      + (k : Int) + 3).toNat = (L * C + 1) * 11 + k + 3 := by
    intro k; push_cast at hb ⊢; omega
  have e6 : ∀ k : Nat, (CreateCylindricalGeometry.capBase L C + ((11 : Nat) : Int) * 2
      + (k : Int) + 6).toNat = (L * C + 1) * 11 + k + 6 := by
    intro k; push_cast at hb ⊢; omega
  have e9 : (CreateCylindricalGeometry.capBase L C + ((11 : Nat) : Int) * 2 + 9).toNat =
      (L * C + 1) * 11 + 9 := by push_cast at hb ⊢; omega
  have e10 : (CreateCylindricalGeometry.capBase L C + ((11 : Nat) : Int) * 2 + 10).toNat =
      (L * C + 1) * 11 + 10 := by push_cast at hb ⊢; omega
  unfold CreateCylindricalGeometry.topCenterStores
  simp only [vertex_att, e0, e3, e6, e9, e10]
  rw [mem_vertex_cell]

/-- The vertex buffer of `CreateCylindricalGeometry` behind the side wall, for
`L >= 2` levels and `C >= 1` circle samples: offsets 0..9 of vertex `L * C` hold
the bottom-centre attributes, its offset 10 is never assigned, and offsets
0..10 of vertex `L * C + 1` hold the top-centre attributes. -/
theorem CreateCylindricalGeometry_cap_vertex_spec {α : Type} [Field α] (m : Trig α)
    (rm : ResourceManager) (name : String) (top_radius bottom_radius height : α)
    (L C vbo ebo : Nat) (hL : 2 ≤ L) (hC : 1 ≤ C) :
    (∀ c, c < 10 →
      (CreateCylindricalGeometry m rm name top_radius bottom_radius height L C vbo ebo).vertex
          (L * C * 11 + c) =
        some (vertexAttr ⟨0, height * (((0 / (L - 1) : Nat) : α) - 1 / 2), 0⟩ ⟨0, -1, 0⟩
          ⟨1 - 0 / (L : α), 0 / (L : α), 0 / (C : α)⟩ ⟨0, 0⟩ c)) ∧
    (CreateCylindricalGeometry m rm name top_radius bottom_radius height L C vbo ebo).vertex
        (L * C * 11 + 10) = none ∧
    (∀ c, c < 11 →
      (CreateCylindricalGeometry m rm name top_radius bottom_radius height L C vbo ebo).vertex
          ((L * C + 1) * 11 + c) =
        some (vertexAttr ⟨0, height * ((((L - 1) / (L - 1) : Nat) : α) - 1 / 2), 0⟩ ⟨0, -1, 0⟩
          ⟨1 - ((L : α) - 1) / (L : α), ((L : α) - 1) / (L : α), ((C : α) - 1) / (C : α)⟩
          ⟨1, 1⟩ c)) := by
  have hclamp : (if L < 2 then 2 else L) = L := by
    rw [if_neg (by omega)]
  have hN : 22 ≤ L * C * 11 := by
    have : 2 * 1 ≤ L * C := Nat.mul_le_mul hL hC
    omega
  have hvertex : (CreateCylindricalGeometry m rm name top_radius bottom_radius height
      L C vbo ebo).vertex = (Buffer.new : Buffer α).stores
        (CreateCylindricalGeometry.sideVertexStores m top_radius bottom_radius height L C ++
          CreateCylindricalGeometry.bottomCenterStores height L C ++
          CreateCylindricalGeometry.topCenterStores height L C) := by
    show (Buffer.new : Buffer α).stores
      (CreateCylindricalGeometry.sideVertexStores m top_radius bottom_radius height
          (if L < 2 then 2 else L) C ++
        CreateCylindricalGeometry.bottomCenterStores height (if L < 2 then 2 else L) C ++
        CreateCylindricalGeometry.topCenterStores height (if L < 2 then 2 else L) C) = _
    rw [hclamp]
  -- where the stores of the three parts land
  have hside : ∀ x ∈ CreateCylindricalGeometry.sideVertexStores m top_radius bottom_radius
      height L C, x.1 < L * C * 11 := by
    intro x hx
    obtain ⟨i, hi, j, hj, c, hc, e⟩ :=
      (CreateCylindricalGeometry_mem_sideVertexStores m top_radius bottom_radius height
        L C x).1 hx
    have h1 : i * C + j < L * C := grid_lt hi hj
    rw [e]
    simp only
    omega
  rw [hvertex]
  refine ⟨?_, ?_, ?_⟩
  · intro c hc
    apply Buffer_stores_unique
    · exact ⟨_, List.mem_append_left _ (List.mem_append_right _
        ((CreateCylindricalGeometry_mem_bottomCenterStores height L C _).2
          (Or.inl ⟨c, hc, rfl⟩))), rfl⟩
    · intro x hx hs
      rcases List.mem_append.1 hx with hx | hx
      · rcases List.mem_append.1 hx with hx | hx
        · have := hside x hx
          omega
        · rcases (CreateCylindricalGeometry_mem_bottomCenterStores height L C x).1 hx with
            ⟨c2, hc2, e⟩ | e
          · rw [e] at hs ⊢
            simp only at hs ⊢
            have : c2 = c := by omega
            rw [this]
          · rw [e] at hs
            simp only at hs
            omega
      · obtain ⟨c2, hc2, e⟩ :=
          (CreateCylindricalGeometry_mem_topCenterStores height L C x).1 hx
        rw [e] at hs
        simp only at hs
        omega
  · rw [Buffer_stores_eq_none_iff]
    refine ⟨rfl, ?_⟩
    intro x hx hs
    rcases List.mem_append.1 hx with hx | hx
    · rcases List.mem_append.1 hx with hx | hx
      · have := hside x hx
        omega
      · rcases (CreateCylindricalGeometry_mem_bottomCenterStores height L C x).1 hx with
          ⟨c2, hc2, e⟩ | e
        · rw [e] at hs
          simp only at hs
          omega
        · rw [e] at hs
          simp only at hs
          omega
    · obtain ⟨c2, hc2, e⟩ :=
        (CreateCylindricalGeometry_mem_topCenterStores height L C x).1 hx
      rw [e] at hs
      simp only at hs
      omega
  · intro c hc
    apply Buffer_stores_unique
    · exact ⟨_, List.mem_append_right _
        ((CreateCylindricalGeometry_mem_topCenterStores height L C _).2 ⟨c, hc, rfl⟩), rfl⟩
    · intro x hx hs
      rcases List.mem_append.1 hx with hx | hx
      · rcases List.mem_append.1 hx with hx | hx
        · have := hside x hx
          omega
        · rcases (CreateCylindricalGeometry_mem_bottomCenterStores height L C x).1 hx with
            ⟨c2, hc2, e⟩ | e
          · rw [e] at hs
            simp only at hs
            omega
          · rw [e] at hs
            simp only at hs
            omega
      · obtain ⟨c2, hc2, e⟩ :=
          (CreateCylindricalGeometry_mem_topCenterStores height L C x).1 hx
        rw [e] at hs ⊢
        simp only at hs ⊢
        have : c2 = c := by omega
        rw [this]

/-- C21, at the input `CreateCylindricalGeometry("CylinderMesh", 1, 1, 1, 2, 3)`
(6 side-wall vertices, offsets 0..65): the bottom centre is stored at offsets
66.. with position (0, -1/2, 0) and the top centre at offsets 77.. with
position (0, 1/2, 0), as claimed; but the eleventh attribute of the bottom
centre is stored at offset 10, an element of side-wall vertex 0, and offset
76 = 6 * 11 + 10 is never assigned. -/
theorem CreateCylindricalGeometry_bottom_center_stray_store :
    (CreateCylindricalGeometry (Trig.mk Real.cos Real.sin Real.pi) ResourceManager.new
      "CylinderMesh" 1 1 1 2 3 1 2).vertex 66 = some 0 ∧
    (CreateCylindricalGeometry (Trig.mk Real.cos Real.sin Real.pi) ResourceManager.new
      "CylinderMesh" 1 1 1 2 3 1 2).vertex 67 = some (-1 / 2) ∧
    (CreateCylindricalGeometry (Trig.mk Real.cos Real.sin Real.pi) ResourceManager.new
      "CylinderMesh" 1 1 1 2 3 1 2).vertex 68 = some 0 ∧
    (CreateCylindricalGeometry (Trig.mk Real.cos Real.sin Real.pi) ResourceManager.new
      "CylinderMesh" 1 1 1 2 3 1 2).vertex 77 = some 0 ∧
    (CreateCylindricalGeometry (Trig.mk Real.cos Real.sin Real.pi) ResourceManager.new
      "CylinderMesh" 1 1 1 2 3 1 2).vertex 78 = some (1 / 2) ∧
    (CreateCylindricalGeometry (Trig.mk Real.cos Real.sin Real.pi) ResourceManager.new
      "CylinderMesh" 1 1 1 2 3 1 2).vertex 79 = some 0 ∧
    (CreateCylindricalGeometry (Trig.mk Real.cos Real.sin Real.pi) ResourceManager.new
      "CylinderMesh" 1 1 1 2 3 1 2).vertex 87 = some 1 ∧
    ((10 : Nat), (0 : ℝ)) ∈ CreateCylindricalGeometry.bottomCenterStores (1 : ℝ) 2 3 ∧
    (10 : Nat) < 2 * 3 * vertex_att ∧
    (CreateCylindricalGeometry (Trig.mk Real.cos Real.sin Real.pi) ResourceManager.new
      "CylinderMesh" 1 1 1 2 3 1 2).vertex 76 = none := by
  obtain ⟨hb, hnone, ht⟩ := CreateCylindricalGeometry_cap_vertex_spec
    (Trig.mk Real.cos Real.sin Real.pi) ResourceManager.new "CylinderMesh" (1 : ℝ) 1 1
    2 3 1 2 (by decide) (by decide)
  refine ⟨?_, ?_, ?_, ?_, ?_, ?_, ?_, ?_, by decide, hnone⟩
  · refine (hb 0 (by decide)).trans ?_
    simp [vertexAttr, vec3.get]
  · refine (hb 1 (by decide)).trans ?_
    norm_num [vertexAttr, vec3.get]
  · refine (hb 2 (by decide)).trans ?_
    simp [vertexAttr, vec3.get]
  · refine (ht 0 (by decide)).trans ?_
    simp [vertexAttr, vec3.get]
  · refine (ht 1 (by decide)).trans ?_
    norm_num [vertexAttr, vec3.get]
  · refine (ht 2 (by decide)).trans ?_
    simp [vertexAttr, vec3.get]
  · refine (ht 10 (by decide)).trans ?_
    simp [vertexAttr, vec2.get]
  · exact (CreateCylindricalGeometry_mem_bottomCenterStores (1 : ℝ) 2 3 _).2 (Or.inr rfl)

/-- C24, at the input `CreateCylindricalGeometry("CylinderMesh", 1, 1, 1, 2, 3)`: the
bottom centre (vertex 6, at y = -1/2) carries the normal (0, -1, 0) as claimed,
but the top centre (vertex 7, at y = +1/2) carries (0, -1, 0) as well, not
(0, +1, 0): its normal points into the cylinder. -/
theorem CreateCylindricalGeometry_top_center_normal_down :
    (CreateCylindricalGeometry (Trig.mk Real.cos Real.sin Real.pi) ResourceManager.new
      "CylinderMesh" 1 1 1 2 3 1 2).vertex 69 = some 0 ∧
    (CreateCylindricalGeometry (Trig.mk Real.cos Real.sin Real.pi) ResourceManager.new
      "CylinderMesh" 1 1 1 2 3 1 2).vertex 70 = some (-1) ∧
    (CreateCylindricalGeometry (Trig.mk Real.cos Real.sin Real.pi) ResourceManager.new
      "CylinderMesh" 1 1 1 2 3 1 2).vertex 71 = some 0 ∧
    (CreateCylindricalGeometry (Trig.mk Real.cos Real.sin Real.pi) ResourceManager.new
      "CylinderMesh" 1 1 1 2 3 1 2).vertex 78 = some (1 / 2) ∧
    (CreateCylindricalGeometry (Trig.mk Real.cos Real.sin Real.pi) ResourceManager.new
      "CylinderMesh" 1 1 1 2 3 1 2).vertex 80 = some 0 ∧
    (CreateCylindricalGeometry (Trig.mk Real.cos Real.sin Real.pi) ResourceManager.new
      "CylinderMesh" 1 1 1 2 3 1 2).vertex 81 = some (-1) ∧
    (CreateCylindricalGeometry (Trig.mk Real.cos Real.sin Real.pi) ResourceManager.new
      "CylinderMesh" 1 1 1 2 3 1 2).vertex 82 = some 0 ∧
    (CreateCylindricalGeometry (Trig.mk Real.cos Real.sin Real.pi) ResourceManager.new
      "CylinderMesh" 1 1 1 2 3 1 2).vertex 81 ≠ some 1 := by
  obtain ⟨hb, _, ht⟩ := CreateCylindricalGeometry_cap_vertex_spec
    (Trig.mk Real.cos Real.sin Real.pi) ResourceManager.new "CylinderMesh" (1 : ℝ) 1 1
    2 3 1 2 (by decide) (by decide)
  have h81 : (CreateCylindricalGeometry (Trig.mk Real.cos Real.sin Real.pi) ResourceManager.new
      "CylinderMesh" 1 1 1 2 3 1 2).vertex 81 = some (-1) := by
    refine (ht 4 (by decide)).trans ?_
    simp [vertexAttr, vec3.get]
  refine ⟨?_, ?_, ?_, ?_, ?_, h81, ?_, ?_⟩
  · refine (hb 3 (by decide)).trans ?_
    simp [vertexAttr, vec3.get]
  · refine (hb 4 (by decide)).trans ?_
    simp [vertexAttr, vec3.get]
  · refine (hb 5 (by decide)).trans ?_
    simp [vertexAttr, vec3.get]
  · refine (ht 1 (by decide)).trans ?_
    norm_num [vertexAttr, vec3.get]
  · refine (ht 3 (by decide)).trans ?_
    simp [vertexAttr, vec3.get]
  · refine (ht 5 (by decide)).trans ?_
    simp [vertexAttr, vec3.get]
  · rw [h81]
    norm_num

/-! ## Claims on the torus and on the seam of the sphere -/

theorem vertexAttr_coord {α : Type} (position normal color : vec3 α) (coord : vec2 α) :
    vertexAttr position normal color coord 9 = coord.x ∧
    vertexAttr position normal color coord 10 = coord.y := by
  simp [vertexAttr, vec2.get]

/-- The texture coordinate that `CreateTorus` stores for the grid point (i, j):
`(theta / 2) * pi` and `(phi / 2) * pi`, that is `pi^2 * i / L` and
`pi^2 * j / C`. -/
theorem CreateTorus_stored_coord (rm : ResourceManager) (name : String)
    (loop_radius circle_radius : ℝ) (L C vbo ebo i j : Nat) (hi : i < L) (hj : j < C) :
    (CreateTorus (Trig.mk Real.cos Real.sin Real.pi) rm name loop_radius circle_radius
        L C vbo ebo).vertex ((i * C + j) * 11 + 9) = some (Real.pi ^ 2 * (i / L)) ∧
    (CreateTorus (Trig.mk Real.cos Real.sin Real.pi) rm name loop_radius circle_radius
        L C vbo ebo).vertex ((i * C + j) * 11 + 10) = some (Real.pi ^ 2 * (j / C)) := by
  have hv := (CreateTorus_vertex_spec (Trig.mk Real.cos Real.sin Real.pi)
    loop_radius circle_radius L C).1 i j
  have hc := vertexAttr_coord
    (CreateTorus.vertex_position (Trig.mk Real.cos Real.sin Real.pi) loop_radius circle_radius
      L C i j)
    (CreateTorus.vertex_normal (Trig.mk Real.cos Real.sin Real.pi) L C i j)
    (CreateTorus.vertex_color L C i j)
    (CreateTorus.vertex_coord (Trig.mk Real.cos Real.sin Real.pi) L C i j)
  have h9 := hv 9 hi hj (by decide)
  have h10 := hv 10 hi hj (by decide)
  rw [hc.1] at h9
  rw [hc.2] at h10
  constructor
  · refine h9.trans (congrArg some ?_)
    simp only [CreateTorus.vertex_coord, CreateTorus.theta]
    ring
  · refine h10.trans (congrArg some ?_)
    simp only [CreateTorus.vertex_coord, CreateTorus.phi]
    ring

/-- C25, at the input `CreateTorus("TorusMesh", 1, 1/2, 4, 4)`, grid point (1, 1):
the stored texture coordinate is `(pi^2 / 4, pi^2 / 4)`, each component above
2, not the normalised angles (1/4, 1/4) in [0, 1): the code divides the angle
by 2 and multiplies by pi. -/
theorem CreateTorus_coord_scaled_by_pi_squared :
    (CreateTorus (Trig.mk Real.cos Real.sin Real.pi) ResourceManager.new "TorusMesh" 1 (1 / 2)
        4 4 1 2).vertex 64 = some (Real.pi ^ 2 * ((1 : Nat) / (4 : Nat))) ∧
    (CreateTorus (Trig.mk Real.cos Real.sin Real.pi) ResourceManager.new "TorusMesh" 1 (1 / 2)
        4 4 1 2).vertex 65 = some (Real.pi ^ 2 * ((1 : Nat) / (4 : Nat))) ∧
    Real.pi ^ 2 * (((1 : Nat) : ℝ) / ((4 : Nat) : ℝ)) > 2 ∧
    Real.pi ^ 2 * (((1 : Nat) : ℝ) / ((4 : Nat) : ℝ)) ≠ 1 / 4 ∧
    ¬ (Real.pi ^ 2 * (((1 : Nat) : ℝ) / ((4 : Nat) : ℝ)) < 1) := by
  have h := CreateTorus_stored_coord ResourceManager.new "TorusMesh" 1 (1 / 2) 4 4 1 2 1 1
    (by decide) (by decide)
  have hpi : (9 : ℝ) < Real.pi ^ 2 := by
    have h3 := Real.pi_gt_three
    nlinarith
  have hgt : Real.pi ^ 2 * (((1 : Nat) : ℝ) / ((4 : Nat) : ℝ)) > 2 := by
    push_cast
    linarith
  refine ⟨h.1, h.2, hgt, ?_, ?_⟩
  · intro e
    rw [e] at hgt
    norm_num at hgt
  · intro e
    linarith

/-- The position of vertex `i * P + j` as held by the vertex buffer of
`CreateSphere`. -/
theorem CreateSphere_buffer_position {α : Type} [Field α] (m : Trig α) (rm : ResourceManager)
    (name : String) (radius : α) (T P vbo ebo i j : Nat) (hi : i < T) (hj : j < P) :
    (CreateSphere m rm name radius T P vbo ebo).vertex.position (i * P + j) =
      some (CreateSphere.vertex_position m radius T P i j) := by
  have hv := (CreateSphere_vertex_spec m radius T P).1 i j
  have hp := vertexAttr_position (CreateSphere.vertex_position m radius T P i j)
    (CreateSphere.vertex_normal m T P i j) (CreateSphere.vertex_color T P i j)
    (CreateSphere.vertex_coord T P i j)
  have h0 := hv 0 hi hj (by decide)
  have h1 := hv 1 hi hj (by decide)
  have h2 := hv 2 hi hj (by decide)
  rw [hp.1] at h0
  rw [hp.2.1] at h1
  rw [hp.2.2] at h2
  have e0 : (CreateSphere m rm name radius T P vbo ebo).vertex ((i * P + j) * vertex_att) =
      some (CreateSphere.vertex_position m radius T P i j).x := h0
  have e1 : (CreateSphere m rm name radius T P vbo ebo).vertex ((i * P + j) * vertex_att + 1) =
      some (CreateSphere.vertex_position m radius T P i j).y := h1
  have e2 : (CreateSphere m rm name radius T P vbo ebo).vertex ((i * P + j) * vertex_att + 2) =
      some (CreateSphere.vertex_position m radius T P i j).z := h2
  simp only [Buffer.position, e0, e1, e2]

/-- Over the reals the last column of the sphere grid (theta = 2 pi) repeats the
normal and the position of the first column (theta = 0). -/
theorem CreateSphere_last_column_eq (radius : ℝ) (T P j : Nat) (hT : 2 ≤ T) :
    CreateSphere.vertex_normal (Trig.mk Real.cos Real.sin Real.pi) T P (T - 1) j =
      CreateSphere.vertex_normal (Trig.mk Real.cos Real.sin Real.pi) T P 0 j ∧
    CreateSphere.vertex_position (Trig.mk Real.cos Real.sin Real.pi) radius T P (T - 1) j =
      CreateSphere.vertex_position (Trig.mk Real.cos Real.sin Real.pi) radius T P 0 j := by
  have hne : (((T - 1 : Nat) : ℝ)) ≠ 0 := by
    have : 0 < T - 1 := by omega
    exact_mod_cast this.ne'
  have h2pi : CreateSphere.theta (Trig.mk Real.cos Real.sin Real.pi) T (T - 1) = 2 * Real.pi := by
    unfold CreateSphere.theta
    simp only
    rw [mul_div_assoc, div_self hne, mul_one]
  have h0 : CreateSphere.theta (Trig.mk Real.cos Real.sin Real.pi) T 0 = 0 := by
    unfold CreateSphere.theta
    simp
  have hn : CreateSphere.vertex_normal (Trig.mk Real.cos Real.sin Real.pi) T P (T - 1) j =
      CreateSphere.vertex_normal (Trig.mk Real.cos Real.sin Real.pi) T P 0 j := by
    simp only [CreateSphere.vertex_normal, h2pi, h0, Real.cos_two_pi, Real.sin_two_pi,
      Real.cos_zero, Real.sin_zero]
  refine ⟨hn, ?_⟩
  simp only [CreateSphere.vertex_position, hn]

theorem triangleCross_degenerate (p q : vec3 ℝ) :
    triangleCross p q p = ⟨0, 0, 0⟩ ∧ triangleCross p q q = ⟨0, 0, 0⟩ := by
  constructor
  · simp only [triangleCross, vec3.cross, vec3.sub, vec3.mk.injEq]
    refine ⟨by ring, by ring, by ring⟩
  · simp only [triangleCross, vec3.cross, vec3.sub, vec3.mk.injEq]
    refine ⟨by ring, by ring, by ring⟩

/-- C26, as amended: for `T >= 2`, `P >= 2` with at most 2^24 = 16777216 vertices
(`T * P <= 2^24`) and `j < P`, over the reals the sphere vertex of the last
column, `(T - 1) * P + j`, is stored with the same position and normal (offsets
0..5) as the vertex `j` of the first column; and for `j + 1 < P` the two
triangles stored for the wrapping quad (T - 1, j), `(j, (T-1) P + j + 1,
(T-1) P + j)` and `(j, j + 1, (T-1) P + j + 1)`, have area vector zero. -/
theorem CreateSphere_seam_degenerate (rm : ResourceManager) (name : String) (radius : ℝ)
    (T P vbo ebo j : Nat) (hT : 2 ≤ T) (hP : 2 ≤ P) (hN : T * P ≤ 2 ^ 24) (hj : j < P) :
    (∀ c, c < 6 →
      (CreateSphere (Trig.mk Real.cos Real.sin Real.pi) rm name radius T P vbo ebo).vertex
          (((T - 1) * P + j) * vertex_att + c) =
        (CreateSphere (Trig.mk Real.cos Real.sin Real.pi) rm name radius T P vbo ebo).vertex
          ((0 * P + j) * vertex_att + c)) ∧
    (j + 1 < P →
      ∃ a b c a2 b2 c2 : Nat, ∃ pa pb pc pa2 pb2 pc2 : vec3 ℝ,
        (CreateSphere (Trig.mk Real.cos Real.sin Real.pi) rm name radius T P vbo ebo).face
          (((T - 1) * (P - 1) + j) * 6 + 0) = some a ∧
        (CreateSphere (Trig.mk Real.cos Real.sin Real.pi) rm name radius T P vbo ebo).face
          (((T - 1) * (P - 1) + j) * 6 + 1) = some b ∧
        (CreateSphere (Trig.mk Real.cos Real.sin Real.pi) rm name radius T P vbo ebo).face
          (((T - 1) * (P - 1) + j) * 6 + 2) = some c ∧
        (CreateSphere (Trig.mk Real.cos Real.sin Real.pi) rm name radius T P vbo ebo).face
          (((T - 1) * (P - 1) + j) * 6 + 3) = some a2 ∧
        (CreateSphere (Trig.mk Real.cos Real.sin Real.pi) rm name radius T P vbo ebo).face
          (((T - 1) * (P - 1) + j) * 6 + 4) = some b2 ∧
        (CreateSphere (Trig.mk Real.cos Real.sin Real.pi) rm name radius T P vbo ebo).face
          (((T - 1) * (P - 1) + j) * 6 + 5) = some c2 ∧
        (a, b, c) = (0 * P + j, (T - 1) * P + (j + 1), (T - 1) * P + j) ∧
        (a2, b2, c2) = (0 * P + j, 0 * P + (j + 1), (T - 1) * P + (j + 1)) ∧
        (CreateSphere (Trig.mk Real.cos Real.sin Real.pi) rm name radius T P vbo ebo
          ).vertex.position a = some pa ∧
        (CreateSphere (Trig.mk Real.cos Real.sin Real.pi) rm name radius T P vbo ebo
          ).vertex.position b = some pb ∧
        (CreateSphere (Trig.mk Real.cos Real.sin Real.pi) rm name radius T P vbo ebo
          ).vertex.position c = some pc ∧
        (CreateSphere (Trig.mk Real.cos Real.sin Real.pi) rm name radius T P vbo ebo
          ).vertex.position a2 = some pa2 ∧
        (CreateSphere (Trig.mk Real.cos Real.sin Real.pi) rm name radius T P vbo ebo
          ).vertex.position b2 = some pb2 ∧
        (CreateSphere (Trig.mk Real.cos Real.sin Real.pi) rm name radius T P vbo ebo
          ).vertex.position c2 = some pc2 ∧
        triangleCross pa pb pc = ⟨0, 0, 0⟩ ∧
        triangleCross pa2 pb2 pc2 = ⟨0, 0, 0⟩) := by
  have _h := hP
  have hT1 : T - 1 < T := by omega
  have hT0 : 0 < T := by omega
  have hv := (CreateSphere_vertex_spec (Trig.mk Real.cos Real.sin Real.pi) radius T P).1
  have hseam := fun j => CreateSphere_last_column_eq radius T P j hT
  constructor
  · intro c hc
    have hl := hv (T - 1) j c hT1 hj (by omega)
    have hf := hv 0 j c hT0 hj (by omega)
    refine hl.trans (Eq.trans ?_ hf.symm)
    congr 1
    rw [(hseam j).1, (hseam j).2]
    unfold vertexAttr
    have h1 : c < 6 := hc
    by_cases h3 : c < 3
    · simp [h3]
    · simp [h3, h1]
  · intro hj1
    have hjq : j < P - 1 := by omega
    have hf := (CreateSphere_face_spec T P).1 (T - 1) j
    have hwrap : (T - 1 + 1) % T = 0 := by
      rw [Nat.sub_add_cancel (by omega), Nat.mod_self]
    have hex := CreateSphere_triangles_exact T P (T - 1) j hN hT1 hjq
    have pos := fun i j (hi : i < T) (hj : j < P) =>
      CreateSphere_buffer_position (Trig.mk Real.cos Real.sin Real.pi) rm name radius
        T P vbo ebo i j hi hj
    have q0 : quadAttr (CreateSphere.t1 T P (T - 1) j) (CreateSphere.t2 T P (T - 1) j) 0 =
        0 * P + j := by
      rw [hex.1, hex.2]
      simp [quadAttr, vec3.get, hwrap]
    have q1 : quadAttr (CreateSphere.t1 T P (T - 1) j) (CreateSphere.t2 T P (T - 1) j) 1 =
        (T - 1) * P + (j + 1) := by
      rw [hex.1, hex.2]
      simp [quadAttr, vec3.get, hwrap]
    have q2 : quadAttr (CreateSphere.t1 T P (T - 1) j) (CreateSphere.t2 T P (T - 1) j) 2 =
        (T - 1) * P + j := by
      rw [hex.1, hex.2]
      simp [quadAttr, vec3.get, hwrap]
    have q3 : quadAttr (CreateSphere.t1 T P (T - 1) j) (CreateSphere.t2 T P (T - 1) j) 3 =
        0 * P + j := by
      rw [hex.1, hex.2]
      simp [quadAttr, vec3.get, hwrap]
    have q4 : quadAttr (CreateSphere.t1 T P (T - 1) j) (CreateSphere.t2 T P (T - 1) j) 4 =
        0 * P + (j + 1) := by
      rw [hex.1, hex.2]
      simp [quadAttr, vec3.get, hwrap]
    have q5 : quadAttr (CreateSphere.t1 T P (T - 1) j) (CreateSphere.t2 T P (T - 1) j) 5 =
        (T - 1) * P + (j + 1) := by
      rw [hex.1, hex.2]
      simp [quadAttr, vec3.get, hwrap]
    refine ⟨0 * P + j, (T - 1) * P + (j + 1), (T - 1) * P + j,
      0 * P + j, 0 * P + (j + 1), (T - 1) * P + (j + 1),
      CreateSphere.vertex_position (Trig.mk Real.cos Real.sin Real.pi) radius T P 0 j,
      CreateSphere.vertex_position (Trig.mk Real.cos Real.sin Real.pi) radius T P (T - 1) (j + 1),
      CreateSphere.vertex_position (Trig.mk Real.cos Real.sin Real.pi) radius T P 0 j,
      CreateSphere.vertex_position (Trig.mk Real.cos Real.sin Real.pi) radius T P 0 j,
      CreateSphere.vertex_position (Trig.mk Real.cos Real.sin Real.pi) radius T P 0 (j + 1),
      CreateSphere.vertex_position (Trig.mk Real.cos Real.sin Real.pi) radius T P 0 (j + 1),
      (hf 0 hT1 hjq (by decide)).trans (congrArg some q0),
      (hf 1 hT1 hjq (by decide)).trans (congrArg some q1),
      (hf 2 hT1 hjq (by decide)).trans (congrArg some q2),
      (hf 3 hT1 hjq (by decide)).trans (congrArg some q3),
      (hf 4 hT1 hjq (by decide)).trans (congrArg some q4),
      (hf 5 hT1 hjq (by decide)).trans (congrArg some q5), rfl, rfl,
      pos 0 j hT0 hj, pos (T - 1) (j + 1) hT1 hj1, ?_,
      pos 0 j hT0 hj, pos 0 (j + 1) hT0 hj1, ?_, ?_, ?_⟩
    · have := pos (T - 1) j hT1 hj
      rw [(hseam j).2] at this
      exact this
    · have := pos (T - 1) (j + 1) hT1 hj1
      rw [(hseam (j + 1)).2] at this
      exact this
    · exact (triangleCross_degenerate _ _).1
    · exact (triangleCross_degenerate _ _).2

theorem CreateSphere_seam_degenerate_witness :
    (2 ≤ 3 ∧ 2 ≤ 4 ∧ 3 * 4 ≤ 2 ^ 24 ∧ 1 < 4) ∧
    ∀ c, c < 6 →
      (CreateSphere (Trig.mk Real.cos Real.sin Real.pi) ResourceManager.new "SphereMesh" 1
          3 4 1 2).vertex (((3 - 1) * 4 + 1) * vertex_att + c) =
        (CreateSphere (Trig.mk Real.cos Real.sin Real.pi) ResourceManager.new "SphereMesh" 1
          3 4 1 2).vertex ((0 * 4 + 1) * vertex_att + c) :=
  ⟨⟨by decide, by decide, by decide, by decide⟩,
    (CreateSphere_seam_degenerate ResourceManager.new "SphereMesh" 1 3 4 1 2 1
      (by decide) (by decide) (by decide) (by decide)).1⟩


/-! ## Claims on the game: lanes, collisions, obstacles, the player -/

/-- One call of `KeyCallback` on a game with a player keeps the player and
keeps its lane within 0 .. 2. -/
theorem KeyCallback_step {α : Type} (fl : Rounding α) (k : Keys) (now : α) (g : Game α)
    (p : Player α)
    (key scancode action mods : Int) (hp : Game.player_root_ g = some p) :
    ∃ p2, Game.player_root_ (KeyCallback fl k now g key scancode action mods) = some p2 ∧
      (0 ≤ p.currentLane_ ∧ p.currentLane_ ≤ 2 →
        0 ≤ p2.currentLane_ ∧ p2.currentLane_ ≤ 2) := by
  unfold KeyCallback
  dsimp only
  split
  · rename_i heq
    split_ifs at heq <;> simp_all
  · rename_i q heq
    have hq : q = p := by
      split_ifs at heq <;> simp_all
    subst hq
    refine ⟨_, rfl, ?_⟩
    intro h
    split_ifs <;> first | omega | (dsimp only; omega)
/-- Any sequence of `KeyCallback` calls on a game with a player keeps the
player and keeps its lane within 0 .. 2. -/
theorem KeyCallback_events {α : Type} (fl : Rounding α) (k : Keys)
    (events : List (Int × Int × Int × Int × α))
    (g : Game α) (p : Player α) (hp : Game.player_root_ g = some p)
    (h : 0 ≤ p.currentLane_ ∧ p.currentLane_ ≤ 2) :
    ∃ p2, Game.player_root_ (events.foldl
        (fun g e => KeyCallback fl k e.2.2.2.2 g e.1 e.2.1 e.2.2.1 e.2.2.2.1) g) =
          some p2 ∧
      0 ≤ p2.currentLane_ ∧ p2.currentLane_ ≤ 2 := by
  induction events generalizing g p with
  | nil => exact ⟨p, hp, h⟩
  | cons e es ih =>
    obtain ⟨q, hq, hl⟩ :=
      KeyCallback_step fl k e.2.2.2.2 g p e.1 e.2.1 e.2.2.1 e.2.2.2.1 hp
    exact ih _ q hq (hl h)

/-- The table `lanePositions` has an element for each of the lanes 0, 1, 2. -/
theorem lanePositions_at_lane {α : Type} [Field α] (fl : Rounding α) (lane : Int)
    (h : 0 ≤ lane ∧ lane ≤ 2) :
    lanePositions_at fl lane =
      some ((([fl.f32 (-(9 / 10)), 0, fl.f32 (9 / 10)] : List α)).getD lane.toNat 0) := by
  have h3 : lane = 0 ∨ lane = 1 ∨ lane = 2 := by omega
  rcases h3 with h0 | h0 | h0 <;> subst h0 <;> simp [lanePositions_at, lanePositions]

/-- A left press (arrow or A) in lane 0 and a right press (arrow or D) in lane 2,
with the GLFW 3 codes, leave the lane as it is. -/
theorem KeyCallback_saturates {α : Type} (fl : Rounding α) (now : α) (g : Game α)
    (p : Player α)
    (key scancode mods : Int) (hp : Game.player_root_ g = some p) :
    (p.currentLane_ = 0 → (key = glfw3.GLFW_KEY_LEFT ∨ key = glfw3.GLFW_KEY_A) →
      ∃ p2, Game.player_root_
          (KeyCallback fl glfw3 now g key scancode glfw3.GLFW_PRESS mods) =
        some p2 ∧ p2.currentLane_ = 0) ∧
    (p.currentLane_ = 2 → (key = glfw3.GLFW_KEY_RIGHT ∨ key = glfw3.GLFW_KEY_D) →
      ∃ p2, Game.player_root_
          (KeyCallback fl glfw3 now g key scancode glfw3.GLFW_PRESS mods) =
        some p2 ∧ p2.currentLane_ = 2) := by
  obtain ⟨sc, an, pr⟩ := g
  simp only at hp
  subst hp
  constructor
  · intro h0 hk
    rcases hk with hk | hk <;> subst hk <;> simp [KeyCallback, glfw3, h0]
  · intro h0 hk
    rcases hk with hk | hk <;> subst hk <;> simp [KeyCallback, glfw3, h0]
/-- C27: on a game whose player starts in lane `currentLane_ = 1`, after any
sequence of `KeyCallback` events (any key, scancode, action, modifiers, clock
value, and whatever the key codes and the rounding are) the player is still there
with
`currentLane_` equal to 0, 1 or 2, the lookup `lanePositions[currentLane_]` has an
element and `Player::Update` returns, whatever the rounding of the float
operations; and, with the GLFW 3 codes, a left press in lane 0 and a right press
in lane 2 leave the lane unchanged. -/
theorem KeyCallback_lane_in_bounds {α : Type} [LinearOrderedField α] (fl : Rounding α)
    (k : Keys)
    (events : List (Int × Int × Int × Int × α)) (g : Game α) (p : Player α)
    (hp : Game.player_root_ g = some p) (h1 : p.currentLane_ = 1) :
    (∃ p2, Game.player_root_ (events.foldl
        (fun g e => KeyCallback fl k e.2.2.2.2 g e.1 e.2.1 e.2.2.1 e.2.2.2.1) g) =
          some p2 ∧
      (p2.currentLane_ = 0 ∨ p2.currentLane_ = 1 ∨ p2.currentLane_ = 2) ∧
      ∀ fl2 : Rounding α,
        (∃ targetX : α, lanePositions_at fl2 p2.currentLane_ = some targetX) ∧
        ∀ (m : Trig α) (now deltaTime : α),
          ∃ p3, Player.Update fl2 m now p2 deltaTime = some p3 ∧
            p3.currentLane_ = p2.currentLane_) ∧
    (∀ (now : α) (g2 : Game α) (q : Player α) (key scancode mods : Int),
      Game.player_root_ g2 = some q →
      (q.currentLane_ = 0 → (key = glfw3.GLFW_KEY_LEFT ∨ key = glfw3.GLFW_KEY_A) →
        ∃ q2, Game.player_root_
            (KeyCallback fl glfw3 now g2 key scancode glfw3.GLFW_PRESS mods) =
          some q2 ∧ q2.currentLane_ = 0) ∧
      (q.currentLane_ = 2 → (key = glfw3.GLFW_KEY_RIGHT ∨ key = glfw3.GLFW_KEY_D) →
        ∃ q2, Game.player_root_
            (KeyCallback fl glfw3 now g2 key scancode glfw3.GLFW_PRESS mods) =
          some q2 ∧ q2.currentLane_ = 2)) := by
  constructor
  · obtain ⟨p2, h2, hl⟩ := KeyCallback_events fl k events g p hp (by omega)
    refine ⟨p2, h2, by omega,
      fun fl2 => ⟨⟨_, lanePositions_at_lane fl2 p2.currentLane_ hl⟩, ?_⟩⟩
    intro m now deltaTime
    unfold Player.Update
    rw [lanePositions_at_lane fl2 p2.currentLane_ hl]
    exact ⟨_, rfl, rfl⟩
  · intro now g2 q key scancode mods hq
    exact KeyCallback_saturates fl now g2 q key scancode mods hq

theorem KeyCallback_lane_in_bounds_witness :
    ∃ p2 : Player ℚ, Game.player_root_ ([(263, 0, 1, 0, 1), (65, 0, 1, 0, 2), (262, 0, 0, 0, 3)].foldl
        (fun g e => KeyCallback Rounding.ieee glfw3 e.2.2.2.2 g e.1 e.2.1 e.2.2.1 e.2.2.2.1)
        (Game.mk false true (some (Player.mk ⟨0, 1 / 2, 0⟩ (7 / 20) (-(7 / 20)) (9 / 50)
          (-(1 / 2)) 1 0 false 0 (3 / 2) (3 / 5))))) = some p2 ∧
      (p2.currentLane_ = 0 ∨ p2.currentLane_ = 1 ∨ p2.currentLane_ = 2) :=
  have h := (KeyCallback_lane_in_bounds Rounding.ieee glfw3
    [(263, 0, 1, 0, 1), (65, 0, 1, 0, 2), (262, 0, 0, 0, 3)]
    (Game.mk false true (some (Player.mk ⟨0, 1 / 2, 0⟩ (7 / 20) (-(7 / 20)) (9 / 50)
      (-(1 / 2)) 1 0 false 0 (3 / 2) (3 / 5))))
    (Player.mk ⟨0, 1 / 2, 0⟩ (7 / 20) (-(7 / 20)) (9 / 50) (-(1 / 2)) 1 0 false 0 (3 / 2) (3 / 5))
    rfl rfl).1
  h.imp (fun _ hx => ⟨hx.1, hx.2.1⟩)


/-- Two open intervals with non-empty interiors share a point exactly when each
starts before the other ends. -/
theorem interval_overlap_iff {α : Type} [LinearOrderedField α] (a b c d : α)
    (hab : a < b) (hcd : c < d) :
    (b > c ∧ a < d) ↔ ∃ x, a < x ∧ x < b ∧ c < x ∧ x < d := by
  constructor
  · rintro ⟨hcb, had⟩
    have hlt : max a c < min b d := by
      rw [max_lt_iff, lt_min_iff, lt_min_iff]
      exact ⟨⟨hab, had⟩, hcb, hcd⟩
    obtain ⟨x, hx1, hx2⟩ := exists_between hlt
    rw [max_lt_iff] at hx1
    rw [lt_min_iff] at hx2
    exact ⟨x, hx1.1, hx2.1, hx1.2, hx2.2⟩
  · rintro ⟨x, h1, h2, h3, h4⟩
    exact ⟨lt_trans h3 h2, lt_trans h1 h4⟩

/-- The value of `AABBcheck` as a proposition: the four strict comparisons of
the rounded sums. -/
theorem AABBcheck_eq_true_iff {α : Type} [LinearOrderedField α] (fl : Rounding α)
    (player : Player α) (obstacle : Obstacle α) :
    AABBcheck fl player obstacle = true ↔
      (fl.f32 (player.position.x + player.xMax_) >
          fl.f32 (obstacle.position.x + obstacle.xMin) ∧
        fl.f32 (player.position.x + player.xMin_) <
          fl.f32 (obstacle.position.x + obstacle.xMax)) ∧
      (fl.f32 (player.position.y + player.yMax_) >
          fl.f32 (obstacle.position.y + obstacle.yMin) ∧
        fl.f32 (player.position.y + player.yMin_) <
          fl.f32 (obstacle.position.y + obstacle.yMax)) := by
  simp only [AABBcheck, Bool.and_eq_true, decide_eq_true_eq, and_assoc]

/-- C28, as amended: in arithmetic without rounding, for a player and an obstacle
whose boxes are non-degenerate, `AABBcheck` returns true exactly when some point
(x, y) lies strictly inside both rectangles `position + [min, max]`, and when an
edge of one box lies on the facing edge of the other (boxes that only touch) the
result is false; with any rounding the result does not depend on the z
coordinates of the two positions. -/
theorem AABBcheck_iff_overlap {α : Type} [LinearOrderedField α] (player : Player α)
    (obstacle : Obstacle α)
    (hpx : player.xMin_ < player.xMax_) (hpy : player.yMin_ < player.yMax_)
    (hox : obstacle.xMin < obstacle.xMax) (hoy : obstacle.yMin < obstacle.yMax) :
    (AABBcheck (Rounding.exact α) player obstacle = true ↔
      ∃ x y : α,
        (player.position.x + player.xMin_ < x ∧ x < player.position.x + player.xMax_ ∧
          obstacle.position.x + obstacle.xMin < x ∧ x < obstacle.position.x + obstacle.xMax) ∧
        (player.position.y + player.yMin_ < y ∧ y < player.position.y + player.yMax_ ∧
          obstacle.position.y + obstacle.yMin < y ∧ y < obstacle.position.y + obstacle.yMax)) ∧
    (∀ (fl : Rounding α) (z z2 : α),
      AABBcheck fl { player with position := ⟨player.position.x, player.position.y, z⟩ }
          { obstacle with position := ⟨obstacle.position.x, obstacle.position.y, z2⟩ } =
        AABBcheck fl player obstacle) ∧
    ((player.position.x + player.xMax_ = obstacle.position.x + obstacle.xMin ∨
        player.position.x + player.xMin_ = obstacle.position.x + obstacle.xMax ∨
        player.position.y + player.yMax_ = obstacle.position.y + obstacle.yMin ∨
        player.position.y + player.yMin_ = obstacle.position.y + obstacle.yMax) →
      AABBcheck (Rounding.exact α) player obstacle = false) := by
  have hid : ∀ x : α, (Rounding.exact α).f32 x = x := fun _ => rfl
  refine ⟨?_, ?_, ?_⟩
  · rw [AABBcheck_eq_true_iff]
    simp only [hid]
    rw [interval_overlap_iff (player.position.x + player.xMin_)
        (player.position.x + player.xMax_) (obstacle.position.x + obstacle.xMin)
        (obstacle.position.x + obstacle.xMax) (by linarith) (by linarith),
      interval_overlap_iff (player.position.y + player.yMin_)
        (player.position.y + player.yMax_) (obstacle.position.y + obstacle.yMin)
        (obstacle.position.y + obstacle.yMax) (by linarith) (by linarith)]
    constructor
    · rintro ⟨⟨x, hx⟩, y, hy⟩
      exact ⟨x, y, hx, hy⟩
    · rintro ⟨x, y, hx, hy⟩
      exact ⟨⟨x, hx⟩, y, hy⟩
  · intro fl z z2
    rfl
  · intro h
    rw [← Bool.not_eq_true, AABBcheck_eq_true_iff]
    simp only [hid]
    rintro ⟨⟨h1, h2⟩, h3, h4⟩
    rcases h with h | h | h | h
    · exact absurd h1 (by rw [h]; exact lt_irrefl _)
    · exact absurd h2 (by rw [h]; exact lt_irrefl _)
    · exact absurd h3 (by rw [h]; exact lt_irrefl _)
    · exact absurd h4 (by rw [h]; exact lt_irrefl _)

theorem AABBcheck_iff_overlap_witness :
    AABBcheck (Rounding.exact ℚ)
        (Player.mk ⟨0, 1 / 2, 0⟩ (7 / 20) (-(7 / 20)) (9 / 50) (-(1 / 2)) 1 0 false 0 (3 / 2)
          (3 / 5) : Player ℚ)
        (Obstacle.mk ⟨13 / 20, 0, -5⟩ ⟨0, 0, 0⟩ ⟨0, 0, 1⟩ ⟨0, 0, 0⟩ 0
          (3 / 10) (-(3 / 10)) (3 / 5) (-(3 / 5))) = false :=
  (AABBcheck_iff_overlap
    (Player.mk ⟨0, 1 / 2, 0⟩ (7 / 20) (-(7 / 20)) (9 / 50) (-(1 / 2)) 1 0 false 0 (3 / 2)
      (3 / 5) : Player ℚ)
    (Obstacle.mk ⟨13 / 20, 0, -5⟩ ⟨0, 0, 0⟩ ⟨0, 0, 1⟩ ⟨0, 0, 0⟩ 0
      (3 / 10) (-(3 / 10)) (3 / 5) (-(3 / 5)))
    (by norm_num) (by norm_num) (by norm_num) (by norm_num)).2.2 (Or.inl (by norm_num))

/-- C28 as stated fails in float arithmetic.  Player at x = 0.24999999f =
16777215/2^26 with `xMax_` = 0.35f = 11744051/2^25, obstacle at x = 0.9f =
7549747/2^23 with `xMin` = -0.3f = -5033165/2^24: the right edge of the player,
40265317/2^26, lies 2^-26 beyond the left edge of the obstacle, 40265316/2^26,
so the point (x, 1/4) with x between them is strictly inside both boxes; but
both sums round to the float 10066329/2^24 and `AABBcheck` returns false. -/
theorem AABBcheck_misses_overlap :
    (∃ x y : ℚ,
      ((16777215 / 67108864 + -(11744051 / 33554432) < x ∧
          x < 16777215 / 67108864 + 11744051 / 33554432) ∧
        (7549747 / 8388608 + -(5033165 / 16777216) < x ∧
          x < 7549747 / 8388608 + 5033165 / 16777216)) ∧
      ((1 / 2 + -(1 / 2) < y ∧ y < 1 / 2 + 3019899 / 16777216) ∧
        (0 + -(5033165 / 8388608) < y ∧ y < 0 + 5033165 / 8388608))) ∧
    AABBcheck Rounding.ieee
      (Player.mk ⟨16777215 / 67108864, 1 / 2, 0⟩ (11744051 / 33554432)
        (-(11744051 / 33554432)) (3019899 / 16777216) (-(1 / 2)) 1 0 false 0 (3 / 2)
        (5033165 / 8388608))
      (Obstacle.mk ⟨7549747 / 8388608, 0, -5⟩ ⟨0, 0, 0⟩ ⟨0, 0, 1⟩ ⟨0, 0, 0⟩ 0
        (5033165 / 16777216) (-(5033165 / 16777216)) (5033165 / 8388608)
        (-(5033165 / 8388608))) = false := by
  constructor
  · refine ⟨80530633 / 134217728, 1 / 4, ?_⟩
    norm_num
  · have h1 : float32 (16777215 / 67108864 + 11744051 / 33554432) = 10066329 / 16777216 := by
      unfold float32
      rw [roundFloat_eq_of_pos 24 (-149) _ (-1) 10066329 (by norm_num) (by norm_num)
        (roundTiesEven_eq _ _ (by norm_num) (by norm_num))]
      norm_num
    have h2 : float32 (7549747 / 8388608 + -(5033165 / 16777216)) = 10066329 / 16777216 := by
      unfold float32
      rw [roundFloat_eq_of_pos 24 (-149) _ (-1) 10066329 (by norm_num) (by norm_num)
        (roundTiesEven_eq _ _ (by norm_num) (by norm_num))]
      norm_num
    rw [← Bool.not_eq_true, AABBcheck_eq_true_iff]
    rintro ⟨⟨h, _⟩, _⟩
    have h3 : float32 (16777215 / 67108864 + 11744051 / 33554432) >
        float32 (7549747 / 8388608 + -(5033165 / 16777216)) := h
    rw [h1, h2] at h3
    exact lt_irrefl _ h3

/-- C30, as amended: in arithmetic without rounding, for a player in one of the
lanes 0, 1, 2 and `0 <= deltaTime <= 1/8`, `Player::Update` returns, with `targetX_` the lane target and the new x given by
`newX - targetX = (1 - 8 deltaTime) (x - targetX)`, so that `newX` lies between
`x` and `targetX`; the new z is `z - 15 deltaTime`; and a player that is not
jumping gets y = 1/2 and stays not jumping. -/
theorem Player_Update_no_overshoot {α : Type} [LinearOrderedField α] (m : Trig α) (now : α)
    (p : Player α) (deltaTime : α) (hlane : 0 ≤ p.currentLane_ ∧ p.currentLane_ ≤ 2)
    (h0 : 0 ≤ deltaTime) (h8 : deltaTime ≤ 1 / 8) :
    ∃ p2 targetX, Player.Update (Rounding.exact α) m now p deltaTime = some p2 ∧
      lanePositions_at (Rounding.exact α) p.currentLane_ = some targetX ∧
      p2.targetX_ = targetX ∧
      p2.position.x - targetX = (1 - 8 * deltaTime) * (p.position.x - targetX) ∧
      min p.position.x targetX ≤ p2.position.x ∧ p2.position.x ≤ max p.position.x targetX ∧
      p2.position.z = p.position.z - 15 * deltaTime ∧
      (p.isJumping_ = false → p2.position.y = 1 / 2 ∧ p2.isJumping_ = false) := by
  have hid : ∀ x : α, (Rounding.exact α).f32 x = x := fun _ => rfl
  have hid2 : ∀ x : α, (Rounding.exact α).f64 x = x := fun _ => rfl
  have hl := lanePositions_at_lane (Rounding.exact α) p.currentLane_ hlane
  simp only [hid] at hl
  have h1 : 0 ≤ 1 - 8 * deltaTime := by linarith
  have h2 : 0 ≤ 8 * deltaTime := by linarith
  unfold Player.Update
  rw [hl]
  refine ⟨_, _, rfl, rfl, rfl, ?_, ?_, ?_, ?_, ?_⟩
  · simp only [hid, hid2]
    ring
  · simp only [hid, hid2]
    rcases le_total p.position.x (([-(9 / 10), 0, 9 / 10] : List α).getD p.currentLane_.toNat 0)
      with h | h
    · rw [min_eq_left h]
      nlinarith [mul_nonneg h2 (sub_nonneg.mpr h)]
    · rw [min_eq_right h]
      nlinarith [mul_nonneg h1 (sub_nonneg.mpr h)]
  · simp only [hid, hid2]
    rcases le_total p.position.x (([-(9 / 10), 0, 9 / 10] : List α).getD p.currentLane_.toNat 0)
      with h | h
    · rw [max_eq_right h]
      nlinarith [mul_nonneg h1 (sub_nonneg.mpr h)]
    · rw [max_eq_left h]
      nlinarith [mul_nonneg h2 (sub_nonneg.mpr h)]
  · simp only [hid, hid2]
  · intro hj
    dsimp only
    simp [hj]

theorem Player_Update_no_overshoot_witness :
    ∃ p2 : Player ℚ,
      Player.Update (Rounding.exact ℚ) (Trig.mk (fun _ => 1) (fun _ => 0) (22 / 7)) 0
        (Player.mk ⟨0, 1 / 2, 0⟩ (7 / 20) (-(7 / 20)) (9 / 50) (-(1 / 2)) 2 0 false 0 (3 / 2)
          (3 / 5)) (1 / 10) = some p2 ∧
      p2.position.z = 0 - 15 * (1 / 10) ∧ p2.position.y = 1 / 2 := by
  obtain ⟨p2, _, h, _, _, _, _, _, hz, hy⟩ := Player_Update_no_overshoot
    (Trig.mk (fun _ => 1) (fun _ => 0) (22 / 7)) 0
    (Player.mk ⟨0, 1 / 2, 0⟩ (7 / 20) (-(7 / 20)) (9 / 50) (-(1 / 2)) 2 0 false 0 (3 / 2)
      (3 / 5) : Player ℚ) (1 / 10) ⟨by decide, by decide⟩ (by norm_num) (by norm_num)
  exact ⟨p2, h, hz, (hy rfl).1⟩

/-- C30 as stated fails in float arithmetic.  A player at x = -0.89997298f =
-15099041/2^24 in lane 2 (target 0.9f = 15099494/2^24) with `deltaTime` = 1/8:
the float difference `targetX_ - x` is a tie that rounds up to 30198536/2^24, so
the new x is 15099495/2^24 = 0.90000004, beyond the target, and `newX - targetX`
is not `(1 - 8 * deltaTime) * (x - targetX)` = 0. -/
theorem Player_Update_overshoots :
    ∃ p2 : Player ℚ,
      Player.Update Rounding.ieee (Trig.mk (fun _ => 1) (fun _ => 0) (22 / 7)) 0
        (Player.mk ⟨-(15099041 / 16777216), 1 / 2, 0⟩ (11744051 / 33554432)
          (-(11744051 / 33554432)) (3019899 / 16777216) (-(1 / 2)) 2 0 false 0 (3 / 2)
          (5033165 / 8388608)) (1 / 8) = some p2 ∧
      p2.targetX_ = 7549747 / 8388608 ∧
      p2.position.x = 15099495 / 16777216 ∧
      -(15099041 / 16777216) < p2.targetX_ ∧ p2.targetX_ < p2.position.x ∧
      p2.position.x - p2.targetX_ ≠
        (1 - 8 * (1 / 8)) * (-(15099041 / 16777216) - p2.targetX_) := by
  have ht : float32 (9 / 10) = 7549747 / 8388608 := by
    unfold float32
    rw [roundFloat_eq_of_pos 24 (-149) _ (-1) 15099494 (by norm_num) (by norm_num)
      (roundTiesEven_eq _ _ (by norm_num) (by norm_num))]
    norm_num
  have hd : float32 (7549747 / 8388608 - -(15099041 / 16777216)) = 3774817 / 2097152 := by
    unfold float32
    rw [roundFloat_eq_of_pos 24 (-149) _ 0 15099268 (by norm_num) (by norm_num)
      ((roundTiesEven_tie _ 15099267 (by norm_num)).trans (by decide))]
    norm_num
  have hd8 : float32 (3774817 / 2097152 * 8) = 3774817 / 262144 := by
    unfold float32
    rw [roundFloat_eq_of_pos 24 (-149) _ 3 15099268 (by norm_num) (by norm_num)
      (roundTiesEven_eq _ _ (by norm_num) (by norm_num))]
    norm_num
  have hm : float64 (3774817 / 262144 * (1 / 8)) = 3774817 / 2097152 := by
    unfold float64
    rw [roundFloat_eq_of_pos 53 (-1074) _ 0 8106357781692416 (by norm_num) (by norm_num)
      (roundTiesEven_eq _ _ (by norm_num) (by norm_num))]
    norm_num
  have hs : float64 (-(15099041 / 16777216) + 3774817 / 2097152) = 15099495 / 16777216 := by
    unfold float64
    rw [roundFloat_eq_of_pos 53 (-1074) _ (-1) 8106479651389440 (by norm_num) (by norm_num)
      (roundTiesEven_eq _ _ (by norm_num) (by norm_num))]
    norm_num
  have hn : float32 (15099495 / 16777216) = 15099495 / 16777216 := by
    unfold float32
    rw [roundFloat_eq_of_pos 24 (-149) _ (-1) 15099495 (by norm_num) (by norm_num)
      (roundTiesEven_eq _ _ (by norm_num) (by norm_num))]
    norm_num
  have hx : float32 (float64 (-(15099041 / 16777216) +
      float64 (float32 (float32 (float32 (9 / 10) - -(15099041 / 16777216)) * 8) * (1 / 8)))) =
      15099495 / 16777216 := by
    rw [ht, hd, hd8, hm, hs, hn]
  have hl := lanePositions_at_lane Rounding.ieee 2 (by decide)
  have hg : ([Rounding.ieee.f32 (-(9 / 10)), 0, Rounding.ieee.f32 (9 / 10)] : List ℚ).getD
      (2 : Int).toNat 0 = float32 (9 / 10) := rfl
  rw [hg] at hl
  unfold Player.Update
  rw [hl]
  refine ⟨_, rfl, ht, hx, ?_, ?_, ?_⟩
  · show -(15099041 / 16777216 : ℚ) < float32 (9 / 10)
    rw [ht]
    norm_num
  · show float32 (9 / 10) < float32 (float64 (-(15099041 / 16777216) +
      float64 (float32 (float32 (float32 (9 / 10) - -(15099041 / 16777216)) * 8) * (1 / 8))))
    rw [hx, ht]
    norm_num
  · show float32 (float64 (-(15099041 / 16777216) +
      float64 (float32 (float32 (float32 (9 / 10) - -(15099041 / 16777216)) * 8) * (1 / 8)))) -
        float32 (9 / 10) ≠ (1 - 8 * (1 / 8)) * (-(15099041 / 16777216) - float32 (9 / 10))
    rw [hx, ht]
    norm_num

/-! ## The torus as a closed oriented surface -/

/-- The index stored for corner `k` of triangle `h` of the quad (i, j) is the
index of the grid point `CreateTorus.corner`. -/
theorem CreateTorus_corner_spec (L C i j h k : Nat) (hN : L * C ≤ 2 ^ 24) (hi : i < L)
    (hj : j < C) (hh : h < 2) (hk : k < 3) :
    quadAttr (CreateTorus.t1 L C i j) (CreateTorus.t2 L C i j) (3 * h + k) =
      (CreateTorus.corner L C i j h k).1 * C + (CreateTorus.corner L C i j h k).2 := by
  obtain ⟨e1, e2⟩ := CreateTorus_triangles_exact L C i j hN hi hj
  rw [e1, e2]
  interval_cases h <;> interval_cases k <;>
    simp [quadAttr, vec3.get, CreateTorus.corner]

theorem CreateTorus_corner_lt (L C i j h k : Nat) (hi : i < L) (hj : j < C) :
    (CreateTorus.corner L C i j h k).1 < L ∧ (CreateTorus.corner L C i j h k).2 < C := by
  have hm : (i + 1) % L < L := Nat.mod_lt _ (by omega)
  have hn : (j + 1) % C < C := Nat.mod_lt _ (by omega)
  unfold CreateTorus.corner
  split_ifs <;> exact ⟨by assumption, by assumption⟩

/-- The successor modulo `n` of an index below `n`. -/
theorem succ_mod_cases (x n : Nat) (hx : x < n) :
    ((x + 1) % n = x + 1 ∧ x + 1 < n) ∨ ((x + 1) % n = 0 ∧ x + 1 = n) := by
  rcases Nat.lt_or_ge (x + 1) n with h | h
  · exact Or.inl ⟨Nat.mod_eq_of_lt h, h⟩
  · have : x + 1 = n := by omega
    exact Or.inr ⟨by rw [this, Nat.mod_self], this⟩

/-- The element `k` of triangle slot `(i * C + j) * 2 + h` of the face buffer. -/
theorem CreateTorus_face_triangle (L C i j h k : Nat) (hN : L * C ≤ 2 ^ 24) (hi : i < L)
    (hj : j < C)
    (hh : h < 2) (hk : k < 3) :
    (Buffer.new : Buffer Nat).stores (CreateTorus.faceStores L C)
        (((i * C + j) * 2 + h) * face_att + k) =
      some ((CreateTorus.corner L C i j h k).1 * C + (CreateTorus.corner L C i j h k).2) := by
  have h1 := (CreateTorus_face_spec L C).1 i j (3 * h + k) hi hj (by omega)
  rw [CreateTorus_corner_spec L C i j h k hN hi hj hh hk] at h1
  rw [← h1]
  congr 1
  simp only [face_att]
  omega

/-- The directed edges of the triangles of the torus, by grid coordinates. -/
theorem CreateTorus_hasEdge_iff (L C q u w : Nat) (hN : L * C ≤ 2 ^ 24) :
    ((Buffer.new : Buffer Nat).stores (CreateTorus.faceStores L C)).hasEdge q u w ↔
      ∃ i j h k, i < L ∧ j < C ∧ h < 2 ∧ k < 3 ∧ q = (i * C + j) * 2 + h ∧
        u = (CreateTorus.corner L C i j h k).1 * C + (CreateTorus.corner L C i j h k).2 ∧
        w = (CreateTorus.corner L C i j h ((k + 1) % 3)).1 * C +
          (CreateTorus.corner L C i j h ((k + 1) % 3)).2 := by
  constructor
  · rintro ⟨k, hk, hu, hw⟩
    have hq : q < L * C * 2 := by
      by_contra hge
      have hn := (CreateTorus_face_spec L C).2 (q * face_att + k) (by
        simp only [face_att]
        omega)
      rw [hn] at hu
      exact Option.noConfusion hu
    obtain ⟨i, j, h, hi, hj, hh, rfl⟩ := grid_decomp hq
    have hk1 : (k + 1) % 3 < 3 := Nat.mod_lt _ (by decide)
    rw [CreateTorus_face_triangle L C i j h k hN hi hj hh hk] at hu
    rw [CreateTorus_face_triangle L C i j h _ hN hi hj hh hk1] at hw
    exact ⟨i, j, h, k, hi, hj, hh, hk, rfl, (Option.some.inj hu).symm, (Option.some.inj hw).symm⟩
  · rintro ⟨i, j, h, k, hi, hj, hh, hk, rfl, rfl, rfl⟩
    exact ⟨k, hk, CreateTorus_face_triangle L C i j h k hN hi hj hh hk,
      CreateTorus_face_triangle L C i j h _ hN hi hj hh (Nat.mod_lt _ (by decide))⟩

/-- For `L, C >= 3` a directed edge, as a pair of grid points, is an edge of at
most one triangle of the torus, and at one position of it. -/
theorem CreateTorus_directed_edge_unique (L C : Nat) (hL : 3 ≤ L) (hC : 3 ≤ C)
    (i j h k i2 j2 h2 k2 : Nat) (hi : i < L) (hj : j < C) (hh : h < 2) (hk : k < 3)
    (hi2 : i2 < L) (hj2 : j2 < C) (hh2 : h2 < 2) (hk2 : k2 < 3)
    (e1 : CreateTorus.corner L C i j h k = CreateTorus.corner L C i2 j2 h2 k2)
    (e2 : CreateTorus.corner L C i j h ((k + 1) % 3) =
      CreateTorus.corner L C i2 j2 h2 ((k2 + 1) % 3)) :
    i = i2 ∧ j = j2 ∧ h = h2 ∧ k = k2 := by
  have si := succ_mod_cases i L hi
  have sj := succ_mod_cases j C hj
  have si2 := succ_mod_cases i2 L hi2
  have sj2 := succ_mod_cases j2 C hj2
  unfold CreateTorus.corner at e1 e2
  generalize (i + 1) % L = a at *
  generalize (j + 1) % C = b at *
  generalize (i2 + 1) % L = a2 at *
  generalize (j2 + 1) % C = b2 at *
  interval_cases h <;> interval_cases k <;> interval_cases h2 <;> interval_cases k2 <;>
    simp only [Nat.reduceAdd, Nat.reduceMod, Nat.reduceEqDiff, if_true, if_false,
      Nat.succ_ne_zero, OfNat.ofNat_ne_zero, OfNat.ofNat_ne_one, one_ne_zero, zero_ne_one,
      Prod.mk.injEq] at e1 e2 <;>
    omega
/-- The predecessor modulo `n` of an index below `n`. -/
theorem pred_mod_exists (x n : Nat) (hn : 2 ≤ n) (hx : x < n) :
    ∃ y, y < n ∧ y ≠ x ∧ (y + 1) % n = x := by
  rcases Nat.eq_zero_or_pos x with h0 | h0
  · refine ⟨n - 1, by omega, by omega, ?_⟩
    rw [Nat.sub_add_cancel (by omega), Nat.mod_self, h0]
  · refine ⟨x - 1, by omega, by omega, ?_⟩
    rw [Nat.sub_add_cancel h0, Nat.mod_eq_of_lt hx]

/-- For `L, C >= 2` each directed edge of a triangle of the torus is, reversed,
an edge of another triangle. -/
theorem CreateTorus_edge_twin (L C : Nat) (hL : 2 ≤ L) (hC : 2 ≤ C)
    (i j h k : Nat) (hi : i < L) (hj : j < C) (hh : h < 2) (hk : k < 3) :
    ∃ i2 j2 h2 k2, i2 < L ∧ j2 < C ∧ h2 < 2 ∧ k2 < 3 ∧ ¬ (i2 = i ∧ j2 = j ∧ h2 = h) ∧
      CreateTorus.corner L C i2 j2 h2 k2 = CreateTorus.corner L C i j h ((k + 1) % 3) ∧
      CreateTorus.corner L C i2 j2 h2 ((k2 + 1) % 3) = CreateTorus.corner L C i j h k := by
  obtain ⟨pi, hpi, hpin, hpis⟩ := pred_mod_exists i L hL hi
  obtain ⟨pj, hpj, hpjn, hpjs⟩ := pred_mod_exists j C hC hj
  have hm : (i + 1) % L < L := Nat.mod_lt _ (by omega)
  have hn : (j + 1) % C < C := Nat.mod_lt _ (by omega)
  have si := succ_mod_cases i L hi
  have sj := succ_mod_cases j C hj
  interval_cases h <;> interval_cases k
  · exact ⟨i, j, 1, 2, hi, hj, by decide, by decide, by omega,
      by simp [CreateTorus.corner], by simp [CreateTorus.corner]⟩
  · exact ⟨pi, j, 1, 0, hpi, hj, by decide, by decide, by omega,
      by simp [CreateTorus.corner, hpis], by simp [CreateTorus.corner, hpis]⟩
  · exact ⟨i, pj, 1, 1, hi, hpj, by decide, by decide, by omega,
      by simp [CreateTorus.corner, hpjs], by simp [CreateTorus.corner, hpjs]⟩
  · exact ⟨(i + 1) % L, j, 0, 1, hm, hj, by decide, by decide, by omega,
      by simp [CreateTorus.corner], by simp [CreateTorus.corner]⟩
  · exact ⟨i, (j + 1) % C, 0, 2, hi, hn, by decide, by decide, by omega,
      by simp [CreateTorus.corner], by simp [CreateTorus.corner]⟩
  · exact ⟨i, j, 0, 0, hi, hj, by decide, by decide, by omega,
      by simp [CreateTorus.corner], by simp [CreateTorus.corner]⟩

/-- C23, as amended: for `L >= 3` and `C >= 3` with at most 2^24 = 16777216
vertices (`L * C <= 2^24`) the index buffer of `CreateTorus` is a closed,
consistently oriented surface.  Each of the `L * C * 2` triangle slots holds three
indices below `L * C`; for every directed edge `u -> w` of a triangle `q` the
reversed edge `w -> u` is an edge of a triangle `q2` other than `q`, and of no
triangle but `q2`; and every vertex index below `L * C` is stored in some
triangle. -/
theorem CreateTorus_closed_oriented {α : Type} [Field α] (m : Trig α) (rm : ResourceManager)
    (name : String) (loop_radius circle_radius : α) (L C vbo ebo : Nat)
    (hL : 3 ≤ L) (hC : 3 ≤ C) (hN : L * C ≤ 2 ^ 24) :
    (∀ q k, q < L * C * 2 → k < 3 → ∃ v, v < L * C ∧
      (CreateTorus m rm name loop_radius circle_radius L C vbo ebo).face (q * face_att + k) =
        some v) ∧
    (∀ q u w,
      (CreateTorus m rm name loop_radius circle_radius L C vbo ebo).face.hasEdge q u w →
      ∃ q2, q2 < L * C * 2 ∧ q2 ≠ q ∧
        (CreateTorus m rm name loop_radius circle_radius L C vbo ebo).face.hasEdge q2 w u ∧
        ∀ q3,
          (CreateTorus m rm name loop_radius circle_radius L C vbo ebo).face.hasEdge q3 w u →
          q3 = q2) ∧
    (∀ v, v < L * C → ∃ q k, q < L * C * 2 ∧ k < 3 ∧
      (CreateTorus m rm name loop_radius circle_radius L C vbo ebo).face (q * face_att + k) =
        some v) := by
  have hface : (CreateTorus m rm name loop_radius circle_radius L C vbo ebo).face =
      (Buffer.new : Buffer Nat).stores (CreateTorus.faceStores L C) := rfl
  rw [hface]
  refine ⟨?_, ?_, ?_⟩
  · intro q k hq hk
    obtain ⟨i, j, h, hi, hj, hh, rfl⟩ := grid_decomp hq
    have hc := CreateTorus_corner_lt L C i j h k hi hj
    exact ⟨_, grid_lt hc.1 hc.2, CreateTorus_face_triangle L C i j h k hN hi hj hh hk⟩
  · intro q u w he
    obtain ⟨i, j, h, k, hi, hj, hh, hk, rfl, rfl, rfl⟩ := (CreateTorus_hasEdge_iff L C q u w hN).1 he
    obtain ⟨i2, j2, h2, k2, hi2, hj2, hh2, hk2, hne, e1, e2⟩ :=
      CreateTorus_edge_twin L C (by omega) (by omega) i j h k hi hj hh hk
    have hq2 : (i2 * C + j2) * 2 + h2 < L * C * 2 := by
      have := grid_lt hi2 hj2
      omega
    refine ⟨(i2 * C + j2) * 2 + h2, hq2, ?_, ?_, ?_⟩
    · intro heq
      obtain ⟨h3, h4⟩ := cell_inj hh2 hh heq
      obtain ⟨h5, h6⟩ := cell_inj hj2 hj h3
      exact hne ⟨h5, h6, h4⟩
    · exact (CreateTorus_hasEdge_iff L C _ _ _ hN).2
        ⟨i2, j2, h2, k2, hi2, hj2, hh2, hk2, rfl, by rw [e1], by rw [e2]⟩
    · intro q3 he3
      obtain ⟨i3, j3, h3, k3, hi3, hj3, hh3, hk3, rfl, e3, e4⟩ :=
        (CreateTorus_hasEdge_iff L C q3 _ _ hN).1 he3
      rw [← e1] at e3
      rw [← e2] at e4
      have b2 := CreateTorus_corner_lt L C i2 j2 h2 k2 hi2 hj2
      have b2s := CreateTorus_corner_lt L C i2 j2 h2 ((k2 + 1) % 3) hi2 hj2
      have b3 := CreateTorus_corner_lt L C i3 j3 h3 k3 hi3 hj3
      have b3s := CreateTorus_corner_lt L C i3 j3 h3 ((k3 + 1) % 3) hi3 hj3
      have c1 := cell_inj b2.2 b3.2 e3
      have c2 := cell_inj b2s.2 b3s.2 e4
      obtain ⟨r1, r2, r3, _⟩ := CreateTorus_directed_edge_unique L C hL hC
        i2 j2 h2 k2 i3 j3 h3 k3 hi2 hj2 hh2 hk2 hi3 hj3 hh3 hk3
        (Prod.ext c1.1 c1.2) (Prod.ext c2.1 c2.2)
      rw [r1, r2, r3]
  · intro v hv
    have hv1 : v < L * C * 1 := by omega
    obtain ⟨i, j, c, hi, hj, hc, rfl⟩ := grid_decomp hv1
    have hc0 : c = 0 := by omega
    subst hc0
    have hq : (i * C + j) * 2 + 0 < L * C * 2 := by
      have := grid_lt hi hj
      omega
    refine ⟨(i * C + j) * 2 + 0, 2, hq, by decide, ?_⟩
    rw [CreateTorus_face_triangle L C i j 0 2 hN hi hj (by decide) (by decide)]
    simp [CreateTorus.corner]

theorem CreateTorus_closed_oriented_witness :
    (3 ≤ 3 ∧ 3 ≤ 4 ∧ 3 * 4 ≤ 2 ^ 24) ∧
    ∀ v, v < 3 * 4 → ∃ q k, q < 3 * 4 * 2 ∧ k < 3 ∧
      (CreateTorus (Trig.mk Real.cos Real.sin Real.pi) ResourceManager.new "TorusMesh" 1
        (1 / 2) 3 4 1 2).face (q * face_att + k) = some v :=
  ⟨⟨by decide, by decide, by decide⟩,
    (CreateTorus_closed_oriented (Trig.mk Real.cos Real.sin Real.pi) ResourceManager.new
      "TorusMesh" 1 (1 / 2) 3 4 1 2 (by decide) (by decide) (by decide)).2.2⟩


/-! ## The index buffers beyond 2^24 vertices -/

/-- C23 as stated fails beyond 2^24 vertices.  In `CreateTorus(name, R, r, 3,
5592407)`, with 16777221 vertices, the index 2 * 5592407 + 5592403 = 16777217 is
held by its float as 16777216.  The triangle in slot 33554433 (`t2` of the quad
(2, 5592402)) is stored as (5592402, 5592403, 16777216) and has the directed edge
16777216 -> 5592402; the reversed edge 5592402 -> 16777216 is an edge of two
other triangles: of slot 33554432 (`t1` of the same quad, stored as (5592402,
16777216, 16777216)) and of slot 33554431 (`t2` of the quad (2, 5592401), stored
as (5592401, 5592402, 16777216)). -/
theorem CreateTorus_reversed_edge_twice :
    33554433 < 3 * 5592407 * 2 ∧
    (CreateTorus (Trig.mk Real.cos Real.sin Real.pi) ResourceManager.new "TorusMesh" 1
      (1 / 2) 3 5592407 1 2).face.hasEdge 33554433 16777216 5592402 ∧
    (CreateTorus (Trig.mk Real.cos Real.sin Real.pi) ResourceManager.new "TorusMesh" 1
      (1 / 2) 3 5592407 1 2).face.hasEdge 33554432 5592402 16777216 ∧
    (CreateTorus (Trig.mk Real.cos Real.sin Real.pi) ResourceManager.new "TorusMesh" 1
      (1 / 2) 3 5592407 1 2).face.hasEdge 33554431 5592402 16777216 := by
  have a5 := CreateTorus_face_at (Trig.mk Real.cos Real.sin Real.pi) ResourceManager.new
    "TorusMesh" 1 (1 / 2) 3 5592407 1 2 2 5592402 5 (by decide) (by decide) (by decide)
  have a3 := CreateTorus_face_at (Trig.mk Real.cos Real.sin Real.pi) ResourceManager.new
    "TorusMesh" 1 (1 / 2) 3 5592407 1 2 2 5592402 3 (by decide) (by decide) (by decide)
  have a0 := CreateTorus_face_at (Trig.mk Real.cos Real.sin Real.pi) ResourceManager.new
    "TorusMesh" 1 (1 / 2) 3 5592407 1 2 2 5592402 0 (by decide) (by decide) (by decide)
  have a1 := CreateTorus_face_at (Trig.mk Real.cos Real.sin Real.pi) ResourceManager.new
    "TorusMesh" 1 (1 / 2) 3 5592407 1 2 2 5592402 1 (by decide) (by decide) (by decide)
  have b4 := CreateTorus_face_at (Trig.mk Real.cos Real.sin Real.pi) ResourceManager.new
    "TorusMesh" 1 (1 / 2) 3 5592407 1 2 2 5592401 4 (by decide) (by decide) (by decide)
  have b5 := CreateTorus_face_at (Trig.mk Real.cos Real.sin Real.pi) ResourceManager.new
    "TorusMesh" 1 (1 / 2) 3 5592407 1 2 2 5592401 5 (by decide) (by decide) (by decide)
  have s5 : (2 * 5592407 + 5592402) * 6 + 5 = 33554433 * face_att + 2 := by
    norm_num [face_att]
  have s3 : (2 * 5592407 + 5592402) * 6 + 3 = 33554433 * face_att + (2 + 1) % 3 := by
    norm_num [face_att]
  have s0 : (2 * 5592407 + 5592402) * 6 + 0 = 33554432 * face_att + 0 := by
    norm_num [face_att]
  have s1 : (2 * 5592407 + 5592402) * 6 + 1 = 33554432 * face_att + (0 + 1) % 3 := by
    norm_num [face_att]
  have t4 : (2 * 5592407 + 5592401) * 6 + 4 = 33554431 * face_att + 1 := by
    norm_num [face_att]
  have t5 : (2 * 5592407 + 5592401) * 6 + 5 = 33554431 * face_att + (1 + 1) % 3 := by
    norm_num [face_att]
  have small : float32_index 5592402 = 5592402 := float32_index_of_lt _ (by norm_num)
  have e5 : quadAttr (CreateTorus.t1 3 5592407 2 5592402) (CreateTorus.t2 3 5592407 2 5592402)
      5 = float32_index 16777217 := by simp [quadAttr, CreateTorus.t2, vec3.get]
  have e3 : quadAttr (CreateTorus.t1 3 5592407 2 5592402) (CreateTorus.t2 3 5592407 2 5592402)
      3 = float32_index 5592402 := by simp [quadAttr, CreateTorus.t2, vec3.get]
  have e0 : quadAttr (CreateTorus.t1 3 5592407 2 5592402) (CreateTorus.t2 3 5592407 2 5592402)
      0 = float32_index 5592402 := by simp [quadAttr, CreateTorus.t1, vec3.get]
  have e1 : quadAttr (CreateTorus.t1 3 5592407 2 5592402) (CreateTorus.t2 3 5592407 2 5592402)
      1 = float32_index 16777217 := by simp [quadAttr, CreateTorus.t1, vec3.get]
  have f4 : quadAttr (CreateTorus.t1 3 5592407 2 5592401) (CreateTorus.t2 3 5592407 2 5592401)
      4 = float32_index 5592402 := by simp [quadAttr, CreateTorus.t2, vec3.get]
  have f5 : quadAttr (CreateTorus.t1 3 5592407 2 5592401) (CreateTorus.t2 3 5592407 2 5592401)
      5 = float32_index 16777216 := by simp [quadAttr, CreateTorus.t2, vec3.get]
  rw [s5, e5, float32_index_16777217] at a5
  rw [s3, e3, small] at a3
  rw [s0, e0, small] at a0
  rw [s1, e1, float32_index_16777217] at a1
  rw [t4, f4, small] at b4
  rw [t5, f5, float32_index_16777216] at b5
  exact ⟨by decide, ⟨2, by decide, a5, a3⟩, ⟨0, by decide, a0, a1⟩, ⟨1, by decide, b4, b5⟩⟩

theorem float32_16777218 : float32 16777218 = 16777218 := by
  unfold float32
  rw [roundFloat_eq 24 (-149) 16777218 24 8388609 (by norm_num) (by norm_num)
    (roundTiesEven_eq _ _ (by norm_num) (by norm_num))]
  norm_num

theorem float32_index_16777218 : float32_index 16777218 = 16777218 := by
  rw [float32_index_eq_floor]
  have h : float32 ((16777218 : ℕ) : ℚ) = ((16777218 : ℤ) : ℚ) := by
    rw [show ((16777218 : ℕ) : ℚ) = 16777218 by norm_num, float32_16777218]
    norm_num
  rw [h, Int.floor_intCast]
  rfl

/-- The area vector of the triangle on three points of a meridian of the unit
sphere, at the angles `a`, `2 a` and 0 from the pole, is not zero for
`0 < a < pi`. -/
theorem meridian_triangle_not_degenerate (a : ℝ) (h0 : 0 < a) (hpi : a < Real.pi) :
    triangleCross (⟨Real.sin a, 0, -Real.cos a⟩ : vec3 ℝ)
      ⟨Real.sin (2 * a), 0, -Real.cos (2 * a)⟩ ⟨0, 0, -1⟩ ≠ ⟨0, 0, 0⟩ := by
  intro h
  have hy := congrArg vec3.y h
  simp only [triangleCross, vec3.cross, vec3.sub, Real.sin_two_mul, Real.cos_two_mul] at hy
  have hs : 0 < Real.sin a := Real.sin_pos_of_pos_of_lt_pi h0 hpi
  have hc : Real.cos a ≠ 1 := by
    intro h1
    have := (Real.cos_eq_one_iff_of_lt_of_lt (by linarith [Real.pi_pos])
      (by linarith [Real.pi_pos])).1 h1
    linarith
  have h2 : 2 * Real.sin a * (Real.cos a - 1) = 0 := by linear_combination hy
  rcases mul_eq_zero.1 h2 with h3 | h3
  · have : Real.sin a = 0 := by linarith
    linarith
  · exact hc (by linarith)

/-- C26 as stated fails beyond 2^24 vertices.  In `CreateSphere(name, 1, 2,
16777216)` the first triangle of the wrapping quad (T - 1, j) = (1, 1) is computed
as (1, 16777218, 16777217); its last corner is held by the float as 16777216, so
the triangle is stored (elements 100663296..100663298) as (1, 16777218,
16777216), three different points of one meridian, and its area vector is not
zero. -/
theorem CreateSphere_seam_triangle_not_degenerate :
    ∃ pa pb pc : vec3 ℝ,
      ((2 - 1) * (16777216 - 1) + 1) * 6 = 100663296 ∧
      (CreateSphere (Trig.mk Real.cos Real.sin Real.pi) ResourceManager.new "SphereMesh" 1
        2 16777216 1 2).face 100663296 = some 1 ∧
      (CreateSphere (Trig.mk Real.cos Real.sin Real.pi) ResourceManager.new "SphereMesh" 1
        2 16777216 1 2).face 100663297 = some 16777218 ∧
      (CreateSphere (Trig.mk Real.cos Real.sin Real.pi) ResourceManager.new "SphereMesh" 1
        2 16777216 1 2).face 100663298 = some 16777216 ∧
      (CreateSphere (Trig.mk Real.cos Real.sin Real.pi) ResourceManager.new "SphereMesh" 1
        2 16777216 1 2).vertex.position 1 = some pa ∧
      (CreateSphere (Trig.mk Real.cos Real.sin Real.pi) ResourceManager.new "SphereMesh" 1
        2 16777216 1 2).vertex.position 16777218 = some pb ∧
      (CreateSphere (Trig.mk Real.cos Real.sin Real.pi) ResourceManager.new "SphereMesh" 1
        2 16777216 1 2).vertex.position 16777216 = some pc ∧
      triangleCross pa pb pc ≠ ⟨0, 0, 0⟩ := by
  have a0 := CreateSphere_face_at (Trig.mk Real.cos Real.sin Real.pi) ResourceManager.new
    "SphereMesh" 1 2 16777216 1 2 1 1 0 (by decide) (by decide) (by decide)
  have a1 := CreateSphere_face_at (Trig.mk Real.cos Real.sin Real.pi) ResourceManager.new
    "SphereMesh" 1 2 16777216 1 2 1 1 1 (by decide) (by decide) (by decide)
  have a2 := CreateSphere_face_at (Trig.mk Real.cos Real.sin Real.pi) ResourceManager.new
    "SphereMesh" 1 2 16777216 1 2 1 1 2 (by decide) (by decide) (by decide)
  have s0 : (1 * (16777216 - 1) + 1) * 6 + 0 = 100663296 := by norm_num
  have s1 : (1 * (16777216 - 1) + 1) * 6 + 1 = 100663297 := by norm_num
  have s2 : (1 * (16777216 - 1) + 1) * 6 + 2 = 100663298 := by norm_num
  have e0 : quadAttr (CreateSphere.t1 2 16777216 1 1) (CreateSphere.t2 2 16777216 1 1) 0 =
      float32_index 1 := by simp [quadAttr, CreateSphere.t1, vec3.get]
  have e1 : quadAttr (CreateSphere.t1 2 16777216 1 1) (CreateSphere.t2 2 16777216 1 1) 1 =
      float32_index 16777218 := by simp [quadAttr, CreateSphere.t1, vec3.get]
  have e2 : quadAttr (CreateSphere.t1 2 16777216 1 1) (CreateSphere.t2 2 16777216 1 1) 2 =
      float32_index 16777217 := by simp [quadAttr, CreateSphere.t1, vec3.get]
  rw [s0, e0, float32_index_of_lt 1 (by norm_num)] at a0
  rw [s1, e1, float32_index_16777218] at a1
  rw [s2, e2, float32_index_16777217] at a2
  have p0 := CreateSphere_buffer_position (Trig.mk Real.cos Real.sin Real.pi)
    ResourceManager.new "SphereMesh" 1 2 16777216 1 2 0 1 (by decide) (by decide)
  have p1 := CreateSphere_buffer_position (Trig.mk Real.cos Real.sin Real.pi)
    ResourceManager.new "SphereMesh" 1 2 16777216 1 2 1 2 (by decide) (by decide)
  have p2 := CreateSphere_buffer_position (Trig.mk Real.cos Real.sin Real.pi)
    ResourceManager.new "SphereMesh" 1 2 16777216 1 2 1 0 (by decide) (by decide)
  rw [show 0 * 16777216 + 1 = 1 by norm_num] at p0
  rw [show 1 * 16777216 + 2 = 16777218 by norm_num] at p1
  rw [show 1 * 16777216 + 0 = 16777216 by norm_num] at p2
  refine ⟨_, _, _, by norm_num, a0, a1, a2, p0, p1, p2, ?_⟩
  have ha0 : (0 : ℝ) < Real.pi / 16777215 := by positivity
  have ha1 : Real.pi / 16777215 < Real.pi := by
    rw [div_lt_iff₀ (by norm_num)]
    linarith [Real.pi_pos]
  have key := meridian_triangle_not_degenerate (Real.pi / 16777215) ha0 ha1
  have q0 : CreateSphere.vertex_position (Trig.mk Real.cos Real.sin Real.pi) 1 2 16777216 0 1 =
      ⟨Real.sin (Real.pi / 16777215), 0, -Real.cos (Real.pi / 16777215)⟩ := by
    simp [CreateSphere.vertex_position, CreateSphere.vertex_normal, CreateSphere.theta,
      CreateSphere.phi]
  have q1 : CreateSphere.vertex_position (Trig.mk Real.cos Real.sin Real.pi) 1 2 16777216 1 2 =
      ⟨Real.sin (2 * (Real.pi / 16777215)), 0, -Real.cos (2 * (Real.pi / 16777215))⟩ := by
    have e : Real.pi * 2 / 16777215 = 2 * (Real.pi / 16777215) := by ring
    simp [CreateSphere.vertex_position, CreateSphere.vertex_normal, CreateSphere.theta,
      CreateSphere.phi, e]
  have q2 : CreateSphere.vertex_position (Trig.mk Real.cos Real.sin Real.pi) 1 2 16777216 1 0 =
      ⟨0, 0, -1⟩ := by
    simp [CreateSphere.vertex_position, CreateSphere.vertex_normal, CreateSphere.theta,
      CreateSphere.phi]
  rw [q0, q1, q2]
  exact key


end game
